import Mathlib

/-!
Verification development for the Neo8085 simulator core: a shallow embedding
of `src/assembler.py` (two-pass assembler) and `src/processor.py` (8085
instruction-level emulator), together with theorems settling the frozen
claims about the natural-language specification.

Conventions of the embedding:
* Python `int` is `Int` (unbounded, signed).
* Python `x & 0xFF`, `x & 0xFFFF`, `x & 0x0F` are `x.emod 256`, `x.emod 65536`,
  `x.emod 16`: for every integer `x` and every mask `2^k - 1`, the
  two=s-complement bitwise AND with the mask equals the nonnegative remainder
  modulo `2^k`, which is exactly `Int.emod` for a positive modulus.
* Python `x >> k` (arithmetic shift) is `x.fdiv (2^k)` (floor division), and
  `x << k` is `x * 2^k`; both are exact for all integers.
* Python `x & (1 << k)` (single-bit test) is `((x.fdiv (2^k)).emod 2) * 2^k`,
  exact for all integers.
* General bitwise `&`, `|`, `^` between two run-time values (the logical
  instructions and the expression evaluator) are embedded by the
  kernel-computable two=s-complement operations `pyAnd`, `pyOr`, `pyXor`
  defined below.
* The idiom `(high << 8) | low`, used to compose register pairs, the PSW and
  return addresses, is embedded as `high * 256 + low` (`hiLo`).  Whenever the
  low operand lies in `[0, 256)` - which holds for every value this program
  stores in an 8-bit register, a flag, or a memory byte - bitwise or of the
  disjoint bit ranges coincides with addition.  The same applies to the flag
  byte, which packs single bits into disjoint positions.
* A Python `bytearray` of length `n` is a function `Nat → Int` together with
  the indexing discipline of CPython: an index `i` with `-n ≤ i < n` is
  accepted (negative values address from the end, i.e. the effective index is
  `i mod n`), anything else raises IndexError; storing a value outside
  `[0, 256)` raises ValueError.
* Python dicts keyed by strings are association lists with
  update-or-append assignment (`dictSet`); `key in dict` is `lookup` success.
* Raised exceptions are `Except` errors.  Message text follows the source
  where the source builds the message, and follows CPython wording for
  built-in exceptions, except that quote characters are omitted.
-/

/-! ## Python-semantics utilities -/

/-- Characters Python `str.strip()` removes (ASCII whitespace). -/
def pyWsChars : List Char := [' ', '\t', '\n', '\r', Char.ofNat 11, Char.ofNat 12]

/-- Strip the given characters from both ends of a string (Python `str.strip(chars)`). -/
def pyStripChars (cs : List Char) (s : String) : String :=
  String.mk (((s.toList.dropWhile (cs.contains ·)).reverse.dropWhile (cs.contains ·)).reverse)

/-- Python `str.strip()` with no arguments: strip whitespace. -/
def pyStripWs (s : String) : String := pyStripChars pyWsChars s

/-- Python `str.upper()` (ASCII letters; the sources only ever contain ASCII). -/
def pyUpper (s : String) : String := String.mk (s.toList.map Char.toUpper)

/-- Python `line.split(";", 1)[0]`: the prefix before the first semicolon. -/
def beforeComment (s : String) : String :=
  String.mk (s.toList.takeWhile (fun c => c ≠ ';'))

/-- Python `c in s` for a single character (kernel-computable replacement
for the built-in, which the kernel cannot evaluate). -/
def pyContains (s : String) (c : Char) : Bool := s.toList.contains c

/-- Python `s.endswith(suffix)` (kernel-computable replacement for the
built-in, which the kernel cannot evaluate). -/
def pyEndsWith (s suffix : String) : Bool :=
  suffix.toList.reverse.isPrefixOf s.toList.reverse

/-- Python `s[:-1]`: drop the final character. -/
def dropLastChar (s : String) : String := String.mk s.toList.dropLast

/-- Worker for `splitOnChar`. -/
def splitOnCharAux (c : Char) : List Char → List Char → List String
  | [], cur => [String.mk cur.reverse]
  | x :: rest, cur =>
    if x == c then String.mk cur.reverse :: splitOnCharAux c rest []
    else splitOnCharAux c rest (x :: cur)

/-- Python `s.split(c)` for a single-character separator (keeps empties). -/
def splitOnChar (c : Char) (s : String) : List String := splitOnCharAux c s.toList []

/-- Does `s` contain the two-character run `cc`?  (The only multi-character
substring tests the sources perform are for `<<` and `>>`.) -/
def hasPair (c : Char) : List Char → Bool
  | x :: y :: rest => (x == c && y == c) || hasPair c (y :: rest)
  | _ => false

/-- Helper for `pySplitWs`: split a character list on whitespace runs. -/
def splitWsAux : List Char → List Char → List String
  | [], acc => if acc.isEmpty then [] else [String.mk acc.reverse]
  | c :: rest, acc =>
    if pyWsChars.contains c then
      if acc.isEmpty then splitWsAux rest [] else String.mk acc.reverse :: splitWsAux rest []
    else splitWsAux rest (c :: acc)

/-- Python `str.split()` with no argument: split on whitespace runs, no empty parts. -/
def pySplitWs (s : String) : List String := splitWsAux s.toList []

/-- Python dict assignment `d[k] = v` on an association list: replace the
binding if the key is present, otherwise append it. -/
def dictSet {κ β : Type} [BEq κ] : List (κ × β) → κ → β → List (κ × β)
  | [], k, v => [(k, v)]
  | (k', v') :: rest, k, v =>
    if k' == k then (k, v) :: rest else (k', v') :: dictSet rest k v

/-- Python `set.add` on a list model of a set (append if absent). -/
def setAdd (l : List Int) (x : Int) : List Int :=
  if l.contains x then l else l ++ [x]

/-- Truthiness of the `error` field: Python `if self.error:` is false for
`None` and for the empty string. -/
def errTruthy : Option String → Bool
  | none => false
  | some m => !m.isEmpty

/-! ### Numeric literal parsing (Python `int(s, 10)` and `int(s, 16)`) -/

/-- Decimal digit value. -/
def decDigit? (c : Char) : Option Nat :=
  if '0' ≤ c ∧ c ≤ '9' then some (c.toNat - '0'.toNat) else none

/-- Hexadecimal digit value (both cases). -/
def hexDigit? (c : Char) : Option Nat :=
  if '0' ≤ c ∧ c ≤ '9' then some (c.toNat - '0'.toNat)
  else if 'a' ≤ c ∧ c ≤ 'f' then some (c.toNat - 'a'.toNat + 10)
  else if 'A' ≤ c ∧ c ≤ 'F' then some (c.toNat - 'A'.toNat + 10)
  else none

def digitInBase? (hexq : Bool) (c : Char) : Option Nat :=
  if hexq then hexDigit? c else decDigit? c

/-- Digit run with single underscores allowed between digits, as CPython
accepts.  `acc` is the value accumulated so far; the head of the remaining
list must be a digit or an underscore followed by a digit. -/
def parseDigitRun (hexq : Bool) : List Char → Nat → Option Nat
  | [], acc => some acc
  | '_' :: c :: rest, acc =>
    match digitInBase? hexq c with
    | some d => parseDigitRun hexq rest (acc * (if hexq then 16 else 10) + d)
    | none => none
  | ['_'], _ => none
  | c :: rest, acc =>
    match digitInBase? hexq c with
    | some d => parseDigitRun hexq rest (acc * (if hexq then 16 else 10) + d)
    | none => none

/-- Parse the digit part of an integer literal: at least one digit, with
single underscores allowed between digits (and after a hex prefix). -/
def parseDigits (hexq : Bool) : List Char → Option Nat
  | [] => none
  | '_' :: _ => none
  | c :: rest =>
    match digitInBase? hexq c with
    | some d => parseDigitRun hexq rest d
    | none => none

/-- Python `int(s, base)` for base 10 or 16: surrounding whitespace, an
optional sign, for base 16 an optional `0x`/`0X` prefix (an underscore may
directly follow the prefix), then digits with single underscores between. -/
def pyInt (hexq : Bool) (s : String) : Option Int :=
  let cs := (pyStripWs s).toList
  let signed : List Char → Option Int := fun body =>
    let core : List Char → Option Nat := fun b =>
      if hexq then
        match b with
        | '0' :: 'x' :: rest => parseDigits hexq ('0' :: rest)
        | '0' :: 'X' :: rest => parseDigits hexq ('0' :: rest)
        | _ => parseDigits hexq b
      else parseDigits hexq b
    (core body).map Int.ofNat
  match cs with
  | '+' :: rest => signed rest
  | '-' :: rest => (signed rest).map Int.neg
  | rest => signed rest

/-! ### Kernel-computable two=s-complement bitwise operations -/

/-- Bitwise combination of two naturals, structurally recursive in a fuel
argument so the kernel can evaluate it.  `f` gives the output bit from the
two input bits. -/
def natBitwise (f : Bool → Bool → Bool) : Nat → Nat → Nat → Nat
  | 0, _, _ => 0
  | fuel + 1, a, b =>
    if a = 0 ∧ b = 0 then 0
    else
      (if f (a % 2 = 1) (b % 2 = 1) then 1 else 0) + 2 * natBitwise f fuel (a / 2) (b / 2)

def natAnd (a b : Nat) : Nat := natBitwise (· && ·) (a + b + 1) a b
def natOr (a b : Nat) : Nat := natBitwise (· || ·) (a + b + 1) a b
def natXor' (a b : Nat) : Nat := natBitwise (· != ·) (a + b + 1) a b
/-- `a AND NOT b` on naturals (clear in `a` every bit set in `b`). -/
def natDiff (a b : Nat) : Nat := natBitwise (fun x y => x && !y) (a + b + 1) a b

/-- Python `a & b` on arbitrary integers (two=s complement). -/
def pyAnd : Int → Int → Int
  | .ofNat a, .ofNat b => .ofNat (natAnd a b)
  | .ofNat a, .negSucc b => .ofNat (natDiff a b)
  | .negSucc a, .ofNat b => .ofNat (natDiff b a)
  | .negSucc a, .negSucc b => .negSucc (natOr a b)

/-- Python `a | b` on arbitrary integers (two=s complement). -/
def pyOr : Int → Int → Int
  | .ofNat a, .ofNat b => .ofNat (natOr a b)
  | .ofNat a, .negSucc b => .negSucc (natDiff b a)
  | .negSucc a, .ofNat b => .negSucc (natDiff a b)
  | .negSucc a, .negSucc b => .negSucc (natAnd a b)

/-- Python `a ^ b` on arbitrary integers (two=s complement). -/
def pyXor : Int → Int → Int
  | .ofNat a, .ofNat b => .ofNat (natXor' a b)
  | .ofNat a, .negSucc b => .negSucc (natXor' a b)
  | .negSucc a, .ofNat b => .negSucc (natXor' a b)
  | .negSucc a, .negSucc b => .ofNat (natXor' a b)

/-- Python `(high << 8) | low`; addition coincides with the bitwise or
because the operands occupy disjoint bit ranges for every value the program
stores (see the header). -/
def hiLo (high low : Int) : Int := high * 256 + low

/-- Python single-bit mask `x & (1 << k)`, exact for all integers. -/
def bitMask (x : Int) (k : Nat) : Int := ((x.fdiv (2 ^ k)).emod 2) * 2 ^ k

/-- Number of one bits among the low 8 bits of a nonnegative value below 256
(Python `bin(x).count("1")` after masking with `0xFF`). -/
def bitCount8 (n : Nat) : Nat :=
  n % 2 + n / 2 % 2 + n / 4 % 2 + n / 8 % 2 + n / 16 % 2 + n / 32 % 2 + n / 64 % 2 + n / 128 % 2

/-! ### Hexadecimal formatting (Python `f"{pc:04X}"`) -/

def hexDigitChar (n : Nat) : Char :=
  if n < 10 then Char.ofNat ('0'.toNat + n) else Char.ofNat ('A'.toNat + (n - 10))

/-- Uppercase hexadecimal digits of a natural, fuel-recursive. -/
def hexDigitsAux : Nat → Nat → List Char → List Char
  | 0, _, acc => acc
  | _ + 1, 0, acc => acc
  | fuel + 1, n, acc => hexDigitsAux fuel (n / 16) (hexDigitChar (n % 16) :: acc)

def hexStr (n : Nat) : String :=
  if n = 0 then "0" else String.mk (hexDigitsAux (n + 1) n [])

def padZeros (s : String) (w : Nat) : String :=
  if w ≤ s.length then s else String.mk (List.replicate (w - s.length) '0') ++ s

/-- Python `format(x, "04X")`: zero-padded to width 4, the sign included in
the width. -/
def formatHex04 (x : Int) : String :=
  if x < 0 then "-" ++ padZeros (hexStr (-x).toNat) 3 else padZeros (hexStr x.toNat) 4

/-! ## Assembler embedding (`src/assembler.py`) -/

/-- Exceptions the assembler can raise, distinguished because the source
catches `ValueError` selectively while `SyntaxError`, `ZeroDivisionError` and
`IndexError` propagate. -/
inductive PyExn where
  | syntaxError (m : String)
  | valueError (m : String)
  | zeroDivision (m : String)
  | indexError (m : String)
deriving Repr, DecidableEq

/-- Container for the results of the assembly process (class `AssemblyOutput`). -/
structure AssemblyOutput where
  memory : Nat → Int
  parsed_program : List (Int × List String)
  line_to_address_map : List (Nat × Int)
  address_to_line_map : List (Int × Nat)
  labels : List (String × Int)
  symbols : List (String × Int)
  program_end_address : Int
  program_memory_range : List Int
  data_memory_range : List Int
  starting_address : Int

/-- `AssemblyOutput.__init__`. -/
def AssemblyOutput.init : AssemblyOutput where
  memory := fun _ => 0
  parsed_program := []
  line_to_address_map := []
  address_to_line_map := []
  labels := []
  symbols := []
  program_end_address := 0
  program_memory_range := []
  data_memory_range := []
  starting_address := 0

/-- Assignment into a length-`n` bytearray: CPython accepts indices in
`[-n, n)` (negative from the end) and values in `[0, 256)`. -/
def baSet (n : Nat) (mem : Nat → Int) (idx v : Int) : Except PyExn (Nat → Int) :=
  if -(n : Int) ≤ idx ∧ idx < (n : Int) then
    if 0 ≤ v ∧ v < 256 then
      let i := (idx.emod n).toNat
      .ok (fun j => if j = i then v else mem j)
    else .error (.valueError "byte must be in range(0, 256)")
  else .error (.indexError "bytearray index out of range")

/-- Reading a length-`n` bytearray at a possibly negative index. -/
def baGet (n : Nat) (mem : Nat → Int) (idx : Int) : Except PyExn Int :=
  if -(n : Int) ≤ idx ∧ idx < (n : Int) then .ok (mem (idx.emod n).toNat)
  else .error (.indexError "bytearray index out of range")

namespace Assembler

/-- `Assembler8085.valid_opcodes`. -/
def valid_opcodes : List String :=
  ["MVI", "MOV", "LXI", "LDA", "STA", "ADD", "ADI", "SUB", "INR", "DCR",
   "JMP", "JZ", "JNZ", "JC", "JNC", "JP", "JM", "JPE", "JPO", "HLT",
   "INX", "PUSH", "POP", "CALL", "RET", "CPI", "DAD", "XCHG", "DS", "ORG",
   "END", "EQU", "LDAX", "STAX", "LHLD", "SHLD", "PCHL", "SPHL", "XTHL",
   "ANA", "ANI", "ORA", "ORI", "XRA", "XRI", "CMA", "CMC", "STC", "RLC",
   "RRC", "RAL", "RAR", "ADC", "ACI", "SBB", "SBI", "DAA", "DCX",
   "CC", "CNC", "CZ", "CNZ", "CP", "CM", "CPE", "CPO",
   "RC", "RNC", "RZ", "RNZ", "RP", "RM", "RPE", "RPO",
   "RST", "CMP", "NOP", "SUI", "IN", "OUT", "EI", "DI", "RIM", "SIM"]

/-- `Assembler8085.valid_registers` (list position is the register code). -/
def valid_registers : List String := ["B", "C", "D", "E", "H", "L", "M", "A"]

/-- `Assembler8085.valid_register_pairs` (list position is the pair code). -/
def valid_register_pairs : List String := ["B", "D", "H", "SP"]

/-- `Assembler8085._get_reg_code`; `none` models the raised ValueError. -/
def get_reg_code (reg : String) : Option Nat :=
  if valid_registers.contains reg then some (valid_registers.findIdx (· == reg)) else none

/-- `Assembler8085._get_rp_code`; `none` models the raised ValueError. -/
def get_rp_code (rp : String) : Option Nat :=
  if valid_register_pairs.contains rp then some (valid_register_pairs.findIdx (· == rp)) else none

/-- `Assembler8085._parse_number`: trailing `H` (any case) selects
hexadecimal, otherwise decimal; `none` models the raised ValueError. -/
def parse_number (value_str : String) : Option Int :=
  let v := pyStripWs value_str
  if pyEndsWith (pyUpper v) "H" then pyInt true (dropLastChar v)
  else pyInt false v

/-- `_parse_number` where the ValueError propagates (message follows CPython,
with the quote characters around the literal omitted). -/
def parse_number_exn (value_str : String) : Except PyExn Int :=
  let v := pyStripWs value_str
  if pyEndsWith (pyUpper v) "H" then
    match pyInt true (dropLastChar v) with
    | some x => .ok x
    | none => .error (.valueError ("invalid literal for int() with base 16: " ++ dropLastChar v))
  else
    match pyInt false v with
    | some x => .ok x
    | none => .error (.valueError ("invalid literal for int() with base 10: " ++ v))

/-- `Assembler8085._resolve_symbol_or_value`: symbol table, then label
table, then numeric literal; `none` when nothing matches. -/
def resolve_symbol_or_value (out : AssemblyOutput) (value_str : String) : Option Int :=
  let v := pyStripWs value_str
  match out.symbols.lookup v with
  | some x => some x
  | none =>
    match out.labels.lookup v with
    | some x => some x
    | none => parse_number v

/-- Single-character operators of the expression tokenizer. -/
def singleOps : List Char := ['*', '/', '+', '-', '&', '|', '^']

/-- Flush the accumulated operand characters (kept in reverse). -/
def tokFlush (cur : List Char) : List String :=
  if cur.isEmpty then [] else [String.mk cur.reverse]

/-- Character-by-character expression tokenizer of
`Assembler8085._evaluate_expression`: whitespace separates tokens, `<<` and
`>>` are recognized before single-character operators. -/
def tokenizeExpr : List Char → List Char → List String
  | [], cur => tokFlush cur
  | [c], cur =>
    if pyWsChars.contains c then tokFlush cur
    else if singleOps.contains c then tokFlush cur ++ [String.mk [c]]
    else tokFlush (c :: cur)
  | c1 :: c2 :: rest, cur =>
    if pyWsChars.contains c1 then tokFlush cur ++ tokenizeExpr (c2 :: rest) []
    else if (c1 = '<' ∧ c2 = '<') ∨ (c1 = '>' ∧ c2 = '>') then
      tokFlush cur ++ [String.mk [c1, c2]] ++ tokenizeExpr rest []
    else if singleOps.contains c1 then
      tokFlush cur ++ [String.mk [c1]] ++ tokenizeExpr (c2 :: rest) []
    else tokenizeExpr (c2 :: rest) (c1 :: cur)


/-- Python `any(op in expr for op in [...])` over the nine operators. -/
def hasAnyOp (expr : String) : Bool :=
  pyContains expr '*' || pyContains expr '/' || pyContains expr '+' || pyContains expr '-' ||
  pyContains expr '&' || pyContains expr '|' || pyContains expr '^' ||
  hasPair '<' expr.toList || hasPair '>' expr.toList

/-- One binary operator application in the left-to-right evaluation; an
unrecognized operator token leaves the accumulator unchanged, exactly as the
if/elif chain of the source does. -/
def applyOp (acc : Int) (op : String) (v : Int) : Except PyExn Int :=
  if op = "+" then .ok (acc + v)
  else if op = "-" then .ok (acc - v)
  else if op = "*" then .ok (acc * v)
  else if op = "/" then
    if v = 0 then .error (.zeroDivision "integer division or modulo by zero")
    else .ok (acc.fdiv v)
  else if op = "&" then .ok (pyAnd acc v)
  else if op = "|" then .ok (pyOr acc v)
  else if op = "^" then .ok (pyXor acc v)
  else if op = "<<" then
    if v < 0 then .error (.valueError "negative shift count") else .ok (acc * 2 ^ v.toNat)
  else if op = ">>" then
    if v < 0 then .error (.valueError "negative shift count") else .ok (acc.fdiv (2 ^ v.toNat))
  else .ok acc

/-- The `for i in range(1, len(tokens), 2)` loop: consume operator/operand
pairs left to right; a trailing operator without operand stops the loop; an
unresolvable operand makes the whole expression unresolved. -/
def evalChain (res : String → Option Int) : Int → List String → Except PyExn (Option Int)
  | acc, [] => .ok (some acc)
  | acc, [_] => .ok (some acc)
  | acc, op :: rand :: rest =>
    match res rand with
    | none => .ok none
    | some v =>
      match applyOp acc op v with
      | .error e => .error e
      | .ok acc' => evalChain res acc' rest

/-- `Assembler8085._evaluate_expression`: strip a trailing comment, resolve
directly when no operator occurs, otherwise tokenize and fold left to right
with no operator precedence.  `.ok none` is the "not resolvable yet" signal;
`.error` models raised exceptions. -/
def evaluate_expression (out : AssemblyOutput) (expr0 : String) : Except PyExn (Option Int) :=
  let expr := if pyContains expr0 ';' then pyStripWs (beforeComment expr0) else expr0
  if ¬ hasAnyOp expr then .ok (resolve_symbol_or_value out expr)
  else
    let tokens := tokenizeExpr expr.toList []
    if tokens.length < 3 then
      if tokens.length = 1 then .ok (resolve_symbol_or_value out (tokens.headD ""))
      else .ok none
    else
      match resolve_symbol_or_value out (tokens.headD "") with
      | none => .ok none
      | some r => evalChain (resolve_symbol_or_value out) r tokens.tail

/-- `Assembler8085._resolve_symbol_or_number`: symbols, then labels, then
expression, then numeric literal; failure raises
`ValueError("Could not resolve value: ...")`. -/
def resolve_symbol_or_number (out : AssemblyOutput) (value_str0 : String) : Except PyExn Int :=
  let v := pyStripWs value_str0
  match out.symbols.lookup v with
  | some x => .ok x
  | none =>
    match out.labels.lookup v with
    | some x => .ok x
    | none =>
      let hasOp := pyContains v '+' || pyContains v '-' || pyContains v '*' || pyContains v '/' ||
        pyContains v '&' || pyContains v '|' || pyContains v '^' ||
        hasPair '<' v.toList || hasPair '>' v.toList
      let viaExpr : Except PyExn (Option Int) :=
        if hasOp then evaluate_expression out v else .ok none
      match viaExpr with
      | .error e => .error e
      | .ok (some x) => .ok x
      | .ok none =>
        match parse_number v with
        | some x => .ok x
        | none => .error (.valueError ("Could not resolve value: " ++ v))

/-! ### EQU pre-pass and pending resolution -/

/-- One collected EQU definition: symbol, expression text, 1-based line. -/
structure EquDef where
  symbol : String
  expr : String
  line : Nat
deriving Repr, DecidableEq

/-- Collection phase of `_preprocess_equ_directives`: every line whose
whitespace-split parts have length at least 3 and contain `EQU` at a positive
index contributes a definition; a trailing colon on the symbol is removed. -/
def collectEqu : List (Nat × String) → List EquDef
  | [] => []
  | (line_num, raw) :: rest =>
    let line := pyStripWs (beforeComment raw)
    if line.isEmpty then collectEqu rest
    else
      let parts := pySplitWs line
      if parts.length ≥ 3 ∧ parts.contains "EQU" then
        let equ_idx := parts.findIdx (· == "EQU")
        if 0 < equ_idx then
          let symbol0 := parts.headD ""
          let symbol := if pyEndsWith symbol0 ":" then dropLastChar symbol0 else symbol0
          let value_expr := " ".intercalate (parts.drop (equ_idx + 1))
          { symbol, expr := value_expr, line := line_num } :: collectEqu rest
        else collectEqu rest
      else collectEqu rest

/-- One pass over the worklist: try to evaluate every definition in order,
recording successes into `symbols` immediately (so later entries of the same
pass can use them); returns the updated output, the remaining definitions and
whether any progress was made. -/
def equRound (out : AssemblyOutput) :
    List EquDef → Except PyExn (AssemblyOutput × List EquDef × Bool)
  | [] => .ok (out, [], false)
  | d :: rest =>
    match evaluate_expression out d.expr with
    | .error e => .error e
    | .ok (some v) =>
      let out' := { out with symbols := dictSet out.symbols d.symbol (v.emod 65536) }
      match equRound out' rest with
      | .error e => .error e
      | .ok (out'', rem, _) => .ok (out'', rem, true)
    | .ok none =>
      match equRound out rest with
      | .error e => .error e
      | .ok (out', rem, progress) => .ok (out', d :: rem, progress)

/-- The `while equ_definitions:` fixpoint of `_preprocess_equ_directives`:
iterate rounds until the worklist empties, or stop with the still-pending
definitions when a round makes no progress.  Each continuing round strictly
shrinks the worklist, so a fuel of its length suffices. -/
def equLoop : Nat → AssemblyOutput → List EquDef → Except PyExn (AssemblyOutput × List EquDef)
  | _, out, [] => .ok (out, [])
  | 0, out, defs => .ok (out, defs)
  | fuel + 1, out, defs =>
    match equRound out defs with
    | .error e => .error e
    | .ok (out', rem, progress) =>
      if ¬ progress ∧ ¬ rem.isEmpty then .ok (out', rem)
      else equLoop fuel out' rem

/-- `_preprocess_equ_directives`: returns the updated output and the pending
(unresolved) definitions saved for `_resolve_pending_equs`. -/
def preprocess_equ_directives (lines : List (Nat × String)) (out : AssemblyOutput) :
    Except PyExn (AssemblyOutput × List EquDef) :=
  let defs := collectEqu lines
  equLoop (defs.length + 1) out defs

/-- Fixpoint of `_resolve_pending_equs`: like `equLoop`, but a round without
progress raises `SyntaxError("Could not resolve EQU symbols: ...")`. -/
def equLoopStrict : Nat → AssemblyOutput → List EquDef → Except PyExn AssemblyOutput
  | _, out, [] => .ok out
  | 0, out, _ => .ok out
  | fuel + 1, out, defs =>
    match equRound out defs with
    | .error e => .error e
    | .ok (out', rem, progress) =>
      if ¬ progress ∧ ¬ rem.isEmpty then
        .error (.syntaxError ("Could not resolve EQU symbols: " ++
          ", ".intercalate (rem.map (·.symbol))))
      else equLoopStrict fuel out' rem

/-- `_resolve_pending_equs`. -/
def resolve_pending_equs (out : AssemblyOutput) (pending : List EquDef) :
    Except PyExn AssemblyOutput :=
  equLoopStrict (pending.length + 1) out pending

/-! ### First pass -/

/-- Encoded instruction length used by the first pass to advance the location
counter (the if/elif chain at the end of `_first_pass`); instructions the
chain does not mention leave the counter unchanged (which cannot happen for a
validated opcode). -/
def instructionSize (instruction : String) : Int :=
  if instruction = "MVI" ∨ instruction = "ADI" ∨ instruction = "CPI" then 2
  else if instruction = "LXI" ∨ instruction = "LDA" ∨ instruction = "STA" ∨
      instruction = "JMP" ∨ instruction = "JZ" ∨ instruction = "JNZ" ∨
      instruction = "JC" ∨ instruction = "JNC" ∨ instruction = "JP" ∨
      instruction = "JM" ∨ instruction = "JPE" ∨ instruction = "JPO" ∨
      instruction = "CALL" then 3
  else if instruction = "MOV" ∨ instruction = "ADD" ∨ instruction = "SUB" ∨
      instruction = "INR" ∨ instruction = "DCR" ∨ instruction = "HLT" ∨
      instruction = "INX" ∨ instruction = "DAD" ∨ instruction = "XCHG" ∨
      instruction = "PUSH" ∨ instruction = "POP" ∨ instruction = "RET" then 1
  else if instruction = "LDAX" ∨ instruction = "STAX" ∨ instruction = "PCHL" ∨
      instruction = "SPHL" ∨ instruction = "XTHL" then 1
  else if instruction = "LHLD" ∨ instruction = "SHLD" then 3
  else if instruction = "ANA" ∨ instruction = "ORA" ∨ instruction = "XRA" then 1
  else if instruction = "ANI" ∨ instruction = "ORI" ∨ instruction = "XRI" then 2
  else if instruction = "CMA" ∨ instruction = "CMC" ∨ instruction = "STC" ∨
      instruction = "RLC" ∨ instruction = "RRC" ∨ instruction = "RAL" ∨
      instruction = "RAR" then 1
  else if instruction = "ADC" ∨ instruction = "SBB" then 1
  else if instruction = "ACI" ∨ instruction = "SBI" then 2
  else if instruction = "DAA" then 1
  else if instruction = "DCX" then 1
  else if instruction = "CC" ∨ instruction = "CNC" ∨ instruction = "CZ" ∨
      instruction = "CNZ" ∨ instruction = "CP" ∨ instruction = "CM" ∨
      instruction = "CPE" ∨ instruction = "CPO" then 3
  else if instruction = "RC" ∨ instruction = "RNC" ∨ instruction = "RZ" ∨
      instruction = "RNZ" ∨ instruction = "RP" ∨ instruction = "RM" ∨
      instruction = "RPE" ∨ instruction = "RPO" then 1
  else if instruction = "RST" then 1
  else if instruction = "CMP" then 1
  else if instruction = "NOP" then 1
  else if instruction = "SUI" then 2
  else if instruction = "IN" ∨ instruction = "OUT" then 2
  else if instruction = "EI" ∨ instruction = "DI" ∨ instruction = "RIM" ∨
      instruction = "SIM" then 1
  else 0

/-- Result of the label-extraction prologue shared by the first pass: the
(possibly rewritten) parts list and the label to record, or a raised
SyntaxError.  Mirrors lines 424-448 of `_first_pass`. -/
def splitLabel (line_num : Nat) (parts : List String) :
    Except PyExn (List String × Option String) :=
  match parts with
  | [] => .ok ([], none)
  | p0 :: rest =>
    if pyContains p0 ':' then
      if pyEndsWith p0 ":" then .ok (parts, some (dropLastChar p0))
      else
        let label_parts := splitOnChar ':' p0
        match label_parts with
        | [lab, instr] => .ok (instr :: rest, some lab)
        | _ => .error (.syntaxError ("Line " ++ toString line_num ++
            ": Invalid label format: " ++ p0))
    else .ok (parts, none)

/-- The size expression of a `DS` directive and the shared resolution chain
(symbol table, then expression, then numeric literal); the surrounding
`except ValueError` turns a failure into a SyntaxError.  Used verbatim by
both passes. -/
def dsSize (out : AssemblyOutput) (line_num : Nat) (parts : List String) :
    Except PyExn Int :=
  let instruction_index : Nat := if pyEndsWith (parts.headD "") ":" then 1 else 0
  let size_index := instruction_index + 1
  if parts.length ≤ size_index then
    .error (.syntaxError ("Line " ++ toString line_num ++ ": DS requires a size"))
  else
    let size_expr := pyStripWs (beforeComment (" ".intercalate (parts.drop size_index)))
    let fail : PyExn := .syntaxError ("Line " ++ toString line_num ++
      ": Invalid DS size: " ++ size_expr)
    match out.symbols.lookup size_expr with
    | some v => .ok v
    | none =>
      match evaluate_expression out size_expr with
      | .error (.valueError _) => .error fail
      | .error e => .error e
      | .ok (some v) => .ok v
      | .ok none =>
        match parse_number size_expr with
        | some v => .ok v
        | none => .error fail

/-- Mark `size` addresses starting at `address` as data memory. -/
def markData (data : List Int) (address size : Int) : List Int :=
  (List.range size.toNat).foldl (fun acc i => setAdd acc (address + (i : Int))) data

/-- `_first_pass`, as a fold over the numbered source lines carrying the
location counter and the first-ORG flag; `END` stops the walk. -/
def first_pass_lines :
    List (Nat × String) → Int → Bool → AssemblyOutput → Except PyExn AssemblyOutput
  | [], _, _, out => .ok out
  | (line_num, raw) :: rest, address, first_org_seen, out =>
    let line := pyStripWs (beforeComment raw)
    if line.isEmpty then first_pass_lines rest address first_org_seen out
    else
      match splitLabel line_num (pySplitWs line) with
      | .error e => .error e
      | .ok (parts, labelOpt) =>
        let recordLabel : Except PyExn AssemblyOutput :=
          match labelOpt with
          | none => .ok out
          | some lab =>
            if lab.isEmpty then .ok out
            else if (out.labels.lookup lab).isSome then
              .error (.syntaxError ("Line " ++ toString line_num ++
                ": Duplicate label: " ++ lab))
            else .ok { out with labels := dictSet out.labels lab address }
        match recordLabel with
        | .error e => .error e
        | .ok out =>
          if parts.isEmpty ∨ (parts.length = 1 ∧ pyEndsWith (parts.headD "") ":") then
            first_pass_lines rest address first_org_seen out
          else
            let instrTok : Except PyExn String :=
              if pyEndsWith (parts.headD "") ":" then
                match parts.get? 1 with
                | some t => .ok t
                | none => .error (.indexError "list index out of range")
              else .ok (parts.headD "")
            match instrTok with
            | .error e => .error e
            | .ok instruction0 =>
              let instr : Except PyExn String :=
                if valid_opcodes.contains instruction0 then .ok instruction0
                else if pyContains instruction0 ':' then
                  match splitOnChar ':' instruction0 with
                  | [_, i2] =>
                    if valid_opcodes.contains i2 then .ok i2
                    else .error (.syntaxError ("Line " ++ toString line_num ++
                      ": Invalid instruction: " ++ instruction0))
                  | _ => .error (.syntaxError ("Line " ++ toString line_num ++
                      ": Invalid instruction: " ++ instruction0))
                else .error (.syntaxError ("Line " ++ toString line_num ++
                  ": Unknown instruction: " ++ instruction0))
              match instr with
              | .error e => .error e
              | .ok instruction =>
                if instruction = "ORG" then
                  if parts.length < 2 then
                    .error (.syntaxError ("Line " ++ toString line_num ++
                      ": ORG requires an address"))
                  else
                    match parse_number (parts.getD 1 "") with
                    | some org_address =>
                      let out' := if ¬ first_org_seen then
                          { out with starting_address := org_address }
                        else out
                      first_pass_lines rest org_address true out'
                    | none =>
                      .error (.syntaxError ("Line " ++ toString line_num ++
                        ": Invalid ORG address: " ++ parts.getD 1 ""))
                else if instruction = "DS" then
                  match dsSize out line_num parts with
                  | .error e => .error e
                  | .ok size =>
                    let out' := { out with data_memory_range := markData out.data_memory_range address size }
                    first_pass_lines rest (address + size) first_org_seen out'
                else if instruction = "END" then .ok out
                else if instruction = "EQU" then
                  first_pass_lines rest address first_org_seen out
                else
                  let out' := { out with
                    line_to_address_map := dictSet out.line_to_address_map line_num address,
                    address_to_line_map := dictSet out.address_to_line_map address line_num }
                  first_pass_lines rest (address + instructionSize instruction) first_org_seen out'

/-- `_first_pass` entry point. -/
def first_pass (lines : List (Nat × String)) (out : AssemblyOutput) :
    Except PyExn AssemblyOutput :=
  first_pass_lines lines 0 false out

/-! ### Second pass -/

/-- The operator set of `_join_expression_tokens`. -/
def exprOps : List String := ["+", "-", "*", "/", "&", "|", "^", "<<", ">>"]

/-- `Assembler8085._join_expression_tokens`: rejoin a value operand split by
whitespace around operators into one expression token. -/
def join_expression_tokens (tokens : List String) : List String :=
  if tokens.length ≤ 2 then tokens
  else
    let value_start : Nat :=
      if tokens.length > 2 ∧ pyEndsWith (tokens.getD 1 "") "," then 2 else 1
    let has_expression := (tokens.drop (value_start + 1)).any (exprOps.contains ·)
    if has_expression then
      tokens.take value_start ++ [" ".intercalate (tokens.drop value_start)]
    else tokens

/-- Second-pass token extraction (label stripping); `none` means the line is
skipped. -/
def secondTokens (parts : List String) : Option (List String) :=
  match parts with
  | [] => none
  | p0 :: rest =>
    if pyContains p0 ':' then
      if pyEndsWith p0 ":" then
        if rest.isEmpty then none else some rest
      else
        match splitOnChar ':' p0 with
        | [_, i2] => some (i2 :: rest)
        | _ => none
    else some parts

/-- Python list indexing `tokens[i]`; out of range raises IndexError. -/
def tokGet (tokens : List String) (i : Nat) : Except PyExn String :=
  match tokens.get? i with
  | some t => .ok t
  | none => .error (.indexError "list index out of range")

/-- The `except ValueError as e: raise SyntaxError(f"Line n: ...")` pattern
wrapping the emission code of most opcodes. -/
def catchVE {α : Type} (line_num : Nat) : Except PyExn α → Except PyExn α
  | .error (.valueError m) =>
    .error (.syntaxError ("Line " ++ toString line_num ++ ": " ++ m))
  | r => r

/-- Write one byte of the 64KB output image. -/
def wByte (out : AssemblyOutput) (idx v : Int) : Except PyExn AssemblyOutput :=
  match baSet 65536 out.memory idx v with
  | .ok m => .ok { out with memory := m }
  | .error e => .error e

/-- Add an address to `program_memory_range`. -/
def addProg (out : AssemblyOutput) (a : Int) : AssemblyOutput :=
  { out with program_memory_range := setAdd out.program_memory_range a }

/-- Emit a one-byte instruction with a fixed opcode byte. -/
def emit1 (out : AssemblyOutput) (address : Int) (b : Int) :
    Except PyExn (AssemblyOutput × Int) :=
  match wByte out address b with
  | .ok out => .ok (out, address + 1)
  | .error e => .error e

/-- Emit opcode plus one register-coded byte computed as `base + mult * code`;
an invalid register raises ValueError inside the try. -/
def emitReg (line_num : Nat) (out : AssemblyOutput) (address : Int)
    (reg : String) (base mult : Int) : Except PyExn (AssemblyOutput × Int) :=
  match catchVE line_num
      ((match get_reg_code reg with
       | none => .error (.valueError ("Invalid register: " ++ reg))
       | some code => wByte out address (base + mult * (code : Int))
       : Except PyExn AssemblyOutput)) with
  | .ok out => .ok (out, address + 1)
  | .error e => .error e

/-- Emit a two-byte immediate instruction (`opcode`, `value & 0xFF`); the
value resolution and the writes sit inside the ValueError catch. -/
def emitImm8 (line_num : Nat) (out : AssemblyOutput) (address : Int)
    (value_str : String) (opc : Int) : Except PyExn (AssemblyOutput × Int) :=
  match catchVE line_num
      ((match resolve_symbol_or_number out value_str with
       | .error e => .error e
       | .ok v =>
         let value := v.emod 256
         match wByte out address opc with
         | .error e => .error e
         | .ok out => wByte out (address + 1) value
       : Except PyExn AssemblyOutput)) with
  | .ok out => .ok (addProg out (address + 1), address + 2)
  | .error e => .error e

/-- Emit a three-byte instruction with a 16-bit little-endian operand. -/
def emitImm16 (line_num : Nat) (out : AssemblyOutput) (address : Int)
    (value_str : String) (opc : Int) : Except PyExn (AssemblyOutput × Int) :=
  match catchVE line_num
      ((match resolve_symbol_or_number out value_str with
       | .error e => .error e
       | .ok v =>
         let value := v.emod 65536
         match wByte out address opc with
         | .error e => .error e
         | .ok out =>
           match wByte out (address + 1) (value.emod 256) with
           | .error e => .error e
           | .ok out => wByte out (address + 2) ((value.fdiv 256).emod 256)
       : Except PyExn AssemblyOutput)) with
  | .ok out => .ok (addProg (addProg out (address + 1)) (address + 2), address + 3)
  | .error e => .error e

/-- Emit a register-pair-coded one-byte instruction `base + 16 * rp_code`. -/
def emitRp (line_num : Nat) (out : AssemblyOutput) (address : Int)
    (rp : String) (base : Int) : Except PyExn (AssemblyOutput × Int) :=
  match catchVE line_num
      ((match get_rp_code rp with
       | none => .error (.valueError ("Invalid register pair: " ++ rp))
       | some code => wByte out address (base + 16 * (code : Int))
       : Except PyExn AssemblyOutput)) with
  | .ok out => .ok (out, address + 1)
  | .error e => .error e

/-- Registers whose token must be a member of `valid_registers` checked
up front (the ANA/ORA/XRA/ADC/SBB/CMP branches); the source message wraps
the register name in single quotes, omitted here. -/
def emitRegChecked (line_num : Nat) (out : AssemblyOutput) (address : Int)
    (reg : String) (base : Int) : Except PyExn (AssemblyOutput × Int) :=
  if ¬ valid_registers.contains reg then
    .error (.syntaxError ("Line " ++ toString line_num ++ ": Invalid register " ++ reg))
  else
    match get_reg_code reg with
    | none => .error (.valueError ("Invalid register: " ++ reg))
    | some code =>
      match wByte out address (base + (code : Int)) with
      | .ok out => .ok (out, address + 1)
      | .error e => .error e

/-- One instruction of the second pass: generate machine code per the
if/elif chain of `_second_pass` and return the updated output and location
counter.  An opcode matched by no branch (unreachable for validated input)
falls through leaving both unchanged, as the source chain does. -/
def emitInstruction (line_num : Nat) (opcode : String) (tokens : List String)
    (out : AssemblyOutput) (address : Int) : Except PyExn (AssemblyOutput × Int) :=
  if opcode = "MVI" then do
    let t1 ← tokGet tokens 1
    let reg := pyStripChars [','] t1
    let t2 ← tokGet tokens 2
    let value_str := pyStripChars [',', ';'] t2
    let out ← catchVE line_num (do
      let v ← resolve_symbol_or_number out value_str
      let code ← match get_reg_code reg with
        | none => Except.error (.valueError ("Invalid register: " ++ reg))
        | some c => pure c
      let out ← wByte out address (0x06 + (code : Int) * 8)
      wByte out (address + 1) (v.emod 256))
    pure (addProg out (address + 1), address + 2)
  else if opcode = "MOV" then do
    let t1 ← tokGet tokens 1
    let dest_reg := pyStripChars [','] t1
    let t2 ← tokGet tokens 2
    let src_reg := pyStripChars [',', ';'] t2
    if dest_reg = "M" ∧ src_reg = "M" then
      Except.error (.syntaxError ("Line " ++ toString line_num ++
        ": MOV M,M is not a valid instruction (opcode 0x76 is HLT)"))
    else do
      let out ← catchVE line_num (do
        let dest_code ← match get_reg_code dest_reg with
          | none => Except.error (.valueError ("Invalid register: " ++ dest_reg))
          | some c => pure c
        let src_code ← match get_reg_code src_reg with
          | none => Except.error (.valueError ("Invalid register: " ++ src_reg))
          | some c => pure c
        wByte out address (0x40 + (dest_code : Int) * 8 + (src_code : Int)))
      pure (out, address + 1)
  else if opcode = "LXI" then do
    let t1 ← tokGet tokens 1
    let rp := pyStripChars [','] t1
    let t2 ← tokGet tokens 2
    let value_str := pyStripChars [',', ';'] t2
    let out ← catchVE line_num (do
      let v ← resolve_symbol_or_number out value_str
      let value := v.emod 65536
      let code ← match get_rp_code rp with
        | none => Except.error (.valueError ("Invalid register pair: " ++ rp))
        | some c => pure c
      let out ← wByte out address (0x01 + (code : Int) * 16)
      let out ← wByte out (address + 1) (value.emod 256)
      wByte out (address + 2) ((value.fdiv 256).emod 256))
    pure (addProg (addProg out (address + 1)) (address + 2), address + 3)
  else if opcode = "LDA" then do
    let t1 ← tokGet tokens 1
    emitImm16 line_num out address (pyStripChars [',', ';'] t1) 0x3A
  else if opcode = "STA" then do
    let t1 ← tokGet tokens 1
    emitImm16 line_num out address (pyStripChars [',', ';'] t1) 0x32
  else if opcode = "ADD" then do
    let t1 ← tokGet tokens 1
    emitReg line_num out address (pyStripChars [',', ';'] t1) 0x80 1
  else if opcode = "ADI" then do
    let t1 ← tokGet tokens 1
    emitImm8 line_num out address (pyStripChars [',', ';'] t1) 0xC6
  else if opcode = "SUB" then do
    let t1 ← tokGet tokens 1
    emitReg line_num out address (pyStripChars [',', ';'] t1) 0x90 1
  else if opcode = "INR" then do
    let t1 ← tokGet tokens 1
    emitReg line_num out address (pyStripChars [',', ';'] t1) 0x04 8
  else if opcode = "DCR" then do
    let t1 ← tokGet tokens 1
    emitReg line_num out address (pyStripChars [',', ';'] t1) 0x05 8
  else if opcode = "JMP" ∨ opcode = "JZ" ∨ opcode = "JNZ" ∨ opcode = "JC" ∨
      opcode = "JNC" ∨ opcode = "JP" ∨ opcode = "JM" ∨ opcode = "JPE" ∨
      opcode = "JPO" then do
    let t1 ← tokGet tokens 1
    let opc : Int :=
      if opcode = "JMP" then 0xC3 else if opcode = "JZ" then 0xCA
      else if opcode = "JNZ" then 0xC2 else if opcode = "JC" then 0xDA
      else if opcode = "JNC" then 0xD2 else if opcode = "JP" then 0xF2
      else if opcode = "JM" then 0xFA else if opcode = "JPE" then 0xEA
      else 0xE2
    emitImm16 line_num out address (pyStripChars [',', ';'] t1) opc
  else if opcode = "HLT" then emit1 out address 0x76
  else if opcode = "INX" then do
    let t1 ← tokGet tokens 1
    emitRp line_num out address (pyStripChars [',', ';'] t1) 0x03
  else if opcode = "PUSH" then do
    let t1 ← tokGet tokens 1
    let rp := pyStripChars [',', ';'] t1
    if rp = "PSW" then do
      let out ← wByte out address 0xF5
      pure (out, address + 1)
    else
      match get_rp_code rp with
      | none => Except.error (.syntaxError ("Line " ++ toString line_num ++
          ": Invalid register pair: " ++ rp))
      | some code => do
        let out ← wByte out address (0xC5 + (code : Int) * 16)
        pure (out, address + 1)
  else if opcode = "POP" then do
    let t1 ← tokGet tokens 1
    let rp := pyStripChars [',', ';'] t1
    if rp = "PSW" then do
      let out ← wByte out address 0xF1
      pure (out, address + 1)
    else
      match get_rp_code rp with
      | none => Except.error (.syntaxError ("Line " ++ toString line_num ++
          ": Invalid register pair: " ++ rp))
      | some code => do
        let out ← wByte out address (0xC1 + (code : Int) * 16)
        pure (out, address + 1)
  else if opcode = "CALL" then do
    let t1 ← tokGet tokens 1
    emitImm16 line_num out address (pyStripChars [',', ';'] t1) 0xCD
  else if opcode = "RET" then emit1 out address 0xC9
  else if opcode = "CPI" then do
    let t1 ← tokGet tokens 1
    emitImm8 line_num out address (pyStripChars [',', ';'] t1) 0xFE
  else if opcode = "DAD" then do
    let t1 ← tokGet tokens 1
    emitRp line_num out address (pyStripChars [',', ';'] t1) 0x09
  else if opcode = "XCHG" then emit1 out address 0xEB
  else if opcode = "LDAX" then do
    let t1 ← tokGet tokens 1
    let rp := pyStripChars [',', ';'] t1
    if rp = "B" then emit1 out address 0x0A
    else if rp = "D" then emit1 out address 0x1A
    else Except.error (.syntaxError ("Line " ++ toString line_num ++
      ": LDAX only supports B or D register pairs"))
  else if opcode = "STAX" then do
    let t1 ← tokGet tokens 1
    let rp := pyStripChars [',', ';'] t1
    if rp = "B" then emit1 out address 0x02
    else if rp = "D" then emit1 out address 0x12
    else Except.error (.syntaxError ("Line " ++ toString line_num ++
      ": STAX only supports B or D register pairs"))
  else if opcode = "LHLD" then do
    let t1 ← tokGet tokens 1
    emitImm16 line_num out address (pyStripChars [',', ';'] t1) 0x2A
  else if opcode = "SHLD" then do
    let t1 ← tokGet tokens 1
    emitImm16 line_num out address (pyStripChars [',', ';'] t1) 0x22
  else if opcode = "PCHL" then emit1 out address 0xE9
  else if opcode = "SPHL" then emit1 out address 0xF9
  else if opcode = "XTHL" then emit1 out address 0xE3
  else if opcode = "ANA" then do
    let t1 ← tokGet tokens 1
    emitRegChecked line_num out address (pyStripChars [',', ';'] t1) 0xA0
  else if opcode = "ANI" then do
    let t1 ← tokGet tokens 1
    emitImm8 line_num out address (pyStripChars [',', ';'] t1) 0xE6
  else if opcode = "ORA" then do
    let t1 ← tokGet tokens 1
    emitRegChecked line_num out address (pyStripChars [',', ';'] t1) 0xB0
  else if opcode = "ORI" then do
    let t1 ← tokGet tokens 1
    emitImm8 line_num out address (pyStripChars [',', ';'] t1) 0xF6
  else if opcode = "XRA" then do
    let t1 ← tokGet tokens 1
    emitRegChecked line_num out address (pyStripChars [',', ';'] t1) 0xA8
  else if opcode = "XRI" then do
    let t1 ← tokGet tokens 1
    emitImm8 line_num out address (pyStripChars [',', ';'] t1) 0xEE
  else if opcode = "CMA" then emit1 out address 0x2F
  else if opcode = "CMC" then emit1 out address 0x3F
  else if opcode = "STC" then emit1 out address 0x37
  else if opcode = "RLC" then emit1 out address 0x07
  else if opcode = "RRC" then emit1 out address 0x0F
  else if opcode = "RAL" then emit1 out address 0x17
  else if opcode = "RAR" then emit1 out address 0x1F
  else if opcode = "ADC" then do
    let t1 ← tokGet tokens 1
    emitRegChecked line_num out address (pyStripChars [',', ';'] t1) 0x88
  else if opcode = "ACI" then do
    let t1 ← tokGet tokens 1
    emitImm8 line_num out address (pyStripChars [',', ';'] t1) 0xCE
  else if opcode = "SBB" then do
    let t1 ← tokGet tokens 1
    emitRegChecked line_num out address (pyStripChars [',', ';'] t1) 0x98
  else if opcode = "SBI" then do
    let t1 ← tokGet tokens 1
    emitImm8 line_num out address (pyStripChars [',', ';'] t1) 0xDE
  else if opcode = "DAA" then emit1 out address 0x27
  else if opcode = "DCX" then do
    let t1 ← tokGet tokens 1
    emitRp line_num out address (pyStripChars [',', ';'] t1) 0x0B
  else if opcode = "CC" ∨ opcode = "CNC" ∨ opcode = "CZ" ∨ opcode = "CNZ" ∨
      opcode = "CP" ∨ opcode = "CM" ∨ opcode = "CPE" ∨ opcode = "CPO" then do
    let opc : Int :=
      if opcode = "CC" then 0xDC else if opcode = "CNC" then 0xD4
      else if opcode = "CZ" then 0xCC else if opcode = "CNZ" then 0xC4
      else if opcode = "CP" then 0xF4 else if opcode = "CM" then 0xFC
      else if opcode = "CPE" then 0xEC else 0xE4
    let t1 ← tokGet tokens 1
    emitImm16 line_num out address (pyStripChars [',', ';'] t1) opc
  else if opcode = "RC" ∨ opcode = "RNC" ∨ opcode = "RZ" ∨ opcode = "RNZ" ∨
      opcode = "RP" ∨ opcode = "RM" ∨ opcode = "RPE" ∨ opcode = "RPO" then
    let opc : Int :=
      if opcode = "RC" then 0xD8 else if opcode = "RNC" then 0xD0
      else if opcode = "RZ" then 0xC8 else if opcode = "RNZ" then 0xC0
      else if opcode = "RP" then 0xF0 else if opcode = "RM" then 0xF8
      else if opcode = "RPE" then 0xE8 else 0xE0
    emit1 out address opc
  else if opcode = "RST" then do
    let t1 ← tokGet tokens 1
    let rst_num ← parse_number_exn (pyStripChars [',', ';'] t1)
    if rst_num < 0 ∨ 7 < rst_num then
      Except.error (.syntaxError ("Line " ++ toString line_num ++
        ": RST requires a number from 0-7"))
    else
      -- 0xC7 | (rst_num << 3): with rst_num in [0, 8) the shifted bits land in
      -- the zero bits 3..5 of 0xC7, so the or is addition.
      emit1 out address (0xC7 + rst_num * 8)
  else if opcode = "CMP" then do
    let t1 ← tokGet tokens 1
    emitRegChecked line_num out address (pyStripChars [',', ';'] t1) 0xB8
  else if opcode = "NOP" then emit1 out address 0x00
  else if opcode = "SUI" then do
    let t1 ← tokGet tokens 1
    emitImm8 line_num out address (pyStripChars [',', ';'] t1) 0xD6
  else if opcode = "IN" then do
    let t1 ← tokGet tokens 1
    emitImm8 line_num out address (pyStripChars [',', ';'] t1) 0xDB
  else if opcode = "OUT" then do
    let t1 ← tokGet tokens 1
    emitImm8 line_num out address (pyStripChars [',', ';'] t1) 0xD3
  else if opcode = "EI" then emit1 out address 0xFB
  else if opcode = "DI" then emit1 out address 0xF3
  else if opcode = "RIM" then emit1 out address 0x20
  else if opcode = "SIM" then emit1 out address 0x30
  else .ok (out, address)

/-- `_second_pass`, walking the numbered lines with a fresh location counter;
returns the populated output together with the final counter value. -/
def second_pass_lines :
    List (Nat × String) → Int → AssemblyOutput → Except PyExn (AssemblyOutput × Int)
  | [], address, out => .ok (out, address)
  | (line_num, raw) :: rest, address, out =>
    let line := pyStripWs (beforeComment raw)
    if line.isEmpty then second_pass_lines rest address out
    else
      let parts := pySplitWs line
      if parts.isEmpty then second_pass_lines rest address out
      else if parts.length = 1 ∧ pyEndsWith (parts.headD "") ":" then
        second_pass_lines rest address out
      else
        match secondTokens parts with
        | none => second_pass_lines rest address out
        | some tokens0 =>
          let opcode := tokens0.headD ""
          let tokens := join_expression_tokens tokens0
          if opcode = "EQU" then second_pass_lines rest address out
          else if opcode = "ORG" then
            match tokGet tokens 1 with
            | .error e => .error e
            | .ok t1 =>
              match parse_number_exn t1 with
              | .error e => .error e
              | .ok a => second_pass_lines rest a out
          else if opcode = "DS" then
            match dsSize out line_num parts with
            | .error e => .error e
            | .ok size =>
              second_pass_lines rest (address + size)
                { out with data_memory_range := markData out.data_memory_range address size }
          else if opcode = "END" then .ok (out, address)
          else
            let out := { out with
              parsed_program := out.parsed_program ++ [(address, tokens)] }
            let out := addProg out address
            match emitInstruction line_num opcode tokens out address with
            | .error e => .error e
            | .ok (out', address') => second_pass_lines rest address' out'

/-- `Assembler8085.assemble` up to the end of the second pass: uppercase the
lines, run the EQU pre-pass, the first pass, the pending-EQU resolution and
the second pass; the second component is the final location counter. -/
def assembleCore (code : List String) : Except PyExn (AssemblyOutput × Int) := do
  let upper := code.map pyUpper
  let numbered := upper.enum.map (fun p => (p.1 + 1, p.2))
  let (out, pending) ← preprocess_equ_directives numbered AssemblyOutput.init
  let out ← first_pass numbered out
  let out ← resolve_pending_equs out pending
  second_pass_lines numbered 0 out

/-- `Assembler8085.assemble`: after the passes, `program_end_address` is set
to the final location counter when at least one instruction was emitted. -/
def assemble (code : List String) : Except PyExn AssemblyOutput :=
  match assembleCore code with
  | .error e => .error e
  | .ok (out, address) =>
    .ok (if out.parsed_program.isEmpty then out
         else { out with program_end_address := address })

end Assembler

/-! ## Processor embedding (`src/processor.py`) -/

/-- Execution status returned by `step()`. -/
inductive Status where
  | OK
  | HALT
  | ERROR
deriving Repr, DecidableEq

/-- The message Python `str(e)` renders for an exception (the payload). -/
def PyExn.msg : PyExn → String
  | .syntaxError m => m
  | .valueError m => m
  | .zeroDivision m => m
  | .indexError m => m

/-- Processor state (`Processor8085`).  The `registers` dict is an
association list (so writes to names outside the initial key set append, as
dict assignment does); the five flags are separate fields because the source
only ever accesses them with the literal keys S, Z, AC, P, C. -/
structure Proc where
  regs : List (String × Int)
  flagS : Int
  flagZ : Int
  flagAC : Int
  flagP : Int
  flagC : Int
  memory : Nat → Int
  io_ports : Nat → Int
  halted : Bool
  error : Option String
  last_instruction : Option String
  program_end_address : Int
  program_memory_range : List Int
  data_memory_range : List Int
  parsed_program : List (Int × List String)
  line_to_address_map : List (Nat × Int)
  address_to_line_map : List (Int × Nat)
  labels : List (String × Int)
  symbols : List (String × Int)

/-- `Processor8085.__init__`. -/
def Proc.init : Proc where
  regs := [("A", 0), ("B", 0), ("C", 0), ("D", 0), ("E", 0), ("H", 0), ("L", 0),
           ("SP", 0xFFFF), ("PC", 0x0000), ("Inc/Dec Latch", 0)]
  flagS := 0
  flagZ := 0
  flagAC := 0
  flagP := 0
  flagC := 0
  memory := fun _ => 0
  io_ports := fun _ => 0
  halted := false
  error := none
  last_instruction := none
  program_end_address := 0
  program_memory_range := []
  data_memory_range := []
  parsed_program := []
  line_to_address_map := []
  address_to_line_map := []
  labels := []
  symbols := []

/-- `Processor8085.load_program`: copy the assembly output in, set PC to the
starting address, clear the halted flag, the error and the last instruction.
Nothing else of the processor state is touched. -/
def load_program (s : Proc) (out : AssemblyOutput) : Proc :=
  { s with
    memory := out.memory
    parsed_program := out.parsed_program
    line_to_address_map := out.line_to_address_map
    address_to_line_map := out.address_to_line_map
    labels := out.labels
    symbols := out.symbols
    program_end_address := out.program_end_address
    program_memory_range := out.program_memory_range
    data_memory_range := out.data_memory_range
    regs := dictSet s.regs "PC" out.starting_address
    halted := false
    error := none
    last_instruction := none }

/-- `Processor8085.is_program_memory`. -/
def is_program_memory (s : Proc) (address : Int) : Bool :=
  s.program_memory_range.contains address ∧ ¬ s.data_memory_range.contains address

namespace Processor

/-- State-and-exception monad for one `step()` body: mutations made before a
raise persist (Python objects are mutated in place), so the state is carried
alongside the possible exception. -/
def PM (α : Type) : Type := Proc → Proc × Except PyExn α

instance : Monad PM where
  pure a := fun s => (s, .ok a)
  bind x f := fun s =>
    match x s with
    | (s', .ok a) => f a s'
    | (s', .error e) => (s', .error e)

def PM.get : PM Proc := fun s => (s, .ok s)

def PM.modifyS (f : Proc → Proc) : PM Unit := fun s => (f s, .ok ())

def PM.throw {α : Type} (e : PyExn) : PM α := fun s => (s, .error e)

/-- Dict read `self.registers[name]`; a missing key raises KeyError (whose
CPython rendering is the quoted key; the quotes are omitted here). -/
def regGet (name : String) : PM Int := do
  let s ← PM.get
  match s.regs.lookup name with
  | some v => pure v
  | none => PM.throw (.valueError ("KeyError: " ++ name))

/-- Dict write `self.registers[name] = v` (never raises). -/
def regSet (name : String) (v : Int) : PM Unit :=
  PM.modifyS fun s => { s with regs := dictSet s.regs name v }

/-- Python `name in self.registers`. -/
def regHas (name : String) : PM Bool := do
  let s ← PM.get
  pure (s.regs.lookup name).isSome

/-- `self.registers["PC"] += n`. -/
def pcAdd (n : Int) : PM Unit := do
  let pc ← regGet "PC"
  regSet "PC" (pc + n)

/-- Read `self.memory[addr]` with bytearray index semantics. -/
def memGet (addr : Int) : PM Int := do
  let s ← PM.get
  if -65536 ≤ addr ∧ addr < 65536 then pure (s.memory (addr.emod 65536).toNat)
  else PM.throw (.indexError "bytearray index out of range")

/-- Write `self.memory[addr] = v` with bytearray index and value checks. -/
def memSet (addr v : Int) : PM Unit := do
  if -65536 ≤ addr ∧ addr < 65536 then
    if 0 ≤ v ∧ v < 256 then
      PM.modifyS fun s =>
        { s with memory := fun j => if j = (addr.emod 65536).toNat then v else s.memory j }
    else PM.throw (.valueError "byte must be in range(0, 256)")
  else PM.throw (.indexError "bytearray index out of range")

/-- Read `self.io_ports[p]`. -/
def ioGet (p : Int) : PM Int := do
  let s ← PM.get
  if -256 ≤ p ∧ p < 256 then pure (s.io_ports (p.emod 256).toNat)
  else PM.throw (.indexError "bytearray index out of range")

/-- Write `self.io_ports[p] = v`. -/
def ioSet (p v : Int) : PM Unit := do
  if -256 ≤ p ∧ p < 256 then
    if 0 ≤ v ∧ v < 256 then
      PM.modifyS fun s =>
        { s with io_ports := fun j => if j = (p.emod 256).toNat then v else s.io_ports j }
    else PM.throw (.valueError "byte must be in range(0, 256)")
  else PM.throw (.indexError "bytearray index out of range")

/-- `self.error = msg; return "ERROR"` (the explicit error returns inside the
dispatch, distinct from raised exceptions). -/
def errorReturn (msg : String) : PM Status := do
  PM.modifyS fun s => { s with error := some msg }
  pure .ERROR

/-- `instruction[i]` with IndexError on overrun. -/
def tokAt (toks : List String) (i : Nat) : PM String :=
  match toks.get? i with
  | some t => pure t
  | none => PM.throw (.indexError "list index out of range")

/-- `Processor8085.get_hl_addr` (`(H << 8) | L` as `hiLo`). -/
def get_hl_addr : PM Int := do
  let h ← regGet "H"
  let l ← regGet "L"
  pure (hiLo h l)

/-- `Processor8085.get_bc_addr`. -/
def get_bc_addr : PM Int := do
  let b ← regGet "B"
  let c ← regGet "C"
  pure (hiLo b c)

/-- `Processor8085.get_de_addr`. -/
def get_de_addr : PM Int := do
  let d ← regGet "D"
  let e ← regGet "E"
  pure (hiLo d e)

/-- `Processor8085.get_flags_byte`: bit 7 = S, 6 = Z, 4 = AC, 2 = P,
1 = constant 1, 0 = C.  The source combines the shifted bits with `|`; the
fields are disjoint bit positions for the 0/1 values the flags hold, so the
or is embedded as the sum. -/
def flagsByte (s : Proc) : Int :=
  s.flagS * 128 + s.flagZ * 64 + s.flagAC * 16 + s.flagP * 4 + 2 + s.flagC

def get_flags_byte : PM Int := do
  let s ← PM.get
  pure (flagsByte s)

/-- `Processor8085.get_psw` (`(A << 8) | flags_byte` as `hiLo`). -/
def get_psw : PM Int := do
  let a ← regGet "A"
  let fb ← get_flags_byte
  pure (hiLo a fb)

/-- `Processor8085.update_flags`: S from bit 7 of the result, Z from the low
byte being zero, P from the low byte having an even number of one bits; AC
and C only when the corresponding check flag is set. -/
def update_flags (result : Int) (check_carry : Bool) (carry_value : Int)
    (check_ac : Bool) (ac_value : Int) : PM Unit :=
  PM.modifyS fun s =>
    { s with
      flagS := if bitMask result 7 ≠ 0 then 1 else 0
      flagZ := if result.emod 256 = 0 then 1 else 0
      flagP := if bitCount8 (result.emod 256).toNat % 2 = 0 then 1 else 0
      flagAC := if check_ac then ac_value else s.flagAC
      flagC := if check_carry then carry_value else s.flagC }

/-! ### Operand parsing (`Processor8085._parse_number` and friends) -/

/-- `Processor8085._resolve_token`: symbol table, label table, then numeric
literal; ValueError is swallowed into `none`.  The two tables are passed
explicitly (the method reads `self.symbols` and `self.labels`). -/
def resolve_token (symbols labels : List (String × Int)) (token0 : String) : Option Int :=
  let token := pyStripWs token0
  match symbols.lookup token with
  | some v => some v
  | none =>
    match labels.lookup token with
    | some v => some v
    | none =>
      if pyEndsWith (pyUpper token) "H" then pyInt true (dropLastChar token)
      else pyInt false token

/-- The expression tokenizer of `Processor8085._evaluate_expression`: split
on spaces and on the four single-character operators. -/
def tokenizeP : List Char → List Char → List String
  | [], cur => Assembler.tokFlush cur
  | c :: rest, cur =>
    if c = ' ' then Assembler.tokFlush cur ++ tokenizeP rest []
    else if c = '+' ∨ c = '-' ∨ c = '*' ∨ c = '/' then
      Assembler.tokFlush cur ++ [String.mk [c]] ++ tokenizeP rest []
    else tokenizeP rest (c :: cur)

/-- One operator application of the processor-side evaluator (`+ - * //`);
anything else leaves the accumulator unchanged. -/
def applyOpP (acc : Int) (op : String) (v : Int) : Except PyExn Int :=
  if op = "+" then .ok (acc + v)
  else if op = "-" then .ok (acc - v)
  else if op = "*" then .ok (acc * v)
  else if op = "/" then
    if v = 0 then .error (.zeroDivision "integer division or modulo by zero")
    else .ok (acc.fdiv v)
  else .ok acc

/-- The operator/operand pair loop of `Processor8085._evaluate_expression`. -/
def evalChainP (symbols labels : List (String × Int)) :
    Int → List String → Except PyExn (Option Int)
  | acc, [] => .ok (some acc)
  | acc, [_] => .ok (some acc)
  | acc, op :: rand :: rest =>
    match resolve_token symbols labels rand with
    | none => .ok none
    | some v =>
      match applyOpP acc op v with
      | .error e => .error e
      | .ok acc' => evalChainP symbols labels acc' rest

/-- `Processor8085._evaluate_expression`. -/
def evaluate_expression (symbols labels : List (String × Int)) (expr : String) :
    Except PyExn (Option Int) :=
  let tokens := tokenizeP expr.toList []
  if tokens.length < 3 then .ok none
  else
    match resolve_token symbols labels (tokens.headD "") with
    | none => .ok none
    | some r => evalChainP symbols labels r tokens.tail

/-- `Processor8085._parse_number`: symbol lookup, label lookup, expression
evaluation when an arithmetic operator occurs, then hexadecimal (trailing H)
or decimal literal parsing. -/
def parse_number (symbols labels : List (String × Int)) (value_str0 : String) :
    Except PyExn Int :=
  let v := pyStripWs value_str0
  match symbols.lookup v with
  | some x => .ok x
  | none =>
    match labels.lookup v with
    | some x => .ok x
    | none =>
      let hasOp := pyContains v '+' || pyContains v '-' || pyContains v '*' || pyContains v '/'
      let viaExpr : Except PyExn (Option Int) :=
        if hasOp then evaluate_expression symbols labels v else .ok none
      match viaExpr with
      | .error e => .error e
      | .ok (some x) => .ok x
      | .ok none =>
        if pyEndsWith (pyUpper v) "H" then
          match pyInt true (dropLastChar v) with
          | some x => .ok x
          | none => .error (.valueError ("invalid literal for int() with base 16: " ++ dropLastChar v))
        else
          match pyInt false v with
          | some x => .ok x
          | none => .error (.valueError ("invalid literal for int() with base 10: " ++ v))

/-- `_parse_number` lifted into the step monad. -/
def parseNum (t : String) : PM Int := do
  let s ← PM.get
  match parse_number s.symbols s.labels t with
  | .ok v => pure v
  | .error e => PM.throw e

/-! ### Instruction branches of `step()` -/

/-- Jump family (`JMP/JZ/JNZ/JC/JNC/JP/JM/JPE/JPO`): resolve the target via
the label table or the operand parser, test the one relevant flag, then
either load PC with the masked target or advance it by 3. -/
def execJump (opcode : String) (toks : List String) : PM Status := do
  let t1 ← tokAt toks 1
  let jump_target := pyStripChars [','] t1
  let s ← PM.get
  let target_addr ←
    match s.labels.lookup jump_target with
    | some v => pure v
    | none => parseNum jump_target
  let should_jump : Bool :=
    if opcode = "JMP" then true
    else if opcode = "JZ" ∧ s.flagZ = 1 then true
    else if opcode = "JNZ" ∧ s.flagZ = 0 then true
    else if opcode = "JC" ∧ s.flagC = 1 then true
    else if opcode = "JNC" ∧ s.flagC = 0 then true
    else if opcode = "JP" ∧ s.flagS = 0 then true
    else if opcode = "JM" ∧ s.flagS = 1 then true
    else if opcode = "JPE" ∧ s.flagP = 1 then true
    else if opcode = "JPO" ∧ s.flagP = 0 then true
    else false
  if should_jump then regSet "PC" (target_addr.emod 65536)
  else pcAdd 3
  pure .OK

def execMVI (toks : List String) : PM Status := do
  let t1 ← tokAt toks 1
  let reg := pyStripChars [','] t1
  let t2 ← tokAt toks 2
  let v ← parseNum t2
  let value := v.emod 256
  if reg = "M" then do
    let addr ← get_hl_addr
    memSet addr value
  else regSet reg value
  pcAdd 2
  pure .OK

def execMOV (toks : List String) : PM Status := do
  let t1 ← tokAt toks 1
  let dest := pyStripChars [','] t1
  let src ← tokAt toks 2
  let destIn ← regHas dest
  let srcIn ← regHas src
  if dest = "M" ∧ srcIn then do
    let addr ← get_hl_addr
    let v ← regGet src
    memSet addr v
    pcAdd 1
    pure .OK
  else if destIn ∧ src = "M" then do
    let addr ← get_hl_addr
    let v ← memGet addr
    regSet dest v
    pcAdd 1
    pure .OK
  else if destIn ∧ srcIn then do
    let v ← regGet src
    regSet dest v
    pcAdd 1
    pure .OK
  else errorReturn "Invalid register in MOV"

def execLXI (toks : List String) : PM Status := do
  let t1 ← tokAt toks 1
  let reg_pair := pyStripChars [','] t1
  let t2 ← tokAt toks 2
  let value ← parseNum t2
  if reg_pair = "B" then do
    regSet "B" ((value.fdiv 256).emod 256)
    regSet "C" (value.emod 256)
    pcAdd 3
    pure .OK
  else if reg_pair = "D" then do
    regSet "D" ((value.fdiv 256).emod 256)
    regSet "E" (value.emod 256)
    pcAdd 3
    pure .OK
  else if reg_pair = "H" then do
    regSet "H" ((value.fdiv 256).emod 256)
    regSet "L" (value.emod 256)
    pcAdd 3
    pure .OK
  else if reg_pair = "SP" then do
    regSet "SP" (value.emod 65536)
    pcAdd 3
    pure .OK
  else errorReturn ("Invalid register pair: " ++ reg_pair)

def execLDA (toks : List String) : PM Status := do
  let t1 ← tokAt toks 1
  let addr ← parseNum t1
  let v ← memGet addr
  regSet "A" v
  pcAdd 3
  pure .OK

def execSTA (toks : List String) : PM Status := do
  let t1 ← tokAt toks 1
  let addr ← parseNum t1
  let a ← regGet "A"
  memSet addr a
  pcAdd 3
  pure .OK

def execADD (toks : List String) : PM Status := do
  let t1 ← tokAt toks 1
  let reg := pyStripChars [',', ';'] t1
  let a_value ← regGet "A"
  let operand ← if reg = "M" then do
      let addr ← get_hl_addr
      memGet addr
    else regGet reg
  let ac : Int := if 15 < a_value.emod 16 + operand.emod 16 then 1 else 0
  let result := a_value + operand
  let carry : Int := if 255 < result then 1 else 0
  regSet "A" (result.emod 256)
  let a2 ← regGet "A"
  update_flags a2 true carry true ac
  pcAdd 1
  pure .OK

def execADI (toks : List String) : PM Status := do
  let t1 ← tokAt toks 1
  let v ← parseNum (pyStripChars [',', ';'] t1)
  let value := v.emod 256
  let a_value ← regGet "A"
  let ac : Int := if 15 < a_value.emod 16 + value.emod 16 then 1 else 0
  let result := a_value + value
  let carry : Int := if 255 < result then 1 else 0
  regSet "A" (result.emod 256)
  let a2 ← regGet "A"
  update_flags a2 true carry true ac
  pcAdd 2
  pure .OK

def execSUB (toks : List String) : PM Status := do
  let t1 ← tokAt toks 1
  let reg := pyStripChars [',', ';'] t1
  let a_value ← regGet "A"
  let operand ← if reg = "M" then do
      let addr ← get_hl_addr
      memGet addr
    else regGet reg
  let ac : Int := if a_value.emod 16 < operand.emod 16 then 1 else 0
  let result := a_value - operand
  let carry : Int := if result < 0 then 1 else 0
  regSet "A" (result.emod 256)
  let a2 ← regGet "A"
  update_flags a2 true carry true ac
  pcAdd 1
  pure .OK

def execINR (toks : List String) : PM Status := do
  let reg ← tokAt toks 1
  if reg = "M" then do
    let hl_addr ← get_hl_addr
    let old_val ← memGet hl_addr
    let ac : Int := if old_val.emod 16 = 15 then 1 else 0
    memSet hl_addr ((old_val + 1).emod 256)
    let m2 ← memGet hl_addr
    update_flags m2 false 0 true ac
  else do
    let old_val ← regGet reg
    let ac : Int := if old_val.emod 16 = 15 then 1 else 0
    regSet reg ((old_val + 1).emod 256)
    let r2 ← regGet reg
    update_flags r2 false 0 true ac
  pcAdd 1
  pure .OK

def execDCR (toks : List String) : PM Status := do
  let reg ← tokAt toks 1
  if reg = "M" then do
    let hl_addr ← get_hl_addr
    let old_val ← memGet hl_addr
    memSet hl_addr ((old_val - 1).emod 256)
    let ac : Int := if old_val.emod 16 = 0 then 0 else 1
    let m2 ← memGet hl_addr
    update_flags m2 false 0 true ac
  else do
    let old_val ← regGet reg
    regSet reg ((old_val - 1).emod 256)
    let ac : Int := if old_val.emod 16 = 0 then 0 else 1
    let r2 ← regGet reg
    update_flags r2 false 0 true ac
  pcAdd 1
  pure .OK

def execHLT : PM Status := do
  PM.modifyS fun s => { s with halted := true }
  pure .HALT

def execINX (toks : List String) : PM Status := do
  let reg_pair ← tokAt toks 1
  if reg_pair = "B" then do
    let bc ← get_bc_addr
    let bc := (bc + 1).emod 65536
    regSet "B" ((bc.fdiv 256).emod 256)
    regSet "C" (bc.emod 256)
    pcAdd 1
    pure .OK
  else if reg_pair = "D" then do
    let de ← get_de_addr
    let de := (de + 1).emod 65536
    regSet "D" ((de.fdiv 256).emod 256)
    regSet "E" (de.emod 256)
    pcAdd 1
    pure .OK
  else if reg_pair = "H" then do
    let hl ← get_hl_addr
    let hl := (hl + 1).emod 65536
    regSet "H" ((hl.fdiv 256).emod 256)
    regSet "L" (hl.emod 256)
    pcAdd 1
    pure .OK
  else if reg_pair = "SP" then do
    let sp ← regGet "SP"
    regSet "SP" ((sp + 1).emod 65536)
    pcAdd 1
    pure .OK
  else errorReturn ("Invalid register pair: " ++ reg_pair)

/-- Push the pair (`high`, `low`) the way PUSH/CALL/RST do: high byte to
SP-1, low byte to SP-2, then one SP update. -/
def pushBytes (high low : Int) : PM Unit := do
  let sp ← regGet "SP"
  let addr_high := (sp - 1).emod 65536
  let addr_low := (sp - 2).emod 65536
  memSet addr_high high
  memSet addr_low low
  regSet "SP" addr_low

def execPUSH (toks : List String) : PM Status := do
  let t1 ← tokAt toks 1
  let reg_pair := pyStripChars [',', ';'] t1
  if reg_pair = "PSW" then do
    let psw ← get_psw
    pushBytes ((psw.fdiv 256).emod 256) (psw.emod 256)
    pcAdd 1
    pure .OK
  else if reg_pair = "B" then do
    let b ← regGet "B"
    let c ← regGet "C"
    pushBytes b c
    pcAdd 1
    pure .OK
  else if reg_pair = "D" then do
    let d ← regGet "D"
    let e ← regGet "E"
    pushBytes d e
    pcAdd 1
    pure .OK
  else if reg_pair = "H" then do
    let h ← regGet "H"
    let l ← regGet "L"
    pushBytes h l
    pcAdd 1
    pure .OK
  else errorReturn ("Invalid register pair for PUSH: " ++ reg_pair)

/-- Pop one byte: read memory at SP, then SP := (SP + 1) mod 2^16. -/
def popByte : PM Int := do
  let sp ← regGet "SP"
  let v ← memGet sp
  regSet "SP" ((sp + 1).emod 65536)
  pure v

def execPOP (toks : List String) : PM Status := do
  let t1 ← tokAt toks 1
  let reg_pair := pyStripChars [',', ';'] t1
  if reg_pair = "PSW" then do
    let flags_byte ← popByte
    let a ← popByte
    regSet "A" a
    PM.modifyS fun s =>
      { s with
        flagS := if bitMask flags_byte 7 ≠ 0 then 1 else 0
        flagZ := if bitMask flags_byte 6 ≠ 0 then 1 else 0
        flagAC := if bitMask flags_byte 4 ≠ 0 then 1 else 0
        flagP := if bitMask flags_byte 2 ≠ 0 then 1 else 0
        flagC := if bitMask flags_byte 0 ≠ 0 then 1 else 0 }
    pcAdd 1
    pure .OK
  else if reg_pair = "B" then do
    let c ← popByte
    regSet "C" c
    let b ← popByte
    regSet "B" b
    pcAdd 1
    pure .OK
  else if reg_pair = "D" then do
    let e ← popByte
    regSet "E" e
    let d ← popByte
    regSet "D" d
    pcAdd 1
    pure .OK
  else if reg_pair = "H" then do
    let l ← popByte
    regSet "L" l
    let h ← popByte
    regSet "H" h
    pcAdd 1
    pure .OK
  else errorReturn ("Invalid register pair for POP: " ++ reg_pair)

def execCALL (toks : List String) : PM Status := do
  let t1 ← tokAt toks 1
  let jump_target := pyStripChars [',', ';'] t1
  let s ← PM.get
  let target_addr ←
    match s.labels.lookup jump_target with
    | some v => pure v
    | none => parseNum jump_target
  let pc ← regGet "PC"
  let return_addr := pc + 3
  pushBytes ((return_addr.fdiv 256).emod 256) (return_addr.emod 256)
  regSet "PC" (target_addr.emod 65536)
  pure .OK

def execRET : PM Status := do
  let return_addr_low ← popByte
  let return_addr_high ← popByte
  let return_addr := hiLo return_addr_high return_addr_low
  regSet "PC" (return_addr.emod 65536)
  pure .OK

def execCPI (toks : List String) : PM Status := do
  let t1 ← tokAt toks 1
  let v ← parseNum (pyStripChars [',', ';'] t1)
  let value := v.emod 256
  let a_value ← regGet "A"
  let result := a_value - value
  let carry : Int := if result < 0 then 1 else 0
  let ac : Int := if a_value.emod 16 < value.emod 16 then 1 else 0
  update_flags (result.emod 256) true carry true ac
  pcAdd 2
  pure .OK

def execDAD (toks : List String) : PM Status := do
  let t1 ← tokAt toks 1
  let reg_pair := pyStripChars [',', ';'] t1
  let hl ← get_hl_addr
  let operandE : PM (Option Int) :=
    if reg_pair = "B" then do
      let v ← get_bc_addr
      pure (some v)
    else if reg_pair = "D" then do
      let v ← get_de_addr
      pure (some v)
    else if reg_pair = "H" then pure (some hl)
    else if reg_pair = "SP" then do
      let v ← regGet "SP"
      pure (some v)
    else pure none
  let op ← operandE
  match op with
  | none => errorReturn ("Invalid register pair for DAD: " ++ reg_pair)
  | some operand => do
    let result := (hl + operand).emod 65536
    let carry : Int := if 65535 < hl + operand then 1 else 0
    regSet "H" ((result.fdiv 256).emod 256)
    regSet "L" (result.emod 256)
    PM.modifyS fun s => { s with flagC := carry }
    pcAdd 1
    pure .OK

def execXCHG : PM Status := do
  let temp_d ← regGet "D"
  let temp_e ← regGet "E"
  let h ← regGet "H"
  let l ← regGet "L"
  regSet "D" h
  regSet "E" l
  regSet "H" temp_d
  regSet "L" temp_e
  pcAdd 1
  pure .OK

def execLDAX (toks : List String) : PM Status := do
  let t1 ← tokAt toks 1
  let reg_pair := pyStripChars [',', ';'] t1
  if reg_pair = "B" then do
    let addr ← get_bc_addr
    let v ← memGet addr
    regSet "A" v
    pcAdd 1
    pure .OK
  else if reg_pair = "D" then do
    let addr ← get_de_addr
    let v ← memGet addr
    regSet "A" v
    pcAdd 1
    pure .OK
  else errorReturn ("Invalid register pair for LDAX: " ++ reg_pair)

def execSTAX (toks : List String) : PM Status := do
  let t1 ← tokAt toks 1
  let reg_pair := pyStripChars [',', ';'] t1
  if reg_pair = "B" then do
    let addr ← get_bc_addr
    let a ← regGet "A"
    memSet addr a
    pcAdd 1
    pure .OK
  else if reg_pair = "D" then do
    let addr ← get_de_addr
    let a ← regGet "A"
    memSet addr a
    pcAdd 1
    pure .OK
  else errorReturn ("Invalid register pair for STAX: " ++ reg_pair)

def execLHLD (toks : List String) : PM Status := do
  let t1 ← tokAt toks 1
  let v ← parseNum t1
  let addr := v.emod 65536
  let addr_plus_1 := (addr + 1).emod 65536
  let lo ← memGet addr
  regSet "L" lo
  let hi ← memGet addr_plus_1
  regSet "H" hi
  pcAdd 3
  pure .OK

def execSHLD (toks : List String) : PM Status := do
  let t1 ← tokAt toks 1
  let v ← parseNum t1
  let addr := v.emod 65536
  let addr_plus_1 := (addr + 1).emod 65536
  let l ← regGet "L"
  memSet addr l
  let h ← regGet "H"
  memSet addr_plus_1 h
  pcAdd 3
  pure .OK

def execPCHL : PM Status := do
  let hl ← get_hl_addr
  regSet "PC" hl
  pure .OK

def execSPHL : PM Status := do
  let hl ← get_hl_addr
  regSet "SP" hl
  pcAdd 1
  pure .OK

def execXTHL : PM Status := do
  let sp_addr ← regGet "SP"
  let sp_plus_1 := (sp_addr + 1).emod 65536
  let h_val ← regGet "H"
  let l_val ← regGet "L"
  let m0 ← memGet sp_addr
  regSet "L" m0
  let m1 ← memGet sp_plus_1
  regSet "H" m1
  memSet sp_addr l_val
  memSet sp_plus_1 h_val
  pcAdd 1
  pure .OK

def execANA (toks : List String) : PM Status := do
  let t1 ← tokAt toks 1
  let reg := pyStripChars [',', ';'] t1
  let value ← if reg = "M" then do
      let addr ← get_hl_addr
      memGet addr
    else regGet reg
  let a ← regGet "A"
  let result := pyAnd a value
  regSet "A" result
  update_flags result false 0 false 0
  PM.modifyS fun s => { s with flagC := 0 }
  PM.modifyS fun s => { s with flagAC := 1 }
  pcAdd 1
  pure .OK

def execANI (toks : List String) : PM Status := do
  let t1 ← tokAt toks 1
  let v ← parseNum t1
  let value := v.emod 256
  let a ← regGet "A"
  let result := pyAnd a value
  regSet "A" result
  update_flags result false 0 false 0
  PM.modifyS fun s => { s with flagC := 0 }
  PM.modifyS fun s => { s with flagAC := 1 }
  pcAdd 2
  pure .OK

def execORA (toks : List String) : PM Status := do
  let t1 ← tokAt toks 1
  let reg := pyStripChars [',', ';'] t1
  let value ← if reg = "M" then do
      let addr ← get_hl_addr
      memGet addr
    else regGet reg
  let a ← regGet "A"
  let result := pyOr a value
  regSet "A" result
  update_flags result false 0 false 0
  PM.modifyS fun s => { s with flagC := 0 }
  PM.modifyS fun s => { s with flagAC := 0 }
  pcAdd 1
  pure .OK

def execORI (toks : List String) : PM Status := do
  let t1 ← tokAt toks 1
  let v ← parseNum t1
  let value := v.emod 256
  let a ← regGet "A"
  let result := pyOr a value
  regSet "A" result
  update_flags result false 0 false 0
  PM.modifyS fun s => { s with flagC := 0 }
  PM.modifyS fun s => { s with flagAC := 0 }
  pcAdd 2
  pure .OK

def execXRA (toks : List String) : PM Status := do
  let t1 ← tokAt toks 1
  let reg := pyStripChars [',', ';'] t1
  let value ← if reg = "M" then do
      let addr ← get_hl_addr
      memGet addr
    else regGet reg
  let a ← regGet "A"
  let result := pyXor a value
  regSet "A" result
  update_flags result false 0 false 0
  PM.modifyS fun s => { s with flagC := 0 }
  PM.modifyS fun s => { s with flagAC := 0 }
  pcAdd 1
  pure .OK

def execXRI (toks : List String) : PM Status := do
  let t1 ← tokAt toks 1
  let v ← parseNum t1
  let value := v.emod 256
  let a ← regGet "A"
  let result := pyXor a value
  regSet "A" result
  update_flags result false 0 false 0
  PM.modifyS fun s => { s with flagC := 0 }
  PM.modifyS fun s => { s with flagAC := 0 }
  pcAdd 2
  pure .OK

def execCMA : PM Status := do
  let a ← regGet "A"
  -- Python bitwise not: ~a = -a - 1, then masked to 8 bits.
  regSet "A" ((-a - 1).emod 256)
  pcAdd 1
  pure .OK

def execCMC : PM Status := do
  PM.modifyS fun s => { s with flagC := if s.flagC = 0 then 1 else 0 }
  pcAdd 1
  pure .OK

def execSTC : PM Status := do
  PM.modifyS fun s => { s with flagC := 1 }
  pcAdd 1
  pure .OK

def execRLC : PM Status := do
  let value ← regGet "A"
  PM.modifyS fun s => { s with flagC := (value.fdiv 128).emod 2 }
  -- (value << 1) | (value >> 7), disjoint bit ranges for byte values.
  regSet "A" ((value * 2 + value.fdiv 128).emod 256)
  pcAdd 1
  pure .OK

def execRRC : PM Status := do
  let value ← regGet "A"
  PM.modifyS fun s => { s with flagC := value.emod 2 }
  -- (value >> 1) | ((value & 1) << 7)
  regSet "A" ((value.fdiv 2 + value.emod 2 * 128).emod 256)
  pcAdd 1
  pure .OK

def execRAL : PM Status := do
  let value ← regGet "A"
  let s ← PM.get
  let old_carry := s.flagC
  PM.modifyS fun s => { s with flagC := (value.fdiv 128).emod 2 }
  -- (value << 1) | old_carry
  regSet "A" ((value * 2 + old_carry).emod 256)
  pcAdd 1
  pure .OK

def execRAR : PM Status := do
  let value ← regGet "A"
  let s ← PM.get
  let old_carry := s.flagC
  PM.modifyS fun s => { s with flagC := value.emod 2 }
  -- (value >> 1) | (old_carry << 7)
  regSet "A" ((value.fdiv 2 + old_carry * 128).emod 256)
  pcAdd 1
  pure .OK

def execADC (toks : List String) : PM Status := do
  let t1 ← tokAt toks 1
  let reg := pyStripChars [',', ';'] t1
  let value ← if reg = "M" then do
      let addr ← get_hl_addr
      memGet addr
    else regGet reg
  let a_value ← regGet "A"
  let s ← PM.get
  let carry := s.flagC
  let ac : Int := if 15 < a_value.emod 16 + value.emod 16 + carry then 1 else 0
  let result := a_value + value + carry
  let carry_out : Int := if 255 < result then 1 else 0
  regSet "A" (result.emod 256)
  let a2 ← regGet "A"
  update_flags a2 true carry_out true ac
  pcAdd 1
  pure .OK

def execACI (toks : List String) : PM Status := do
  let t1 ← tokAt toks 1
  let v ← parseNum t1
  let value := v.emod 256
  let a_value ← regGet "A"
  let s ← PM.get
  let carry := s.flagC
  let ac : Int := if 15 < a_value.emod 16 + value.emod 16 + carry then 1 else 0
  let result := a_value + value + carry
  let carry_out : Int := if 255 < result then 1 else 0
  regSet "A" (result.emod 256)
  let a2 ← regGet "A"
  update_flags a2 true carry_out true ac
  pcAdd 2
  pure .OK

def execSBB (toks : List String) : PM Status := do
  let t1 ← tokAt toks 1
  let reg := pyStripChars [',', ';'] t1
  let value ← if reg = "M" then do
      let addr ← get_hl_addr
      memGet addr
    else regGet reg
  let a_value ← regGet "A"
  let s ← PM.get
  let borrow := s.flagC
  let ac : Int := if a_value.emod 16 < value.emod 16 + borrow then 1 else 0
  let result := a_value - value - borrow
  let carry_out : Int := if result < 0 then 1 else 0
  regSet "A" (result.emod 256)
  let a2 ← regGet "A"
  update_flags a2 true carry_out true ac
  pcAdd 1
  pure .OK

def execSBI (toks : List String) : PM Status := do
  let t1 ← tokAt toks 1
  let v ← parseNum t1
  let value := v.emod 256
  let a_value ← regGet "A"
  let s ← PM.get
  let borrow := s.flagC
  let ac : Int := if a_value.emod 16 < value.emod 16 + borrow then 1 else 0
  let result := a_value - value - borrow
  let carry_out : Int := if result < 0 then 1 else 0
  regSet "A" (result.emod 256)
  let a2 ← regGet "A"
  update_flags a2 true carry_out true ac
  pcAdd 2
  pure .OK

/-- DAA: the two-step decimal correction.  `x & 0xF0` is embedded as
`x.emod 256 - x.emod 16` (bits 4..7), exact for all integers. -/
def execDAA : PM Status := do
  let a0 ← regGet "A"
  let s ← PM.get
  let carry0 := s.flagC
  let ac0 := s.flagAC
  let cond1 := 9 < a0.emod 16 ∨ ac0 = 1
  let a1 := if cond1 then a0 + 6 else a0
  let ac1 : Int :=
    if cond1 then (if a1.emod 16 < a0.emod 16 then 1 else 0) else 0
  let highNibble := (a1.emod 256 - a1.emod 16).fdiv 16
  let cond2 := 9 < highNibble ∨ carry0 = 1 ∨
    (144 ≤ a1.emod 256 - a1.emod 16 ∧ 9 < a1.emod 16)
  let a2 := if cond2 then a1 + 0x60 else a1
  let carry1 : Int := if cond2 then 1 else 0
  regSet "A" (a2.emod 256)
  let a3 ← regGet "A"
  update_flags a3 true carry1 true ac1
  pcAdd 1
  pure .OK

def execDCX (toks : List String) : PM Status := do
  let reg_pair ← tokAt toks 1
  if reg_pair = "B" then do
    let bc ← get_bc_addr
    let bc := (bc - 1).emod 65536
    regSet "B" ((bc.fdiv 256).emod 256)
    regSet "C" (bc.emod 256)
    pcAdd 1
    pure .OK
  else if reg_pair = "D" then do
    let de ← get_de_addr
    let de := (de - 1).emod 65536
    regSet "D" ((de.fdiv 256).emod 256)
    regSet "E" (de.emod 256)
    pcAdd 1
    pure .OK
  else if reg_pair = "H" then do
    let hl ← get_hl_addr
    let hl := (hl - 1).emod 65536
    regSet "H" ((hl.fdiv 256).emod 256)
    regSet "L" (hl.emod 256)
    pcAdd 1
    pure .OK
  else if reg_pair = "SP" then do
    let sp ← regGet "SP"
    regSet "SP" ((sp - 1).emod 65536)
    pcAdd 1
    pure .OK
  else errorReturn ("Invalid register pair: " ++ reg_pair)

/-- Conditional call family: an unresolvable target is reported with the
explicit `Cannot resolve label` error (only ValueError is caught there). -/
def execCondCall (opcode : String) (toks : List String) : PM Status := do
  let t1 ← tokAt toks 1
  let jump_target := pyStripChars [',', ';'] t1
  let s ← PM.get
  let targetE : PM (Option Int) :=
    match s.labels.lookup jump_target with
    | some v => pure (some v)
    | none => do
      let st ← PM.get
      match parse_number st.symbols st.labels jump_target with
      | .ok v => pure (some v)
      | .error (.valueError _) => pure none
      | .error e => PM.throw e
  let target? ← targetE
  match target? with
  | none => errorReturn ("Cannot resolve label: " ++ jump_target)
  | some target_addr => do
    let should_call : Bool :=
      if opcode = "CC" ∧ s.flagC = 1 then true
      else if opcode = "CNC" ∧ s.flagC = 0 then true
      else if opcode = "CZ" ∧ s.flagZ = 1 then true
      else if opcode = "CNZ" ∧ s.flagZ = 0 then true
      else if opcode = "CP" ∧ s.flagS = 0 then true
      else if opcode = "CM" ∧ s.flagS = 1 then true
      else if opcode = "CPE" ∧ s.flagP = 1 then true
      else if opcode = "CPO" ∧ s.flagP = 0 then true
      else false
    if should_call then do
      let pc ← regGet "PC"
      let return_addr := pc + 3
      pushBytes ((return_addr.fdiv 256).emod 256) (return_addr.emod 256)
      regSet "PC" (target_addr.emod 65536)
      pure .OK
    else do
      pcAdd 3
      pure .OK

def execCondRet (opcode : String) : PM Status := do
  let s ← PM.get
  let should_return : Bool :=
    if opcode = "RC" ∧ s.flagC = 1 then true
    else if opcode = "RNC" ∧ s.flagC = 0 then true
    else if opcode = "RZ" ∧ s.flagZ = 1 then true
    else if opcode = "RNZ" ∧ s.flagZ = 0 then true
    else if opcode = "RP" ∧ s.flagS = 0 then true
    else if opcode = "RM" ∧ s.flagS = 1 then true
    else if opcode = "RPE" ∧ s.flagP = 1 then true
    else if opcode = "RPO" ∧ s.flagP = 0 then true
    else false
  if should_return then do
    let return_addr_low ← popByte
    let return_addr_high ← popByte
    let return_addr := hiLo return_addr_high return_addr_low
    regSet "PC" (return_addr.emod 65536)
    pure .OK
  else do
    pcAdd 1
    pure .OK

def execRST (toks : List String) : PM Status := do
  let t1 ← tokAt toks 1
  let rst_num ←
    match pyInt false t1 with
    | some v => pure v
    | none => PM.throw (.valueError ("invalid literal for int() with base 10: " ++ t1))
  if rst_num < 0 ∨ 7 < rst_num then
    errorReturn ("Invalid RST number: " ++ toString rst_num ++ ". Must be 0-7.")
  else do
    let restart_addr := 8 * rst_num
    let pc ← regGet "PC"
    let return_addr := pc + 1
    pushBytes ((return_addr.fdiv 256).emod 256) (return_addr.emod 256)
    regSet "PC" restart_addr
    pure .OK

def execCMP (toks : List String) : PM Status := do
  let t1 ← tokAt toks 1
  let reg := pyStripChars [',', ';'] t1
  let value ← if reg = "M" then do
      let addr ← get_hl_addr
      memGet addr
    else regGet reg
  let a_value ← regGet "A"
  let ac : Int := if a_value.emod 16 < value.emod 16 then 1 else 0
  let result := a_value - value
  let carry_out : Int := if result < 0 then 1 else 0
  update_flags (result.emod 256) true carry_out true ac
  pcAdd 1
  pure .OK

def execNOP : PM Status := do
  pcAdd 1
  pure .OK

def execSUI (toks : List String) : PM Status := do
  let t1 ← tokAt toks 1
  let v ← parseNum (pyStripChars [',', ';'] t1)
  let value := v.emod 256
  let a_value ← regGet "A"
  let ac : Int := if a_value.emod 16 < value.emod 16 then 1 else 0
  let result := a_value - value
  let carry : Int := if result < 0 then 1 else 0
  regSet "A" (result.emod 256)
  let a2 ← regGet "A"
  update_flags a2 true carry true ac
  pcAdd 2
  pure .OK

def execIN (toks : List String) : PM Status := do
  let t1 ← tokAt toks 1
  let v ← parseNum (pyStripChars [',', ';'] t1)
  let port := v.emod 256
  let x ← ioGet port
  regSet "A" x
  pcAdd 2
  pure .OK

def execOUT (toks : List String) : PM Status := do
  let t1 ← tokAt toks 1
  let v ← parseNum (pyStripChars [',', ';'] t1)
  let port := v.emod 256
  let a ← regGet "A"
  ioSet port a
  pcAdd 2
  pure .OK

def execEI : PM Status := do
  pcAdd 1
  pure .OK

def execDI : PM Status := do
  pcAdd 1
  pure .OK

def execRIM : PM Status := do
  regSet "A" 0x00
  pcAdd 1
  pure .OK

def execSIM : PM Status := do
  pcAdd 1
  pure .OK

/-- The if/elif dispatch over the decoded opcode. -/
def dispatch (opcode : String) (toks : List String) : PM Status :=
  if opcode = "JMP" ∨ opcode = "JZ" ∨ opcode = "JNZ" ∨ opcode = "JC" ∨
      opcode = "JNC" ∨ opcode = "JP" ∨ opcode = "JM" ∨ opcode = "JPE" ∨
      opcode = "JPO" then execJump opcode toks
  else if opcode = "MVI" then execMVI toks
  else if opcode = "MOV" then execMOV toks
  else if opcode = "LXI" then execLXI toks
  else if opcode = "LDA" then execLDA toks
  else if opcode = "STA" then execSTA toks
  else if opcode = "ADD" then execADD toks
  else if opcode = "ADI" then execADI toks
  else if opcode = "SUB" then execSUB toks
  else if opcode = "INR" then execINR toks
  else if opcode = "DCR" then execDCR toks
  else if opcode = "HLT" then execHLT
  else if opcode = "INX" then execINX toks
  else if opcode = "PUSH" then execPUSH toks
  else if opcode = "POP" then execPOP toks
  else if opcode = "CALL" then execCALL toks
  else if opcode = "RET" then execRET
  else if opcode = "CPI" then execCPI toks
  else if opcode = "DAD" then execDAD toks
  else if opcode = "XCHG" then execXCHG
  else if opcode = "LDAX" then execLDAX toks
  else if opcode = "STAX" then execSTAX toks
  else if opcode = "LHLD" then execLHLD toks
  else if opcode = "SHLD" then execSHLD toks
  else if opcode = "PCHL" then execPCHL
  else if opcode = "SPHL" then execSPHL
  else if opcode = "XTHL" then execXTHL
  else if opcode = "ANA" then execANA toks
  else if opcode = "ANI" then execANI toks
  else if opcode = "ORA" then execORA toks
  else if opcode = "ORI" then execORI toks
  else if opcode = "XRA" then execXRA toks
  else if opcode = "XRI" then execXRI toks
  else if opcode = "CMA" then execCMA
  else if opcode = "CMC" then execCMC
  else if opcode = "STC" then execSTC
  else if opcode = "RLC" then execRLC
  else if opcode = "RRC" then execRRC
  else if opcode = "RAL" then execRAL
  else if opcode = "RAR" then execRAR
  else if opcode = "ADC" then execADC toks
  else if opcode = "ACI" then execACI toks
  else if opcode = "SBB" then execSBB toks
  else if opcode = "SBI" then execSBI toks
  else if opcode = "DAA" then execDAA
  else if opcode = "DCX" then execDCX toks
  else if opcode = "CC" ∨ opcode = "CNC" ∨ opcode = "CZ" ∨ opcode = "CNZ" ∨
      opcode = "CP" ∨ opcode = "CM" ∨ opcode = "CPE" ∨ opcode = "CPO" then
    execCondCall opcode toks
  else if opcode = "RC" ∨ opcode = "RNC" ∨ opcode = "RZ" ∨ opcode = "RNZ" ∨
      opcode = "RP" ∨ opcode = "RM" ∨ opcode = "RPE" ∨ opcode = "RPO" then
    execCondRet opcode
  else if opcode = "RST" then execRST toks
  else if opcode = "CMP" then execCMP toks
  else if opcode = "NOP" then execNOP
  else if opcode = "SUI" then execSUI toks
  else if opcode = "IN" then execIN toks
  else if opcode = "OUT" then execOUT toks
  else if opcode = "EI" then execEI
  else if opcode = "DI" then execDI
  else if opcode = "RIM" then execRIM
  else if opcode = "SIM" then execSIM
  else errorReturn ("Unknown opcode: " ++ opcode)

/-- The error message for a PC outside the parsed program. -/
def noInstrMsg (pc : Int) : String :=
  "No instruction at address " ++ formatHex04 pc

/-- The `for addr, tokens in self.parsed_program` scan of `step`: the token
list of the first entry whose address equals `pc`. -/
def instrAt (s : Proc) (pc : Int) : Option (List String) :=
  (s.parsed_program.find? (fun p => p.1 == pc)).map Prod.snd

/-- `Processor8085.step`: the halted and sticky-error guards, the linear scan
for the instruction at PC, and the dispatch wrapped in the catch-all that
records `Error executing <opcode>: <message>`.  The only statement outside
the guard structure that can raise is the read of `registers["PC"]`, which
escapes `step` itself; it is the outer `.error` case.  A found but empty
token list is falsy in Python and is treated like an absent instruction. -/
def step (s : Proc) : Except String (Proc × Status) :=
  if s.halted then .ok (s, .HALT)
  else if errTruthy s.error then .ok (s, .ERROR)
  else
    match s.regs.lookup "PC" with
    | none => .error "KeyError: PC"
    | some pc =>
      match instrAt s pc with
      | none => .ok ({ s with error := some (noInstrMsg pc) }, .ERROR)
      | some [] => .ok ({ s with error := some (noInstrMsg pc) }, .ERROR)
      | some (t0 :: rest) =>
        let instruction := t0 :: rest
        let s1 := { s with last_instruction := some (" ".intercalate instruction) }
        let opcode := pyUpper t0
        match dispatch opcode instruction s1 with
        | (s2, .ok st) => .ok (s2, st)
        | (s2, .error e) =>
          .ok ({ s2 with error := some ("Error executing " ++ opcode ++ ": " ++ e.msg) },
            .ERROR)

end Processor

/-! ## Specification-side definitions

These formalize the flag vocabulary the specification uses; the claim
theorems relate the embedded `step` to them. -/

/-- Carry out of the low nibble (bit 3 into bit 4) of an 8-bit addition of
`a` and `b` with incoming carry `c`. -/
def addNibbleCarry (a b c : Int) : Int :=
  if 15 < a.emod 16 + b.emod 16 + c then 1 else 0

/-- Carry out of the byte boundary of an 8-bit addition. -/
def addByteCarry (a b c : Int) : Int :=
  if 255 < a + b + c then 1 else 0

/-- Borrow across the bit 3 / bit 4 nibble boundary of an 8-bit subtraction
`a - b - c`. -/
def subNibbleBorrow (a b c : Int) : Int :=
  if a.emod 16 < b.emod 16 + c then 1 else 0

/-- Borrow out of the byte boundary of an 8-bit subtraction. -/
def subByteBorrow (a b c : Int) : Int :=
  if a - b - c < 0 then 1 else 0

/-- The low byte of `x` has an even number of one bits. -/
def evenParity8 (x : Int) : Prop :=
  bitCount8 (x.emod 256).toNat % 2 = 0

/-- Every register-map entry other than the 16-bit SP and PC holds a value
in `[0, 256)`. -/
def RegsOk (regs : List (String × Int)) : Prop :=
  ∀ k v, regs.lookup k = some v → k ≠ "SP" → k ≠ "PC" → 0 ≤ v ∧ v < 256

/-- Every cell of a byte buffer holds a value in `[0, 256)` (the bytearray
invariant). -/
def BufOk (m : Nat → Int) : Prop :=
  ∀ i, 0 ≤ m i ∧ m i < 256

/-- The three byte-range invariants of a processor state together. -/
def ProcInv (s : Proc) : Prop :=
  RegsOk s.regs ∧ BufOk s.memory ∧ BufOk s.io_ports

namespace Processor

/-- Invariant preservation with a predicate on the produced value: running
`m` from any state satisfying the three byte invariants leaves them intact
(also on the mutated state of a raising run), and any successfully produced
value satisfies `Q`. -/
def PresV {α : Type} (m : PM α) (Q : α → Prop) : Prop :=
  ∀ s, ProcInv s → ProcInv (m s).1 ∧ ∀ a, (m s).2 = Except.ok a → Q a

/-- Plain invariant preservation. -/
def Pres {α : Type} (m : PM α) : Prop := PresV m (fun _ => True)

/-- The instruction the next `step()` would execute (if any) is none of the
three unmasked 16-bit register reads: `MOV` with source token SP or PC, or
`ORA`/`XRA` whose stripped register operand is SP or PC. -/
def StepSafe (s : Proc) : Prop :=
  ∀ pc toks, s.regs.lookup "PC" = some pc → instrAt s pc = some toks →
    (pyUpper (toks.headD "") = "MOV" →
      toks.getD 2 "" ≠ "SP" ∧ toks.getD 2 "" ≠ "PC") ∧
    (pyUpper (toks.headD "") = "ORA" ∨ pyUpper (toks.headD "") = "XRA" →
      pyStripChars [Char.ofNat 44, Char.ofNat 59] (toks.getD 1 "") ≠ "SP" ∧
      pyStripChars [Char.ofNat 44, Char.ofNat 59] (toks.getD 1 "") ≠ "PC")

end Processor

/-! ## Concrete states used by witnesses and counterexamples -/

/-- A processor mid-session: accumulator 7, carry set (for the `load_program`
counterexample). -/
def procDirty : Proc :=
  { Proc.init with
    regs := dictSet Proc.init.regs "A" 7
    flagC := 1 }

/-- A fresh processor whose program is the single instruction `MOV A, SP`
(for the register-range counterexample); SP holds its reset value 0xFFFF. -/
def procMovASp : Proc :=
  { Proc.init with parsed_program := [(0, ["MOV", "A,", "SP"])] }

/-- A processor about to execute `DCR B` with B = 0x10, so the decrement
borrows across the nibble boundary. -/
def procDcrB16 : Proc :=
  { Proc.init with
    parsed_program := [(0, ["DCR", "B"])]
    regs := dictSet Proc.init.regs "B" 16 }

/-- A processor about to execute `ADD B` with A = 0x0F and B = 1. -/
def procAddB : Proc :=
  { Proc.init with
    parsed_program := [(0, ["ADD", "B"])]
    regs := dictSet (dictSet Proc.init.regs "A" 15) "B" 1 }

/-- A processor about to execute `ANA B` with A = 0xF0 and B = 0x0F. -/
def procAnaB : Proc :=
  { Proc.init with
    parsed_program := [(0, ["ANA", "B"])]
    regs := dictSet (dictSet Proc.init.regs "A" 240) "B" 15 }

/-- A processor with `PUSH B` then `POP B` loaded and B = 0x12, C = 0x34. -/
def procPushPop : Proc :=
  { Proc.init with
    parsed_program := [(0, ["PUSH", "B"]), (1, ["POP", "B"])]
    regs := dictSet (dictSet Proc.init.regs "B" 18) "C" 52 }

/-- A halted processor (for the guard witnesses). -/
def procHalted : Proc := { Proc.init with halted := true }

/-- A processor with a recorded error. -/
def procErred : Proc := { Proc.init with error := some "boom" }

/-- A processor about to execute `HLT` at address 0. -/
def procAtHlt : Proc := { Proc.init with parsed_program := [(0, ["HLT"])] }

/-- The output and final location counter of the passes on the two-line
program used by the C4 witness. -/
def c4CoreOut : AssemblyOutput × Int :=
  (Assembler.assembleCore ["MVI A, 05H", "HLT"]).toOption.getD (AssemblyOutput.init, 0)

/-! ## Helper lemmas -/

theorem lookup_dictSet (l : List (String × Int)) (k k' : String) (v : Int) :
    (dictSet l k v).lookup k' = if k' = k then some v else l.lookup k' := by
  induction l with
  | nil =>
    simp only [dictSet, List.lookup]
    cases hb : k' == k with
    | true => simp [eq_of_beq hb]
    | false =>
      have hne : k' ≠ k := fun h => by simp [h] at hb
      simp [hne]
  | cons p rest ih =>
    obtain ⟨a, b⟩ := p
    simp only [dictSet]
    cases hab : a == k with
    | true =>
      have hak : a = k := eq_of_beq hab
      subst hak
      simp only [if_true, List.lookup]
      cases hb : k' == a with
      | true => simp [eq_of_beq hb]
      | false =>
        have hne : k' ≠ a := fun h => by simp [h] at hb
        simp [hne]
    | false =>
      have hak : a ≠ k := fun h => by simp [h] at hab
      simp only [Bool.false_eq_true, if_false, List.lookup]
      cases hb : k' == a with
      | true =>
        have h2 : k' = a := eq_of_beq hb
        subst h2
        simp [hak]
      | false =>
        have hne : k' ≠ a := fun h => by simp [h] at hb
        simp only [List.lookup, hb] at ih ⊢
        rw [ih]

theorem lookup_dictSet_self (l : List (String × Int)) (k : String) (v : Int) :
    (dictSet l k v).lookup k = some v := by
  simp [lookup_dictSet]

theorem lookup_dictSet_ne (l : List (String × Int)) (k k' : String) (v : Int)
    (h : k' ≠ k) : (dictSet l k v).lookup k' = l.lookup k' := by
  simp [lookup_dictSet, h]

namespace Processor

theorem pm_bind_apply {α β : Type} (x : PM α) (f : α → PM β) (s : Proc) :
    (x >>= f) s = match x s with
      | (s', Except.ok a) => f a s'
      | (s', Except.error e) => (s', Except.error e) := rfl

theorem pm_pure_apply {α : Type} (a : α) (s : Proc) :
    (pure a : PM α) s = (s, Except.ok a) := rfl

theorem pm_get_apply (s : Proc) : PM.get s = (s, Except.ok s) := rfl

theorem pm_modifyS_apply (f : Proc → Proc) (s : Proc) :
    PM.modifyS f s = (f s, Except.ok ()) := rfl

theorem pm_throw_apply {α : Type} (e : PyExn) (s : Proc) :
    (PM.throw e : PM α) s = (s, Except.error e) := rfl

/-- Reduce `step` to the dispatch once the guards and the instruction lookup
are pinned down. -/
theorem step_dispatch (s : Proc) (pc : Int) (t0 : String) (rest : List String)
    (hh : s.halted = false) (he : s.error = none)
    (hpc : s.regs.lookup "PC" = some pc)
    (hfind : instrAt s pc = some (t0 :: rest)) :
    step s = (match dispatch (pyUpper t0) (t0 :: rest)
        { s with last_instruction := some (" ".intercalate (t0 :: rest)) } with
      | (s2, Except.ok st) => Except.ok (s2, st)
      | (s2, Except.error e) =>
        Except.ok ({ s2 with
          error := some ("Error executing " ++ pyUpper t0 ++ ": " ++ e.msg) }, .ERROR)) := by
  simp [step, hh, he, hpc, hfind, errTruthy]

end Processor

/-! ## Claim theorems -/

open Processor Assembler

/-- C9: executing HLT via `step()` sets `halted`, returns HALT, and leaves
PC at the HLT instruction itself: the whole post-state is the pre-state with
only `halted` flipped (and `last_instruction` recorded, which the dispatcher
always does before decoding). -/
theorem c9_hlt (s : Proc) (pc : Int) (rest : List String)
    (hh : s.halted = false) (he : s.error = none)
    (hpc : s.regs.lookup "PC" = some pc)
    (hfind : instrAt s pc = some ("HLT" :: rest)) :
    step s = .ok ({ s with
      last_instruction := some (" ".intercalate ("HLT" :: rest))
      halted := true }, .HALT) := by
  rw [step_dispatch s pc "HLT" rest hh he hpc hfind]
  simp [dispatch, pyUpper, execHLT, pm_bind_apply, pm_pure_apply, pm_modifyS_apply]

/-- Witness for C9 at a concrete state. -/
theorem c9_hlt_witness :
    step procAtHlt = .ok ({ procAtHlt with
      last_instruction := some "HLT"
      halted := true }, .HALT) := by
  have h := c9_hlt procAtHlt 0 [] rfl rfl (by decide) (by decide)
  simpa using h

/-- C8: `step()` on a halted processor returns HALT with no side effects; on
a processor with a recorded (nonempty) error it returns ERROR with no side
effects; the error stays until `load_program` clears it; and when no entry of
`parsed_program` carries the current PC, `step()` records the
`No instruction at address` error and returns ERROR, changing nothing else. -/
theorem c8_step_guards :
    (∀ s : Proc, s.halted = true → step s = .ok (s, .HALT)) ∧
    (∀ (s : Proc) (m : String), s.halted = false → s.error = some m → m ≠ "" →
      step s = .ok (s, .ERROR)) ∧
    (∀ (s : Proc) (pc : Int), s.halted = false → s.error = none →
      s.regs.lookup "PC" = some pc →
      (∀ e ∈ s.parsed_program, e.1 ≠ pc) →
      step s = .ok ({ s with error := some (noInstrMsg pc) }, .ERROR)) ∧
    (∀ (s : Proc) (out : AssemblyOutput), (load_program s out).error = none) := by
  refine ⟨?_, ?_, ?_, ?_⟩
  · intro s h
    simp [step, h]
  · intro s m hh he hm
    have hne : m.isEmpty = false := by
      cases hx : m.isEmpty
      · rfl
      · exact absurd ((String.isEmpty_iff m).mp hx) hm
    simp [step, hh, he, errTruthy, hne]
  · intro s pc hh he hpc hnone
    have hfind : instrAt s pc = none := by
      simp only [instrAt, Option.map_eq_none']
      rw [List.find?_eq_none]
      intro x hx
      simpa using hnone x hx
    simp [step, hh, he, hpc, hfind, errTruthy]
  · intro s out
    rfl

/-- Witness for C8 at concrete states: a halted processor, an erred
processor, a fresh processor with an empty program, and a reload. -/
theorem c8_step_guards_witness :
    step procHalted = .ok (procHalted, .HALT) ∧
    step procErred = .ok (procErred, .ERROR) ∧
    step Proc.init = .ok ({ Proc.init with error := some (noInstrMsg 0) }, .ERROR) ∧
    (load_program procErred AssemblyOutput.init).error = none := by
  refine ⟨c8_step_guards.1 procHalted rfl, ?_, ?_, ?_⟩
  · exact c8_step_guards.2.1 procErred "boom" rfl rfl (by decide)
  · exact c8_step_guards.2.2.1 Proc.init 0 rfl rfl (by decide) (by decide)
  · exact c8_step_guards.2.2.2 procErred AssemblyOutput.init

/-- C1 counterexample: `load_program` does not reset the registers or the
flags.  On a processor whose accumulator is 7 and whose carry flag is 1,
loading a fresh AssemblyOutput leaves A = 7 and C = 1, while the claim
demands A = 0 and C = 0. -/
theorem c1_counterexample :
    (load_program procDirty AssemblyOutput.init).regs.lookup "A" = some 7 ∧
    (load_program procDirty AssemblyOutput.init).flagC = 1 ∧
    (7 : Int) ≠ 0 ∧ (1 : Int) ≠ 0 := by
  exact ⟨by decide, rfl, by decide, by decide⟩

/-- C1 (amended): `load_program` copies the image and metadata, sets PC to
`starting_address`, clears `halted`, `error` and `last_instruction`, and
leaves every other register and every flag exactly as they were (the 8-bit
registers are 0, SP is 0xFFFF and the flags are 0 only because the caller
constructs a fresh processor, whose `__init__` sets them so). -/
theorem c1_load_program (s : Proc) (out : AssemblyOutput) :
    (load_program s out).regs.lookup "PC" = some out.starting_address ∧
    (∀ k : String, k ≠ "PC" → (load_program s out).regs.lookup k = s.regs.lookup k) ∧
    (load_program s out).halted = false ∧
    (load_program s out).error = none ∧
    (load_program s out).last_instruction = none ∧
    (load_program s out).flagS = s.flagS ∧
    (load_program s out).flagZ = s.flagZ ∧
    (load_program s out).flagAC = s.flagAC ∧
    (load_program s out).flagP = s.flagP ∧
    (load_program s out).flagC = s.flagC ∧
    (load_program s out).memory = out.memory ∧
    (load_program s out).parsed_program = out.parsed_program ∧
    (load_program s out).labels = out.labels ∧
    (load_program s out).symbols = out.symbols := by
  refine ⟨?_, ?_, rfl, rfl, rfl, rfl, rfl, rfl, rfl, rfl, rfl, rfl, rfl, rfl⟩
  · simp [load_program, lookup_dictSet_self]
  · intro k hk
    simp [load_program, lookup_dictSet_ne _ _ _ _ hk]

/-- Witness for C1 (amended) at a concrete state. -/
theorem c1_load_program_witness :
    (load_program procDirty AssemblyOutput.init).regs.lookup "PC" = some 0 ∧
    (load_program procDirty AssemblyOutput.init).regs.lookup "A" =
      procDirty.regs.lookup "A" := by
  have h := c1_load_program procDirty AssemblyOutput.init
  exact ⟨h.1, h.2.1 "A" (by decide)⟩



/-- C2 counterexample: the ORG operand is not an expression surface.  With an
EQU symbol as operand the first pass raises `Invalid ORG address`; with a
compound expression the first pass silently uses only the first token and the
second pass then raises an uncaught ValueError, so neither program assembles,
while the claim says both do. -/
theorem c2_counterexample :
    assemble ["START: EQU 2000H", "ORG START", "HLT"] =
      .error (.syntaxError "Line 2: Invalid ORG address: START") ∧
    assemble ["ORG 1000H + 10H", "HLT"] =
      .error (.valueError "invalid literal for int() with base 16: 1000H + 10") :=
  ⟨rfl, rfl⟩

/-- C2 (amended): the ORG operand is parsed by `_parse_number` alone, so it
must be a plain numeric literal; a non-numeric operand (such as an EQU
symbol) raises `Invalid ORG address` and a compound expression fails
assembly.  Every numerically-parsed ORG resets the location counter, and
only the first one sets `starting_address`. -/
theorem c2_org_literal :
    ((assemble ["ORG 0100H", "NOP", "ORG 0200H", "NOP", "END"]).map
      (fun o => (o.starting_address, o.parsed_program)) =
        .ok (256, [(256, ["NOP"]), (512, ["NOP"])])) ∧
    (assemble ["START: EQU 2000H", "ORG START", "HLT"] =
      .error (.syntaxError "Line 2: Invalid ORG address: START")) ∧
    (assemble ["ORG 1000H + 10H", "HLT"] =
      .error (.valueError "invalid literal for int() with base 16: 1000H + 10")) ∧
    (∀ (n : Nat) (t : String) (address : Int) (fo : Bool) (out : AssemblyOutput)
        (rest : List (Nat × String)),
      pySplitWs (pyStripWs (beforeComment ("ORG " ++ t))) = ["ORG", t] →
      parse_number t = none →
      first_pass_lines ((n, "ORG " ++ t) :: rest) address fo out =
        .error (.syntaxError ("Line " ++ toString n ++ ": Invalid ORG address: " ++ t))) ∧
    (∀ (n : Nat) (t : String) (v address : Int) (out : AssemblyOutput)
        (rest : List (Nat × String)),
      pySplitWs (pyStripWs (beforeComment ("ORG " ++ t))) = ["ORG", t] →
      parse_number t = some v →
      first_pass_lines ((n, "ORG " ++ t) :: rest) address false out =
        first_pass_lines rest v true { out with starting_address := v }) ∧
    (∀ (n : Nat) (t : String) (v address : Int) (out : AssemblyOutput)
        (rest : List (Nat × String)),
      pySplitWs (pyStripWs (beforeComment ("ORG " ++ t))) = ["ORG", t] →
      parse_number t = some v →
      first_pass_lines ((n, "ORG " ++ t) :: rest) address true out =
        first_pass_lines rest v true out) := by
  have hline : ∀ t : String,
      pySplitWs (pyStripWs (beforeComment ("ORG " ++ t))) = ["ORG", t] →
      (pyStripWs (beforeComment ("ORG " ++ t))).isEmpty = false := by
    intro t hsplit
    cases hx : (pyStripWs (beforeComment ("ORG " ++ t))).isEmpty
    · rfl
    · rw [(String.isEmpty_iff _).mp hx] at hsplit
      simp [pySplitWs, splitWsAux] at hsplit
  have e1 : ∀ (n : Nat) (t : String), splitLabel n ["ORG", t] = .ok (["ORG", t], none) :=
    fun _ _ => rfl
  have e2 : ∀ t : String, (["ORG", t] : List String).getD 1 "" = t := fun _ => rfl
  refine ⟨rfl, rfl, rfl, ?_, ?_, ?_⟩
  · intro n t address fo out rest hsplit hparse
    simp only [first_pass_lines, hline t hsplit, hsplit, Bool.false_eq_true, if_false, e1]
    simp only [e2, hparse]
    rfl
  · intro n t v address out rest hsplit hparse
    simp only [first_pass_lines, hline t hsplit, hsplit, Bool.false_eq_true, if_false, e1]
    simp only [e2, hparse]
    rfl
  · intro n t v address out rest hsplit hparse
    simp only [first_pass_lines, hline t hsplit, hsplit, Bool.false_eq_true, if_false, e1]
    simp only [e2, hparse]
    rfl

/-- Witness for C2 (amended): the general first-pass conjuncts applied at
the concrete operands `START` (rejected) and `0200H` (accepted, second
occurrence). -/
theorem c2_org_literal_witness :
    first_pass_lines [(2, "ORG START")] 0 false AssemblyOutput.init =
      .error (.syntaxError "Line 2: Invalid ORG address: START") ∧
    first_pass_lines [(3, "ORG 0200H")] 7 true AssemblyOutput.init =
      first_pass_lines [] 512 true AssemblyOutput.init := by
  constructor
  · exact c2_org_literal.2.2.2.1 2 "START" 0 false AssemblyOutput.init [] (by decide) (by decide)
  · exact c2_org_literal.2.2.2.2.2 3 "0200H" 512 7 AssemblyOutput.init [] (by decide) (by decide)

/-- C6 counterexample: a colon-less `NAME EQU expr` line is rejected by the
first pass as an unknown instruction, so the claimed chain does not assemble
at all in the form the claim writes it. -/
theorem c6_counterexample :
    assemble ["A EQU B + 1", "B EQU 5"] =
      .error (.syntaxError "Line 1: Unknown instruction: A") := rfl

/-- C6 (amended): with the label-colon spelling the assembler accepts EQU
chains in either order and resolves them by fixpoint iteration with strictly
left-to-right, precedence-free evaluation: `A: EQU B + 1` with `B: EQU 5`
gives A = 6 in both declaration orders, `C: EQU 2 * 3 + 1` gives 7 (not 8),
and `A: EQU 1 + 2 * 3` gives (1+2)*3 = 9 (not 7). -/
theorem c6_equ_chains :
    ((assemble ["A: EQU B + 1", "B: EQU 5"]).map
      (fun o => o.symbols.lookup "A") = .ok (some 6)) ∧
    ((assemble ["B: EQU 5", "A: EQU B + 1"]).map
      (fun o => o.symbols.lookup "A") = .ok (some 6)) ∧
    ((assemble ["C: EQU 2 * 3 + 1"]).map
      (fun o => o.symbols.lookup "C") = .ok (some 7)) ∧
    ((assemble ["A: EQU 1 + 2 * 3"]).map
      (fun o => o.symbols.lookup "A") = .ok (some 9)) :=
  ⟨rfl, rfl, rfl, rfl⟩

/-- C4 counterexample: after assembling `MVI A, 05H` followed by `DS 10`,
the only emitted instruction occupies addresses 0 and 1, so the address
immediately after it is 2; `program_end_address` is 12 instead, because the
trailing DS advanced the second-pass location counter. -/
theorem c4_counterexample :
    ((assemble ["MVI A, 05H", "DS 10"]).map
      (fun o => (o.program_end_address, o.parsed_program)) =
        .ok (12, [(0, ["MVI", "A,", "05H"])])) ∧
    (12 : Int) ≠ 0 + 2 :=
  ⟨rfl, by decide⟩

/-- C4 (amended): after a successful assemble that emits at least one
instruction, `program_end_address` equals the final second-pass location
counter - the address after processing every line, including any DS or ORG
directives after the last instruction - not the address immediately after
the last emitted instruction.  The two coincide when nothing follows the
last instruction (`MVI A, 05H / HLT` ends at 3), and diverge under trailing
directives (`DS 10` moves it to 12; a trailing `ORG 5000H` moves it to
0x5000). -/
theorem c4_program_end :
    (∀ (lines : List String) (o : AssemblyOutput) (a : Int),
      assembleCore lines = .ok (o, a) → o.parsed_program ≠ [] →
      assemble lines = .ok { o with program_end_address := a }) ∧
    ((assemble ["MVI A, 05H", "HLT"]).map
      (fun o => (o.program_end_address, o.parsed_program)) =
        .ok (3, [(0, ["MVI", "A,", "05H"]), (2, ["HLT"])])) ∧
    ((assemble ["MVI A, 05H", "DS 10"]).map
      (fun o => o.program_end_address) = .ok 12) ∧
    ((assemble ["HLT", "ORG 5000H"]).map
      (fun o => o.program_end_address) = .ok 0x5000) := by
  refine ⟨?_, rfl, rfl, rfl⟩
  intro lines o a hcore hne
  rw [assemble, hcore]
  have : o.parsed_program.isEmpty = false := by
    cases hx : o.parsed_program.isEmpty
    · rfl
    · exact absurd (List.isEmpty_iff.mp hx) hne
  simp [this]

/-- Witness for C4 (amended) at the concrete two-line program. -/
theorem c4_program_end_witness :
    assemble ["MVI A, 05H", "HLT"] =
      .ok { c4CoreOut.1 with program_end_address := c4CoreOut.2 } := by
  have h := c4_program_end.1 ["MVI A, 05H", "HLT"] c4CoreOut.1 c4CoreOut.2 rfl (by decide)
  simpa using h

/-- C5: the logical instructions force C=0 with AC=1 for AND (ANA/ANI) and
AC=0 for OR/XOR (ORA/ORI/XRA/XRI), and set S and Z from the 8-bit result and
P to 1 exactly when the low byte of the result has an even number of one
bits (normal, non-inverted parity).  Register forms are stated for a non-M
operand register, immediate forms for a parsed operand. -/
theorem c5_logical_flags :
    (∀ (s : Proc) (pc : Int) (t1 : String) (a v : Int),
      s.halted = false → s.error = none → s.regs.lookup "PC" = some pc →
      instrAt s pc = some ["ANA", t1] → pyStripChars [',', ';'] t1 ≠ "M" →
      s.regs.lookup (pyStripChars [',', ';'] t1) = some v →
      s.regs.lookup "A" = some a →
      ∃ s', step s = .ok (s', .OK) ∧ s'.flagC = 0 ∧ s'.flagAC = 1 ∧
        s'.regs.lookup "A" = some (pyAnd a v) ∧
        s'.flagS = (if bitMask (pyAnd a v) 7 ≠ 0 then 1 else 0) ∧
        s'.flagZ = (if (pyAnd a v).emod 256 = 0 then 1 else 0) ∧
        (s'.flagP = 1 ↔ evenParity8 (pyAnd a v))) ∧
    (∀ (s : Proc) (pc : Int) (t1 : String) (a n : Int),
      s.halted = false → s.error = none → s.regs.lookup "PC" = some pc →
      instrAt s pc = some ["ANI", t1] →
      parse_number s.symbols s.labels t1 = .ok n →
      s.regs.lookup "A" = some a →
      ∃ s', step s = .ok (s', .OK) ∧ s'.flagC = 0 ∧ s'.flagAC = 1 ∧
        s'.regs.lookup "A" = some (pyAnd a (n.emod 256)) ∧
        s'.flagS = (if bitMask (pyAnd a (n.emod 256)) 7 ≠ 0 then 1 else 0) ∧
        s'.flagZ = (if (pyAnd a (n.emod 256)).emod 256 = 0 then 1 else 0) ∧
        (s'.flagP = 1 ↔ evenParity8 (pyAnd a (n.emod 256)))) ∧
    (∀ (s : Proc) (pc : Int) (t1 : String) (a v : Int),
      s.halted = false → s.error = none → s.regs.lookup "PC" = some pc →
      instrAt s pc = some ["ORA", t1] → pyStripChars [',', ';'] t1 ≠ "M" →
      s.regs.lookup (pyStripChars [',', ';'] t1) = some v →
      s.regs.lookup "A" = some a →
      ∃ s', step s = .ok (s', .OK) ∧ s'.flagC = 0 ∧ s'.flagAC = 0 ∧
        s'.regs.lookup "A" = some (pyOr a v) ∧
        s'.flagS = (if bitMask (pyOr a v) 7 ≠ 0 then 1 else 0) ∧
        s'.flagZ = (if (pyOr a v).emod 256 = 0 then 1 else 0) ∧
        (s'.flagP = 1 ↔ evenParity8 (pyOr a v))) ∧
    (∀ (s : Proc) (pc : Int) (t1 : String) (a n : Int),
      s.halted = false → s.error = none → s.regs.lookup "PC" = some pc →
      instrAt s pc = some ["ORI", t1] →
      parse_number s.symbols s.labels t1 = .ok n →
      s.regs.lookup "A" = some a →
      ∃ s', step s = .ok (s', .OK) ∧ s'.flagC = 0 ∧ s'.flagAC = 0 ∧
        s'.regs.lookup "A" = some (pyOr a (n.emod 256)) ∧
        s'.flagS = (if bitMask (pyOr a (n.emod 256)) 7 ≠ 0 then 1 else 0) ∧
        s'.flagZ = (if (pyOr a (n.emod 256)).emod 256 = 0 then 1 else 0) ∧
        (s'.flagP = 1 ↔ evenParity8 (pyOr a (n.emod 256)))) ∧
    (∀ (s : Proc) (pc : Int) (t1 : String) (a v : Int),
      s.halted = false → s.error = none → s.regs.lookup "PC" = some pc →
      instrAt s pc = some ["XRA", t1] → pyStripChars [',', ';'] t1 ≠ "M" →
      s.regs.lookup (pyStripChars [',', ';'] t1) = some v →
      s.regs.lookup "A" = some a →
      ∃ s', step s = .ok (s', .OK) ∧ s'.flagC = 0 ∧ s'.flagAC = 0 ∧
        s'.regs.lookup "A" = some (pyXor a v) ∧
        s'.flagS = (if bitMask (pyXor a v) 7 ≠ 0 then 1 else 0) ∧
        s'.flagZ = (if (pyXor a v).emod 256 = 0 then 1 else 0) ∧
        (s'.flagP = 1 ↔ evenParity8 (pyXor a v))) ∧
    (∀ (s : Proc) (pc : Int) (t1 : String) (a n : Int),
      s.halted = false → s.error = none → s.regs.lookup "PC" = some pc →
      instrAt s pc = some ["XRI", t1] →
      parse_number s.symbols s.labels t1 = .ok n →
      s.regs.lookup "A" = some a →
      ∃ s', step s = .ok (s', .OK) ∧ s'.flagC = 0 ∧ s'.flagAC = 0 ∧
        s'.regs.lookup "A" = some (pyXor a (n.emod 256)) ∧
        s'.flagS = (if bitMask (pyXor a (n.emod 256)) 7 ≠ 0 then 1 else 0) ∧
        s'.flagZ = (if (pyXor a (n.emod 256)).emod 256 = 0 then 1 else 0) ∧
        (s'.flagP = 1 ↔ evenParity8 (pyXor a (n.emod 256)))) := by
  refine ⟨?_, ?_, ?_, ?_, ?_, ?_⟩
  · intro s pc t1 a v hh he hpc hfind hM hv ha
    rw [step_dispatch s pc "ANA" [t1] hh he hpc hfind]
    have hd : dispatch (pyUpper "ANA") ["ANA", t1] = execANA ["ANA", t1] := rfl
    rw [hd]
    simp [execANA, pm_bind_apply, pm_pure_apply, pm_get_apply, pm_modifyS_apply,
      pm_throw_apply, tokAt, regGet, regHas, regSet, pcAdd, update_flags,
      PM.get, PM.modifyS, PM.throw, hM, hv, ha, hpc, lookup_dictSet]
    exact Iff.rfl
  · intro s pc t1 a n hh he hpc hfind hparse ha
    rw [step_dispatch s pc "ANI" [t1] hh he hpc hfind]
    have hd : dispatch (pyUpper "ANI") ["ANI", t1] = execANI ["ANI", t1] := rfl
    rw [hd]
    simp [execANI, parseNum, pm_bind_apply, pm_pure_apply, pm_get_apply, pm_modifyS_apply,
      pm_throw_apply, tokAt, regGet, regSet, pcAdd, update_flags,
      PM.get, PM.modifyS, PM.throw, hparse, ha, hpc, lookup_dictSet]
    exact Iff.rfl
  · intro s pc t1 a v hh he hpc hfind hM hv ha
    rw [step_dispatch s pc "ORA" [t1] hh he hpc hfind]
    have hd : dispatch (pyUpper "ORA") ["ORA", t1] = execORA ["ORA", t1] := rfl
    rw [hd]
    simp [execORA, pm_bind_apply, pm_pure_apply, pm_get_apply, pm_modifyS_apply,
      pm_throw_apply, tokAt, regGet, regHas, regSet, pcAdd, update_flags,
      PM.get, PM.modifyS, PM.throw, hM, hv, ha, hpc, lookup_dictSet]
    exact Iff.rfl
  · intro s pc t1 a n hh he hpc hfind hparse ha
    rw [step_dispatch s pc "ORI" [t1] hh he hpc hfind]
    have hd : dispatch (pyUpper "ORI") ["ORI", t1] = execORI ["ORI", t1] := rfl
    rw [hd]
    simp [execORI, parseNum, pm_bind_apply, pm_pure_apply, pm_get_apply, pm_modifyS_apply,
      pm_throw_apply, tokAt, regGet, regSet, pcAdd, update_flags,
      PM.get, PM.modifyS, PM.throw, hparse, ha, hpc, lookup_dictSet]
    exact Iff.rfl
  · intro s pc t1 a v hh he hpc hfind hM hv ha
    rw [step_dispatch s pc "XRA" [t1] hh he hpc hfind]
    have hd : dispatch (pyUpper "XRA") ["XRA", t1] = execXRA ["XRA", t1] := rfl
    rw [hd]
    simp [execXRA, pm_bind_apply, pm_pure_apply, pm_get_apply, pm_modifyS_apply,
      pm_throw_apply, tokAt, regGet, regHas, regSet, pcAdd, update_flags,
      PM.get, PM.modifyS, PM.throw, hM, hv, ha, hpc, lookup_dictSet]
    exact Iff.rfl
  · intro s pc t1 a n hh he hpc hfind hparse ha
    rw [step_dispatch s pc "XRI" [t1] hh he hpc hfind]
    have hd : dispatch (pyUpper "XRI") ["XRI", t1] = execXRI ["XRI", t1] := rfl
    rw [hd]
    simp [execXRI, parseNum, pm_bind_apply, pm_pure_apply, pm_get_apply, pm_modifyS_apply,
      pm_throw_apply, tokAt, regGet, regSet, pcAdd, update_flags,
      PM.get, PM.modifyS, PM.throw, hparse, ha, hpc, lookup_dictSet]
    exact Iff.rfl

/-- Witness for C5: `ANA B` with A = 0xF0 and B = 0x0F gives A = 0 with
C = 0 and AC = 1. -/
theorem c5_logical_flags_witness :
    ∃ s', step procAnaB = .ok (s', .OK) ∧ s'.flagC = 0 ∧ s'.flagAC = 1 ∧
      s'.regs.lookup "A" = some (pyAnd 240 15) := by
  obtain ⟨s', h1, h2, h3, h4, _⟩ :=
    c5_logical_flags.1 procAnaB 0 "B" 240 15 rfl rfl (by decide) (by decide)
      (by decide) (by decide) (by decide)
  exact ⟨s', h1, h2, h3, h4⟩

/-- Bridge: the source INR condition `low nibble = 0xF` is the nibble carry
of the increment. -/
theorem inr_ac_eq (v : Int) :
    (if v.emod 16 = 15 then (1:Int) else 0) = addNibbleCarry v 1 0 := by
  unfold addNibbleCarry
  have e1 : (1:Int).emod 16 = 1 := rfl
  rw [e1]
  have em : ∀ x : Int, x.emod 16 = x % 16 := fun _ => rfl
  have h : (v.emod 16 = 15) ↔ (15 < v.emod 16 + 1 + 0) := by
    rw [em]
    omega
  simp [h]

/-- Bridge: the source DCR assignment `0 when the low nibble is 0, else 1`
is the complement of the nibble borrow of the decrement. -/
theorem dcr_ac_eq (v : Int) :
    (if v.emod 16 = 0 then (0:Int) else 1) = 1 - subNibbleBorrow v 1 0 := by
  unfold subNibbleBorrow
  have e1 : (1:Int).emod 16 = 1 := rfl
  rw [e1]
  have em : v.emod 16 = v % 16 := rfl
  by_cases hc : v.emod 16 = 0
  · simp only [if_pos hc]
    rw [if_pos (show v.emod 16 < 1 + 0 by rw [em]; rw [em] at hc; omega)]
    norm_num
  · simp only [if_neg hc]
    rw [if_neg (show ¬ v.emod 16 < 1 + 0 by rw [em]; rw [em] at hc; omega)]
    norm_num

/-- Bridge: the source DAA low-nibble wrap test equals the nibble carry of
the `+6` correction. -/
theorem daa_ac_eq (a : Int) :
    (if (a + 6).emod 16 < a.emod 16 then (1:Int) else 0) = addNibbleCarry a 6 0 := by
  unfold addNibbleCarry
  have e6 : (6:Int).emod 16 = 6 := rfl
  rw [e6]
  have em : ∀ x : Int, x.emod 16 = x % 16 := fun _ => rfl
  have h : ((a + 6).emod 16 < a.emod 16) ↔ (15 < a.emod 16 + 6 + 0) := by
    rw [em, em]
    omega
  simp [h]

/-- C3 counterexample: executing `DCR B` with B = 0x10 leaves AC = 0 even
though the decrement borrows across the bit 3 / bit 4 boundary
(`subNibbleBorrow 16 1 0 = 1`), so DCR does not follow the borrow
convention the claim states for subtractions. -/
theorem c3_counterexample :
    ((step procDcrB16).map (fun p => (p.2, p.1.flagAC, p.1.regs.lookup "B"))) =
      .ok (.OK, 0, some 15) ∧
    subNibbleBorrow 16 1 0 = 1 :=
  ⟨rfl, by decide⟩

/-- C3 (amended): for ADD/ADI/ADC/ACI the step sets AC to the nibble carry
and C to the byte carry of the addition (with the incoming carry for
ADC/ACI); for SUB/SUI/SBB/SBI/CPI/CMP it sets AC to the nibble borrow and C
to the byte borrow (with the incoming borrow for SBB/SBI); INR sets AC by
the nibble-carry rule and leaves C unchanged; DCR leaves C unchanged but
sets AC to the **complement** of the nibble borrow (1 exactly when the low
nibble of the original value is nonzero); DAA sets AC to the nibble carry of
the `+6` low correction when that correction applies (else 0) and C to 1
exactly when the high correction applies.  Register forms are stated for a
non-M operand, immediate forms for a parsed operand. -/
theorem c3_arith_flags :
    (∀ (s : Proc) (pc : Int) (t1 : String) (a v : Int),
      s.halted = false → s.error = none → s.regs.lookup "PC" = some pc →
      instrAt s pc = some ["ADD", t1] → pyStripChars [',', ';'] t1 ≠ "M" →
      s.regs.lookup (pyStripChars [',', ';'] t1) = some v →
      s.regs.lookup "A" = some a →
      ∃ s', step s = .ok (s', .OK) ∧
        s'.flagC = addByteCarry a v 0 ∧ s'.flagAC = addNibbleCarry a v 0 ∧
        s'.regs.lookup "A" = some ((a + v).emod 256)) ∧
    (∀ (s : Proc) (pc : Int) (t1 : String) (a n : Int),
      s.halted = false → s.error = none → s.regs.lookup "PC" = some pc →
      instrAt s pc = some ["ADI", t1] →
      parse_number s.symbols s.labels (pyStripChars [',', ';'] t1) = .ok n →
      s.regs.lookup "A" = some a →
      ∃ s', step s = .ok (s', .OK) ∧
        s'.flagC = addByteCarry a (n.emod 256) 0 ∧
        s'.flagAC = addNibbleCarry a (n.emod 256) 0) ∧
    (∀ (s : Proc) (pc : Int) (t1 : String) (a v : Int),
      s.halted = false → s.error = none → s.regs.lookup "PC" = some pc →
      instrAt s pc = some ["SUB", t1] → pyStripChars [',', ';'] t1 ≠ "M" →
      s.regs.lookup (pyStripChars [',', ';'] t1) = some v →
      s.regs.lookup "A" = some a →
      ∃ s', step s = .ok (s', .OK) ∧
        s'.flagC = subByteBorrow a v 0 ∧ s'.flagAC = subNibbleBorrow a v 0 ∧
        s'.regs.lookup "A" = some ((a - v).emod 256)) ∧
    (∀ (s : Proc) (pc : Int) (t1 : String) (a n : Int),
      s.halted = false → s.error = none → s.regs.lookup "PC" = some pc →
      instrAt s pc = some ["SUI", t1] →
      parse_number s.symbols s.labels (pyStripChars [',', ';'] t1) = .ok n →
      s.regs.lookup "A" = some a →
      ∃ s', step s = .ok (s', .OK) ∧
        s'.flagC = subByteBorrow a (n.emod 256) 0 ∧
        s'.flagAC = subNibbleBorrow a (n.emod 256) 0) ∧
    (∀ (s : Proc) (pc : Int) (t1 : String) (a v : Int),
      s.halted = false → s.error = none → s.regs.lookup "PC" = some pc →
      instrAt s pc = some ["ADC", t1] → pyStripChars [',', ';'] t1 ≠ "M" →
      s.regs.lookup (pyStripChars [',', ';'] t1) = some v →
      s.regs.lookup "A" = some a →
      ∃ s', step s = .ok (s', .OK) ∧
        s'.flagC = addByteCarry a v s.flagC ∧
        s'.flagAC = addNibbleCarry a v s.flagC) ∧
    (∀ (s : Proc) (pc : Int) (t1 : String) (a n : Int),
      s.halted = false → s.error = none → s.regs.lookup "PC" = some pc →
      instrAt s pc = some ["ACI", t1] →
      parse_number s.symbols s.labels t1 = .ok n →
      s.regs.lookup "A" = some a →
      ∃ s', step s = .ok (s', .OK) ∧
        s'.flagC = addByteCarry a (n.emod 256) s.flagC ∧
        s'.flagAC = addNibbleCarry a (n.emod 256) s.flagC) ∧
    (∀ (s : Proc) (pc : Int) (t1 : String) (a v : Int),
      s.halted = false → s.error = none → s.regs.lookup "PC" = some pc →
      instrAt s pc = some ["SBB", t1] → pyStripChars [',', ';'] t1 ≠ "M" →
      s.regs.lookup (pyStripChars [',', ';'] t1) = some v →
      s.regs.lookup "A" = some a →
      ∃ s', step s = .ok (s', .OK) ∧
        s'.flagC = subByteBorrow a v s.flagC ∧
        s'.flagAC = subNibbleBorrow a v s.flagC) ∧
    (∀ (s : Proc) (pc : Int) (t1 : String) (a n : Int),
      s.halted = false → s.error = none → s.regs.lookup "PC" = some pc →
      instrAt s pc = some ["SBI", t1] →
      parse_number s.symbols s.labels t1 = .ok n →
      s.regs.lookup "A" = some a →
      ∃ s', step s = .ok (s', .OK) ∧
        s'.flagC = subByteBorrow a (n.emod 256) s.flagC ∧
        s'.flagAC = subNibbleBorrow a (n.emod 256) s.flagC) ∧
    (∀ (s : Proc) (pc : Int) (t1 : String) (a n : Int),
      s.halted = false → s.error = none → s.regs.lookup "PC" = some pc →
      instrAt s pc = some ["CPI", t1] →
      parse_number s.symbols s.labels (pyStripChars [',', ';'] t1) = .ok n →
      s.regs.lookup "A" = some a →
      ∃ s', step s = .ok (s', .OK) ∧
        s'.flagC = subByteBorrow a (n.emod 256) 0 ∧
        s'.flagAC = subNibbleBorrow a (n.emod 256) 0 ∧
        s'.regs.lookup "A" = some a) ∧
    (∀ (s : Proc) (pc : Int) (t1 : String) (a v : Int),
      s.halted = false → s.error = none → s.regs.lookup "PC" = some pc →
      instrAt s pc = some ["CMP", t1] → pyStripChars [',', ';'] t1 ≠ "M" →
      s.regs.lookup (pyStripChars [',', ';'] t1) = some v →
      s.regs.lookup "A" = some a →
      ∃ s', step s = .ok (s', .OK) ∧
        s'.flagC = subByteBorrow a v 0 ∧ s'.flagAC = subNibbleBorrow a v 0 ∧
        s'.regs.lookup "A" = some a) ∧
    (∀ (s : Proc) (pc : Int) (r : String) (v : Int),
      s.halted = false → s.error = none → s.regs.lookup "PC" = some pc →
      instrAt s pc = some ["INR", r] → r ≠ "M" → r ≠ "PC" →
      s.regs.lookup r = some v →
      ∃ s', step s = .ok (s', .OK) ∧
        s'.flagAC = addNibbleCarry v 1 0 ∧ s'.flagC = s.flagC ∧
        s'.regs.lookup r = some ((v + 1).emod 256)) ∧
    (∀ (s : Proc) (pc : Int) (r : String) (v : Int),
      s.halted = false → s.error = none → s.regs.lookup "PC" = some pc →
      instrAt s pc = some ["DCR", r] → r ≠ "M" → r ≠ "PC" →
      s.regs.lookup r = some v →
      ∃ s', step s = .ok (s', .OK) ∧
        s'.flagAC = 1 - subNibbleBorrow v 1 0 ∧ s'.flagC = s.flagC ∧
        s'.regs.lookup r = some ((v - 1).emod 256)) ∧
    (∀ (s : Proc) (pc : Int) (a : Int),
      s.halted = false → s.error = none → s.regs.lookup "PC" = some pc →
      instrAt s pc = some ["DAA"] →
      s.regs.lookup "A" = some a →
      ∃ s', step s = .ok (s', .OK) ∧
        s'.flagAC = (if 9 < a.emod 16 ∨ s.flagAC = 1 then addNibbleCarry a 6 0 else 0) ∧
        (let a1 := if 9 < a.emod 16 ∨ s.flagAC = 1 then a + 6 else a
         s'.flagC = (if 9 < (a1.emod 256 - a1.emod 16).fdiv 16 ∨ s.flagC = 1 ∨
            (144 ≤ a1.emod 256 - a1.emod 16 ∧ 9 < a1.emod 16) then 1 else 0))) := by
  refine ⟨?_, ?_, ?_, ?_, ?_, ?_, ?_, ?_, ?_, ?_, ?_, ?_, ?_⟩
  · intro s pc t1 a v hh he hpc hfind hM hv ha
    rw [step_dispatch s pc "ADD" [t1] hh he hpc hfind]
    have hd : dispatch (pyUpper "ADD") ["ADD", t1] = execADD ["ADD", t1] := rfl
    rw [hd]
    simp [execADD, pm_bind_apply, pm_pure_apply, pm_get_apply, pm_modifyS_apply,
      pm_throw_apply, tokAt, regGet, regHas, regSet, pcAdd, update_flags,
      PM.get, PM.modifyS, PM.throw, hM, hv, ha, hpc, lookup_dictSet,
      addByteCarry, addNibbleCarry]
  · intro s pc t1 a n hh he hpc hfind hparse ha
    rw [step_dispatch s pc "ADI" [t1] hh he hpc hfind]
    have hd : dispatch (pyUpper "ADI") ["ADI", t1] = execADI ["ADI", t1] := rfl
    rw [hd]
    simp [execADI, parseNum, pm_bind_apply, pm_pure_apply, pm_get_apply, pm_modifyS_apply,
      pm_throw_apply, tokAt, regGet, regSet, pcAdd, update_flags,
      PM.get, PM.modifyS, PM.throw, hparse, ha, hpc, lookup_dictSet,
      addByteCarry, addNibbleCarry]
  · intro s pc t1 a v hh he hpc hfind hM hv ha
    rw [step_dispatch s pc "SUB" [t1] hh he hpc hfind]
    have hd : dispatch (pyUpper "SUB") ["SUB", t1] = execSUB ["SUB", t1] := rfl
    rw [hd]
    simp [execSUB, pm_bind_apply, pm_pure_apply, pm_get_apply, pm_modifyS_apply,
      pm_throw_apply, tokAt, regGet, regHas, regSet, pcAdd, update_flags,
      PM.get, PM.modifyS, PM.throw, hM, hv, ha, hpc, lookup_dictSet,
      subByteBorrow, subNibbleBorrow]
  · intro s pc t1 a n hh he hpc hfind hparse ha
    rw [step_dispatch s pc "SUI" [t1] hh he hpc hfind]
    have hd : dispatch (pyUpper "SUI") ["SUI", t1] = execSUI ["SUI", t1] := rfl
    rw [hd]
    simp [execSUI, parseNum, pm_bind_apply, pm_pure_apply, pm_get_apply, pm_modifyS_apply,
      pm_throw_apply, tokAt, regGet, regSet, pcAdd, update_flags,
      PM.get, PM.modifyS, PM.throw, hparse, ha, hpc, lookup_dictSet,
      subByteBorrow, subNibbleBorrow]
  · intro s pc t1 a v hh he hpc hfind hM hv ha
    rw [step_dispatch s pc "ADC" [t1] hh he hpc hfind]
    have hd : dispatch (pyUpper "ADC") ["ADC", t1] = execADC ["ADC", t1] := rfl
    rw [hd]
    simp [execADC, pm_bind_apply, pm_pure_apply, pm_get_apply, pm_modifyS_apply,
      pm_throw_apply, tokAt, regGet, regHas, regSet, pcAdd, update_flags,
      PM.get, PM.modifyS, PM.throw, hM, hv, ha, hpc, lookup_dictSet,
      addByteCarry, addNibbleCarry]
  · intro s pc t1 a n hh he hpc hfind hparse ha
    rw [step_dispatch s pc "ACI" [t1] hh he hpc hfind]
    have hd : dispatch (pyUpper "ACI") ["ACI", t1] = execACI ["ACI", t1] := rfl
    rw [hd]
    simp [execACI, parseNum, pm_bind_apply, pm_pure_apply, pm_get_apply, pm_modifyS_apply,
      pm_throw_apply, tokAt, regGet, regSet, pcAdd, update_flags,
      PM.get, PM.modifyS, PM.throw, hparse, ha, hpc, lookup_dictSet,
      addByteCarry, addNibbleCarry]
  · intro s pc t1 a v hh he hpc hfind hM hv ha
    rw [step_dispatch s pc "SBB" [t1] hh he hpc hfind]
    have hd : dispatch (pyUpper "SBB") ["SBB", t1] = execSBB ["SBB", t1] := rfl
    rw [hd]
    simp [execSBB, pm_bind_apply, pm_pure_apply, pm_get_apply, pm_modifyS_apply,
      pm_throw_apply, tokAt, regGet, regHas, regSet, pcAdd, update_flags,
      PM.get, PM.modifyS, PM.throw, hM, hv, ha, hpc, lookup_dictSet,
      subByteBorrow, subNibbleBorrow]
  · intro s pc t1 a n hh he hpc hfind hparse ha
    rw [step_dispatch s pc "SBI" [t1] hh he hpc hfind]
    have hd : dispatch (pyUpper "SBI") ["SBI", t1] = execSBI ["SBI", t1] := rfl
    rw [hd]
    simp [execSBI, parseNum, pm_bind_apply, pm_pure_apply, pm_get_apply, pm_modifyS_apply,
      pm_throw_apply, tokAt, regGet, regSet, pcAdd, update_flags,
      PM.get, PM.modifyS, PM.throw, hparse, ha, hpc, lookup_dictSet,
      subByteBorrow, subNibbleBorrow]
  · intro s pc t1 a n hh he hpc hfind hparse ha
    rw [step_dispatch s pc "CPI" [t1] hh he hpc hfind]
    have hd : dispatch (pyUpper "CPI") ["CPI", t1] = execCPI ["CPI", t1] := rfl
    rw [hd]
    simp [execCPI, parseNum, pm_bind_apply, pm_pure_apply, pm_get_apply, pm_modifyS_apply,
      pm_throw_apply, tokAt, regGet, regSet, pcAdd, update_flags,
      PM.get, PM.modifyS, PM.throw, hparse, ha, hpc, lookup_dictSet,
      subByteBorrow, subNibbleBorrow]
  · intro s pc t1 a v hh he hpc hfind hM hv ha
    rw [step_dispatch s pc "CMP" [t1] hh he hpc hfind]
    have hd : dispatch (pyUpper "CMP") ["CMP", t1] = execCMP ["CMP", t1] := rfl
    rw [hd]
    simp [execCMP, pm_bind_apply, pm_pure_apply, pm_get_apply, pm_modifyS_apply,
      pm_throw_apply, tokAt, regGet, regHas, regSet, pcAdd, update_flags,
      PM.get, PM.modifyS, PM.throw, hM, hv, ha, hpc, lookup_dictSet,
      subByteBorrow, subNibbleBorrow]
  · intro s pc r v hh he hpc hfind hM hPC hv
    rw [step_dispatch s pc "INR" [r] hh he hpc hfind]
    have hd : dispatch (pyUpper "INR") ["INR", r] = execINR ["INR", r] := rfl
    rw [hd]
    have hPC' : ¬ ("PC" = r) := fun h => hPC h.symm
    simp [execINR, pm_bind_apply, pm_pure_apply, pm_get_apply, pm_modifyS_apply,
      pm_throw_apply, tokAt, regGet, regSet, pcAdd, update_flags,
      PM.get, PM.modifyS, PM.throw, hM, hv, hpc, hPC, hPC', lookup_dictSet,
      ← inr_ac_eq]
  · intro s pc r v hh he hpc hfind hM hPC hv
    rw [step_dispatch s pc "DCR" [r] hh he hpc hfind]
    have hd : dispatch (pyUpper "DCR") ["DCR", r] = execDCR ["DCR", r] := rfl
    rw [hd]
    have hPC' : ¬ ("PC" = r) := fun h => hPC h.symm
    simp [execDCR, pm_bind_apply, pm_pure_apply, pm_get_apply, pm_modifyS_apply,
      pm_throw_apply, tokAt, regGet, regSet, pcAdd, update_flags,
      PM.get, PM.modifyS, PM.throw, hM, hv, hpc, hPC, hPC', lookup_dictSet,
      ← dcr_ac_eq]
  · intro s pc a hh he hpc hfind ha
    rw [step_dispatch s pc "DAA" [] hh he hpc hfind]
    have hd : dispatch (pyUpper "DAA") ["DAA"] = execDAA := rfl
    rw [hd]
    simp only [execDAA, pm_bind_apply, pm_pure_apply, pm_get_apply, pm_modifyS_apply,
      pm_throw_apply, regGet, regSet, pcAdd, update_flags,
      PM.get, PM.modifyS, PM.throw, ha, hpc]
    simp [lookup_dictSet, hpc, ← daa_ac_eq]
    by_cases hca : 9 < a.emod 16 ∨ s.flagAC = 1 <;> simp [hca]

/-- Witness for c3_arith_flags: the ADD conjunct applied to a concrete
processor with A = 0x0F and B = 1 yields carry 0, auxiliary carry 1 and
A = 0x10. -/
theorem c3_arith_flags_witness :
    ∃ s', step procAddB = .ok (s', .OK) ∧
      s'.flagC = addByteCarry 15 1 0 ∧ s'.flagAC = addNibbleCarry 15 1 0 ∧
      s'.regs.lookup "A" = some (((15 : Int) + 1).emod 256) :=
  c3_arith_flags.1 procAddB 0 "B" 15 1 (by decide) rfl rfl rfl (by decide) rfl rfl

/-- PUSH of a plain register pair: semantics of one step. -/
theorem push_pair_spec (s : Proc) (pc sp vh vl : Int) (rp hi lo : String)
    (htr : (rp = "B" ∧ hi = "B" ∧ lo = "C") ∨ (rp = "D" ∧ hi = "D" ∧ lo = "E") ∨
      (rp = "H" ∧ hi = "H" ∧ lo = "L"))
    (hh : s.halted = false) (he : s.error = none)
    (hpc : s.regs.lookup "PC" = some pc)
    (hfind : instrAt s pc = some ["PUSH", rp])
    (hsp : s.regs.lookup "SP" = some sp)
    (hhi : s.regs.lookup hi = some vh) (hlo : s.regs.lookup lo = some vl)
    (hvh0 : 0 ≤ vh) (hvh1 : vh < 256) (hvl0 : 0 ≤ vl) (hvl1 : vl < 256) :
    ∃ s', step s = .ok (s', .OK) ∧
      s'.halted = false ∧ s'.error = none ∧
      s'.parsed_program = s.parsed_program ∧
      s'.memory (((sp - 1).emod 65536).toNat) = vh ∧
      s'.memory (((sp - 2).emod 65536).toNat) = vl ∧
      s'.regs.lookup "SP" = some ((sp - 2).emod 65536) ∧
      s'.regs.lookup "PC" = some (pc + 1) := by
  have em : ∀ x : Int, x.emod 65536 = x % 65536 := fun _ => rfl
  have e1 : ((sp - 1).emod 65536).emod 65536 = (sp - 1).emod 65536 :=
    Int.emod_emod_of_dvd _ dvd_rfl
  have e2 : ((sp - 2).emod 65536).emod 65536 = (sp - 2).emod 65536 :=
    Int.emod_emod_of_dvd _ dvd_rfl
  have r1a : -65536 ≤ (sp - 1).emod 65536 := by rw [em]; omega
  have r1b : (sp - 1).emod 65536 < 65536 := by rw [em]; omega
  have r2a : -65536 ≤ (sp - 2).emod 65536 := by rw [em]; omega
  have r2b : (sp - 2).emod 65536 < 65536 := by rw [em]; omega
  have ne12 : ¬ (((sp - 1).emod 65536).toNat = ((sp - 2).emod 65536).toNat) := by
    simp only [em]; omega
  rcases htr with ⟨rfl, rfl, rfl⟩ | ⟨rfl, rfl, rfl⟩ | ⟨rfl, rfl, rfl⟩
  · rw [step_dispatch s pc "PUSH" ["B"] hh he hpc hfind]
    rw [show dispatch (pyUpper "PUSH") ["PUSH", "B"] = execPUSH ["PUSH", "B"] from rfl]
    have hstrip : pyStripChars [',', ';'] "B" = "B" := rfl
    simp [execPUSH, hstrip, pushBytes, pm_bind_apply, pm_pure_apply, pm_get_apply,
      pm_modifyS_apply, pm_throw_apply, PM.get, PM.modifyS, PM.throw, tokAt,
      regGet, regSet, memSet, pcAdd, hsp, hhi, hlo, hpc, lookup_dictSet,
      e1, e2, r1a, r1b, r2a, r2b, ne12, hvh0, hvh1, hvl0, hvl1, hh, he]
  · rw [step_dispatch s pc "PUSH" ["D"] hh he hpc hfind]
    rw [show dispatch (pyUpper "PUSH") ["PUSH", "D"] = execPUSH ["PUSH", "D"] from rfl]
    have hstrip : pyStripChars [',', ';'] "D" = "D" := rfl
    simp [execPUSH, hstrip, pushBytes, pm_bind_apply, pm_pure_apply, pm_get_apply,
      pm_modifyS_apply, pm_throw_apply, PM.get, PM.modifyS, PM.throw, tokAt,
      regGet, regSet, memSet, pcAdd, hsp, hhi, hlo, hpc, lookup_dictSet,
      e1, e2, r1a, r1b, r2a, r2b, ne12, hvh0, hvh1, hvl0, hvl1, hh, he]
  · rw [step_dispatch s pc "PUSH" ["H"] hh he hpc hfind]
    rw [show dispatch (pyUpper "PUSH") ["PUSH", "H"] = execPUSH ["PUSH", "H"] from rfl]
    have hstrip : pyStripChars [',', ';'] "H" = "H" := rfl
    simp [execPUSH, hstrip, pushBytes, pm_bind_apply, pm_pure_apply, pm_get_apply,
      pm_modifyS_apply, pm_throw_apply, PM.get, PM.modifyS, PM.throw, tokAt,
      regGet, regSet, memSet, pcAdd, hsp, hhi, hlo, hpc, lookup_dictSet,
      e1, e2, r1a, r1b, r2a, r2b, ne12, hvh0, hvh1, hvl0, hvl1, hh, he]

/-- POP of a plain register pair: semantics of one step. -/
theorem pop_pair_spec (s : Proc) (pc sp : Int) (rp hi lo : String)
    (htr : (rp = "B" ∧ hi = "B" ∧ lo = "C") ∨ (rp = "D" ∧ hi = "D" ∧ lo = "E") ∨
      (rp = "H" ∧ hi = "H" ∧ lo = "L"))
    (hh : s.halted = false) (he : s.error = none)
    (hpc : s.regs.lookup "PC" = some pc)
    (hfind : instrAt s pc = some ["POP", rp])
    (hsp : s.regs.lookup "SP" = some sp)
    (hsp0 : 0 ≤ sp) (hsp1 : sp < 65536) :
    ∃ s', step s = .ok (s', .OK) ∧
      s'.regs.lookup lo = some (s.memory sp.toNat) ∧
      s'.regs.lookup hi = some (s.memory (((sp + 1).emod 65536).toNat)) ∧
      s'.regs.lookup "SP" = some ((sp + 2).emod 65536) ∧
      s'.regs.lookup "PC" = some (pc + 1) := by
  have em : ∀ x : Int, x.emod 65536 = x % 65536 := fun _ => rfl
  have esp : sp.emod 65536 = sp := by rw [em]; omega
  have hneg : -65536 ≤ sp := by omega
  have e1 : ((sp + 1).emod 65536).emod 65536 = (sp + 1).emod 65536 :=
    Int.emod_emod_of_dvd _ dvd_rfl
  have r1a : -65536 ≤ (sp + 1).emod 65536 := by rw [em]; omega
  have r1b : (sp + 1).emod 65536 < 65536 := by rw [em]; omega
  have efin : (((sp + 1).emod 65536) + 1).emod 65536 = (sp + 2).emod 65536 := by
    simp only [em]; omega
  rcases htr with ⟨rfl, rfl, rfl⟩ | ⟨rfl, rfl, rfl⟩ | ⟨rfl, rfl, rfl⟩
  · rw [step_dispatch s pc "POP" ["B"] hh he hpc hfind]
    rw [show dispatch (pyUpper "POP") ["POP", "B"] = execPOP ["POP", "B"] from rfl]
    have hstrip : pyStripChars [',', ';'] "B" = "B" := rfl
    simp [execPOP, hstrip, popByte, pm_bind_apply, pm_pure_apply, pm_get_apply,
      pm_modifyS_apply, pm_throw_apply, PM.get, PM.modifyS, PM.throw, tokAt,
      regGet, regSet, memGet, pcAdd, hsp, hpc, lookup_dictSet,
      esp, hneg, hsp0, hsp1, e1, r1a, r1b, efin]
  · rw [step_dispatch s pc "POP" ["D"] hh he hpc hfind]
    rw [show dispatch (pyUpper "POP") ["POP", "D"] = execPOP ["POP", "D"] from rfl]
    have hstrip : pyStripChars [',', ';'] "D" = "D" := rfl
    simp [execPOP, hstrip, popByte, pm_bind_apply, pm_pure_apply, pm_get_apply,
      pm_modifyS_apply, pm_throw_apply, PM.get, PM.modifyS, PM.throw, tokAt,
      regGet, regSet, memGet, pcAdd, hsp, hpc, lookup_dictSet,
      esp, hneg, hsp0, hsp1, e1, r1a, r1b, efin]
  · rw [step_dispatch s pc "POP" ["H"] hh he hpc hfind]
    rw [show dispatch (pyUpper "POP") ["POP", "H"] = execPOP ["POP", "H"] from rfl]
    have hstrip : pyStripChars [',', ';'] "H" = "H" := rfl
    simp [execPOP, hstrip, popByte, pm_bind_apply, pm_pure_apply, pm_get_apply,
      pm_modifyS_apply, pm_throw_apply, PM.get, PM.modifyS, PM.throw, tokAt,
      regGet, regSet, memGet, pcAdd, hsp, hpc, lookup_dictSet,
      esp, hneg, hsp0, hsp1, e1, r1a, r1b, efin]

/-- PUSH PSW: semantics of one step, for byte-valued A and 0/1-valued flags. -/
theorem push_psw_spec (s : Proc) (pc sp a : Int)
    (hh : s.halted = false) (he : s.error = none)
    (hpc : s.regs.lookup "PC" = some pc)
    (hfind : instrAt s pc = some ["PUSH", "PSW"])
    (hsp : s.regs.lookup "SP" = some sp)
    (ha : s.regs.lookup "A" = some a) (ha0 : 0 ≤ a) (ha1 : a < 256)
    (hS : s.flagS = 0 ∨ s.flagS = 1) (hZ : s.flagZ = 0 ∨ s.flagZ = 1)
    (hA : s.flagAC = 0 ∨ s.flagAC = 1) (hP : s.flagP = 0 ∨ s.flagP = 1)
    (hC : s.flagC = 0 ∨ s.flagC = 1) :
    ∃ s', step s = .ok (s', .OK) ∧
      s'.halted = false ∧ s'.error = none ∧
      s'.parsed_program = s.parsed_program ∧
      s'.memory (((sp - 1).emod 65536).toNat) = a ∧
      s'.memory (((sp - 2).emod 65536).toNat) = flagsByte s ∧
      s'.regs.lookup "SP" = some ((sp - 2).emod 65536) ∧
      s'.regs.lookup "PC" = some (pc + 1) ∧
      s'.flagS = s.flagS ∧ s'.flagZ = s.flagZ ∧ s'.flagAC = s.flagAC ∧
      s'.flagP = s.flagP ∧ s'.flagC = s.flagC ∧
      s'.regs.lookup "A" = some a := by
  have em : ∀ x : Int, x.emod 65536 = x % 65536 := fun _ => rfl
  have em2 : ∀ x : Int, x.emod 256 = x % 256 := fun _ => rfl
  have hSb : 0 ≤ s.flagS ∧ s.flagS ≤ 1 := by rcases hS with h | h <;> rw [h] <;> norm_num
  have hZb : 0 ≤ s.flagZ ∧ s.flagZ ≤ 1 := by rcases hZ with h | h <;> rw [h] <;> norm_num
  have hAb : 0 ≤ s.flagAC ∧ s.flagAC ≤ 1 := by rcases hA with h | h <;> rw [h] <;> norm_num
  have hPb : 0 ≤ s.flagP ∧ s.flagP ≤ 1 := by rcases hP with h | h <;> rw [h] <;> norm_num
  have hCb : 0 ≤ s.flagC ∧ s.flagC ≤ 1 := by rcases hC with h | h <;> rw [h] <;> norm_num
  have hHigh : ((a * 256 + (s.flagS * 128 + s.flagZ * 64 + s.flagAC * 16 + s.flagP * 4 + 2 + s.flagC)).fdiv 256).emod 256 = a := by
    rw [Int.fdiv_eq_ediv _ (by norm_num), em2]
    omega
  have hLow : (a * 256 + (s.flagS * 128 + s.flagZ * 64 + s.flagAC * 16 + s.flagP * 4 + 2 + s.flagC)).emod 256 = s.flagS * 128 + s.flagZ * 64 + s.flagAC * 16 + s.flagP * 4 + 2 + s.flagC := by
    rw [em2]; omega
  have hfb0 : 0 ≤ s.flagS * 128 + s.flagZ * 64 + s.flagAC * 16 + s.flagP * 4 + 2 + s.flagC := by
    omega
  have hfb1 : s.flagS * 128 + s.flagZ * 64 + s.flagAC * 16 + s.flagP * 4 + 2 + s.flagC < 256 := by
    omega
  have e1 : ((sp - 1).emod 65536).emod 65536 = (sp - 1).emod 65536 :=
    Int.emod_emod_of_dvd _ dvd_rfl
  have e2 : ((sp - 2).emod 65536).emod 65536 = (sp - 2).emod 65536 :=
    Int.emod_emod_of_dvd _ dvd_rfl
  have r1a : -65536 ≤ (sp - 1).emod 65536 := by rw [em]; omega
  have r1b : (sp - 1).emod 65536 < 65536 := by rw [em]; omega
  have r2a : -65536 ≤ (sp - 2).emod 65536 := by rw [em]; omega
  have r2b : (sp - 2).emod 65536 < 65536 := by rw [em]; omega
  have ne12 : ¬ (((sp - 1).emod 65536).toNat = ((sp - 2).emod 65536).toNat) := by
    simp only [em]; omega
  rw [step_dispatch s pc "PUSH" ["PSW"] hh he hpc hfind]
  rw [show dispatch (pyUpper "PUSH") ["PUSH", "PSW"] = execPUSH ["PUSH", "PSW"] from rfl]
  have hstrip : pyStripChars [',', ';'] "PSW" = "PSW" := rfl
  simp [execPUSH, hstrip, pushBytes, get_psw, get_flags_byte, hiLo, flagsByte,
    pm_bind_apply, pm_pure_apply, pm_get_apply,
    pm_modifyS_apply, pm_throw_apply, PM.get, PM.modifyS, PM.throw, tokAt,
    regGet, regSet, memSet, pcAdd, hsp, ha, hpc, lookup_dictSet,
    hHigh, hLow, e1, e2, r1a, r1b, r2a, r2b, ne12, ha0, ha1, hfb0, hfb1, hh, he]

/-- POP PSW: semantics of one step. -/
theorem pop_psw_spec (s : Proc) (pc sp : Int)
    (hh : s.halted = false) (he : s.error = none)
    (hpc : s.regs.lookup "PC" = some pc)
    (hfind : instrAt s pc = some ["POP", "PSW"])
    (hsp : s.regs.lookup "SP" = some sp)
    (hsp0 : 0 ≤ sp) (hsp1 : sp < 65536) :
    ∃ s', step s = .ok (s', .OK) ∧
      s'.regs.lookup "A" = some (s.memory (((sp + 1).emod 65536).toNat)) ∧
      s'.flagS = (if bitMask (s.memory sp.toNat) 7 ≠ 0 then 1 else 0) ∧
      s'.flagZ = (if bitMask (s.memory sp.toNat) 6 ≠ 0 then 1 else 0) ∧
      s'.flagAC = (if bitMask (s.memory sp.toNat) 4 ≠ 0 then 1 else 0) ∧
      s'.flagP = (if bitMask (s.memory sp.toNat) 2 ≠ 0 then 1 else 0) ∧
      s'.flagC = (if bitMask (s.memory sp.toNat) 0 ≠ 0 then 1 else 0) ∧
      s'.regs.lookup "SP" = some ((sp + 2).emod 65536) ∧
      s'.regs.lookup "PC" = some (pc + 1) := by
  have em : ∀ x : Int, x.emod 65536 = x % 65536 := fun _ => rfl
  have esp : sp.emod 65536 = sp := by rw [em]; omega
  have hneg : -65536 ≤ sp := by omega
  have e1 : ((sp + 1).emod 65536).emod 65536 = (sp + 1).emod 65536 :=
    Int.emod_emod_of_dvd _ dvd_rfl
  have r1a : -65536 ≤ (sp + 1).emod 65536 := by rw [em]; omega
  have r1b : (sp + 1).emod 65536 < 65536 := by rw [em]; omega
  have efin : (((sp + 1).emod 65536) + 1).emod 65536 = (sp + 2).emod 65536 := by
    simp only [em]; omega
  rw [step_dispatch s pc "POP" ["PSW"] hh he hpc hfind]
  rw [show dispatch (pyUpper "POP") ["POP", "PSW"] = execPOP ["POP", "PSW"] from rfl]
  have hstrip : pyStripChars [',', ';'] "PSW" = "PSW" := rfl
  simp [execPOP, hstrip, popByte, pm_bind_apply, pm_pure_apply, pm_get_apply,
    pm_modifyS_apply, pm_throw_apply, PM.get, PM.modifyS, PM.throw, tokAt,
    regGet, regSet, memGet, pcAdd, hsp, hpc, lookup_dictSet,
    esp, hneg, hsp0, hsp1, e1, r1a, r1b, efin]

/-- Reading each flag bit back out of the flags byte recovers the flag when
all flags are 0/1-valued. -/
theorem flags_byte_bits (fS fZ fA fP fC : Int)
    (hS : fS = 0 ∨ fS = 1) (hZ : fZ = 0 ∨ fZ = 1) (hA : fA = 0 ∨ fA = 1)
    (hP : fP = 0 ∨ fP = 1) (hC : fC = 0 ∨ fC = 1) :
    (if bitMask (fS * 128 + fZ * 64 + fA * 16 + fP * 4 + 2 + fC) 7 ≠ 0 then (1:Int) else 0) = fS ∧
    (if bitMask (fS * 128 + fZ * 64 + fA * 16 + fP * 4 + 2 + fC) 6 ≠ 0 then (1:Int) else 0) = fZ ∧
    (if bitMask (fS * 128 + fZ * 64 + fA * 16 + fP * 4 + 2 + fC) 4 ≠ 0 then (1:Int) else 0) = fA ∧
    (if bitMask (fS * 128 + fZ * 64 + fA * 16 + fP * 4 + 2 + fC) 2 ≠ 0 then (1:Int) else 0) = fP ∧
    (if bitMask (fS * 128 + fZ * 64 + fA * 16 + fP * 4 + 2 + fC) 0 ≠ 0 then (1:Int) else 0) = fC := by
  rcases hS with rfl | rfl <;> rcases hZ with rfl | rfl <;> rcases hA with rfl | rfl <;>
    rcases hP with rfl | rfl <;> rcases hC with rfl | rfl <;> decide

/-- C7: for every pair in B/D/H (high/low as named) and for PSW (A/flags),
PUSH writes the high byte at (SP-1) mod 2^16 and the low byte at
(SP-2) mod 2^16 and sets SP to (SP-2) mod 2^16 in one update; POP reads the
low byte at SP and the high byte at (SP+1) mod 2^16 and leaves SP at
(SP+2) mod 2^16; and PUSH immediately followed by POP of the same pair
restores the pair (registers, or A and all five flags for PSW) and restores
SP exactly.  Byte-range side conditions mirror the bytearray write checks;
0/1 flags for PSW mirror the flag encoding. -/
theorem c7_stack :
    (∀ (s : Proc) (pc sp vh vl : Int) (rp hi lo : String),
      ((rp = "B" ∧ hi = "B" ∧ lo = "C") ∨ (rp = "D" ∧ hi = "D" ∧ lo = "E") ∨
        (rp = "H" ∧ hi = "H" ∧ lo = "L")) →
      s.halted = false → s.error = none → s.regs.lookup "PC" = some pc →
      instrAt s pc = some ["PUSH", rp] →
      s.regs.lookup "SP" = some sp →
      s.regs.lookup hi = some vh → s.regs.lookup lo = some vl →
      0 ≤ vh → vh < 256 → 0 ≤ vl → vl < 256 →
      ∃ s', step s = .ok (s', .OK) ∧
        s'.memory (((sp - 1).emod 65536).toNat) = vh ∧
        s'.memory (((sp - 2).emod 65536).toNat) = vl ∧
        s'.regs.lookup "SP" = some ((sp - 2).emod 65536) ∧
        s'.regs.lookup "PC" = some (pc + 1)) ∧
    (∀ (s : Proc) (pc sp : Int) (rp hi lo : String),
      ((rp = "B" ∧ hi = "B" ∧ lo = "C") ∨ (rp = "D" ∧ hi = "D" ∧ lo = "E") ∨
        (rp = "H" ∧ hi = "H" ∧ lo = "L")) →
      s.halted = false → s.error = none → s.regs.lookup "PC" = some pc →
      instrAt s pc = some ["POP", rp] →
      s.regs.lookup "SP" = some sp → 0 ≤ sp → sp < 65536 →
      ∃ s', step s = .ok (s', .OK) ∧
        s'.regs.lookup lo = some (s.memory sp.toNat) ∧
        s'.regs.lookup hi = some (s.memory (((sp + 1).emod 65536).toNat)) ∧
        s'.regs.lookup "SP" = some ((sp + 2).emod 65536) ∧
        s'.regs.lookup "PC" = some (pc + 1)) ∧
    (∀ (s : Proc) (pc sp a : Int),
      s.halted = false → s.error = none → s.regs.lookup "PC" = some pc →
      instrAt s pc = some ["PUSH", "PSW"] →
      s.regs.lookup "SP" = some sp →
      s.regs.lookup "A" = some a → 0 ≤ a → a < 256 →
      (s.flagS = 0 ∨ s.flagS = 1) → (s.flagZ = 0 ∨ s.flagZ = 1) →
      (s.flagAC = 0 ∨ s.flagAC = 1) → (s.flagP = 0 ∨ s.flagP = 1) →
      (s.flagC = 0 ∨ s.flagC = 1) →
      ∃ s', step s = .ok (s', .OK) ∧
        s'.memory (((sp - 1).emod 65536).toNat) = a ∧
        s'.memory (((sp - 2).emod 65536).toNat) = flagsByte s ∧
        s'.regs.lookup "SP" = some ((sp - 2).emod 65536) ∧
        s'.regs.lookup "PC" = some (pc + 1)) ∧
    (∀ (s : Proc) (pc sp : Int),
      s.halted = false → s.error = none → s.regs.lookup "PC" = some pc →
      instrAt s pc = some ["POP", "PSW"] →
      s.regs.lookup "SP" = some sp → 0 ≤ sp → sp < 65536 →
      ∃ s', step s = .ok (s', .OK) ∧
        s'.regs.lookup "A" = some (s.memory (((sp + 1).emod 65536).toNat)) ∧
        s'.flagS = (if bitMask (s.memory sp.toNat) 7 ≠ 0 then 1 else 0) ∧
        s'.flagC = (if bitMask (s.memory sp.toNat) 0 ≠ 0 then 1 else 0) ∧
        s'.regs.lookup "SP" = some ((sp + 2).emod 65536)) ∧
    (∀ (s : Proc) (pc sp vh vl : Int) (rp hi lo : String),
      ((rp = "B" ∧ hi = "B" ∧ lo = "C") ∨ (rp = "D" ∧ hi = "D" ∧ lo = "E") ∨
        (rp = "H" ∧ hi = "H" ∧ lo = "L")) →
      s.halted = false → s.error = none → s.regs.lookup "PC" = some pc →
      instrAt s pc = some ["PUSH", rp] →
      instrAt s (pc + 1) = some ["POP", rp] →
      s.regs.lookup "SP" = some sp → 0 ≤ sp → sp < 65536 →
      s.regs.lookup hi = some vh → s.regs.lookup lo = some vl →
      0 ≤ vh → vh < 256 → 0 ≤ vl → vl < 256 →
      ∃ s1 s2, step s = .ok (s1, .OK) ∧ step s1 = .ok (s2, .OK) ∧
        s2.regs.lookup hi = some vh ∧ s2.regs.lookup lo = some vl ∧
        s2.regs.lookup "SP" = some sp) ∧
    (∀ (s : Proc) (pc sp a : Int),
      s.halted = false → s.error = none → s.regs.lookup "PC" = some pc →
      instrAt s pc = some ["PUSH", "PSW"] →
      instrAt s (pc + 1) = some ["POP", "PSW"] →
      s.regs.lookup "SP" = some sp → 0 ≤ sp → sp < 65536 →
      s.regs.lookup "A" = some a → 0 ≤ a → a < 256 →
      (s.flagS = 0 ∨ s.flagS = 1) → (s.flagZ = 0 ∨ s.flagZ = 1) →
      (s.flagAC = 0 ∨ s.flagAC = 1) → (s.flagP = 0 ∨ s.flagP = 1) →
      (s.flagC = 0 ∨ s.flagC = 1) →
      ∃ s1 s2, step s = .ok (s1, .OK) ∧ step s1 = .ok (s2, .OK) ∧
        s2.regs.lookup "A" = some a ∧
        s2.flagS = s.flagS ∧ s2.flagZ = s.flagZ ∧ s2.flagAC = s.flagAC ∧
        s2.flagP = s.flagP ∧ s2.flagC = s.flagC ∧
        s2.regs.lookup "SP" = some sp) := by
  refine ⟨?_, ?_, ?_, ?_, ?_, ?_⟩
  · intro s pc sp vh vl rp hi lo htr hh he hpc hfind hsp hhi hlo hvh0 hvh1 hvl0 hvl1
    obtain ⟨s', h1, _, _, _, h5, h6, h7, h8⟩ :=
      push_pair_spec s pc sp vh vl rp hi lo htr hh he hpc hfind hsp hhi hlo hvh0 hvh1 hvl0 hvl1
    exact ⟨s', h1, h5, h6, h7, h8⟩
  · intro s pc sp rp hi lo htr hh he hpc hfind hsp hsp0 hsp1
    exact pop_pair_spec s pc sp rp hi lo htr hh he hpc hfind hsp hsp0 hsp1
  · intro s pc sp a hh he hpc hfind hsp ha ha0 ha1 hS hZ hA hP hC
    obtain ⟨s', h1, _, _, _, h5, h6, h7, h8, _⟩ :=
      push_psw_spec s pc sp a hh he hpc hfind hsp ha ha0 ha1 hS hZ hA hP hC
    exact ⟨s', h1, h5, h6, h7, h8⟩
  · intro s pc sp hh he hpc hfind hsp hsp0 hsp1
    obtain ⟨s', h1, h2, h3, _, _, _, h7, h8, _⟩ :=
      pop_psw_spec s pc sp hh he hpc hfind hsp hsp0 hsp1
    exact ⟨s', h1, h2, h3, h7, h8⟩
  · intro s pc sp vh vl rp hi lo htr hh he hpc hfind1 hfind2 hsp hsp0 hsp1 hhi hlo
      hvh0 hvh1 hvl0 hvl1
    have em : ∀ x : Int, x.emod 65536 = x % 65536 := fun _ => rfl
    obtain ⟨s1, hstep1, hh1, he1, hpp1, hmemh, hmeml, hsp1', hpc1⟩ :=
      push_pair_spec s pc sp vh vl rp hi lo htr hh he hpc hfind1 hsp hhi hlo
        hvh0 hvh1 hvl0 hvl1
    have hfind2' : instrAt s1 (pc + 1) = some ["POP", rp] := by
      unfold instrAt at hfind2 ⊢
      rw [hpp1]
      exact hfind2
    have hr0 : 0 ≤ (sp - 2).emod 65536 := by rw [em]; omega
    have hr1 : (sp - 2).emod 65536 < 65536 := by rw [em]; omega
    obtain ⟨s2, hstep2, hlo2, hhi2, hsp2, hpc2⟩ :=
      pop_pair_spec s1 (pc + 1) ((sp - 2).emod 65536) rp hi lo htr hh1 he1 hpc1
        hfind2' hsp1' hr0 hr1
    refine ⟨s1, s2, hstep1, hstep2, ?_, ?_, ?_⟩
    · rw [hhi2]
      congr 1
      have hidx : ((((sp - 2).emod 65536) + 1).emod 65536).toNat
          = ((sp - 1).emod 65536).toNat := by
        simp only [em]; omega
      rw [hidx]
      exact hmemh
    · rw [hlo2, hmeml]
    · rw [hsp2]
      congr 1
      simp only [em]; omega
  · intro s pc sp a hh he hpc hfind1 hfind2 hsp hsp0 hsp1 ha ha0 ha1 hS hZ hA hP hC
    have em : ∀ x : Int, x.emod 65536 = x % 65536 := fun _ => rfl
    obtain ⟨s1, hstep1, hh1, he1, hpp1, hmemA, hmemF, hsp1', hpc1, hfS1, hfZ1, hfA1,
      hfP1, hfC1, hA1⟩ :=
      push_psw_spec s pc sp a hh he hpc hfind1 hsp ha ha0 ha1 hS hZ hA hP hC
    have hfind2' : instrAt s1 (pc + 1) = some ["POP", "PSW"] := by
      unfold instrAt at hfind2 ⊢
      rw [hpp1]
      exact hfind2
    have hr0 : 0 ≤ (sp - 2).emod 65536 := by rw [em]; omega
    have hr1 : (sp - 2).emod 65536 < 65536 := by rw [em]; omega
    obtain ⟨s2, hstep2, hA2, hS2, hZ2, hAC2, hP2, hC2, hsp2, hpc2⟩ :=
      pop_psw_spec s1 (pc + 1) ((sp - 2).emod 65536) hh1 he1 hpc1 hfind2' hsp1' hr0 hr1
    have hfbe : flagsByte s
        = s.flagS * 128 + s.flagZ * 64 + s.flagAC * 16 + s.flagP * 4 + 2 + s.flagC := rfl
    obtain ⟨b7, b6, b4, b2, b0⟩ :=
      flags_byte_bits s.flagS s.flagZ s.flagAC s.flagP s.flagC hS hZ hA hP hC
    refine ⟨s1, s2, hstep1, hstep2, ?_, ?_, ?_, ?_, ?_, ?_, ?_⟩
    · rw [hA2]
      congr 1
      have hidx : ((((sp - 2).emod 65536) + 1).emod 65536).toNat
          = ((sp - 1).emod 65536).toNat := by
        simp only [em]; omega
      rw [hidx]
      exact hmemA
    · rw [hS2, hmemF, hfbe]
      exact b7
    · rw [hZ2, hmemF, hfbe]
      exact b6
    · rw [hAC2, hmemF, hfbe]
      exact b4
    · rw [hP2, hmemF, hfbe]
      exact b2
    · rw [hC2, hmemF, hfbe]
      exact b0
    · rw [hsp2]
      congr 1
      simp only [em]; omega

/-- Witness for c7_stack: the pair roundtrip conjunct on a concrete processor
with `PUSH B` then `POP B` loaded, B = 0x12, C = 0x34 and SP = 0xFFFF. -/
theorem c7_stack_witness :
    ∃ s1 s2, step procPushPop = .ok (s1, .OK) ∧ step s1 = .ok (s2, .OK) ∧
      s2.regs.lookup "B" = some 18 ∧ s2.regs.lookup "C" = some 52 ∧
      s2.regs.lookup "SP" = some 65535 :=
  c7_stack.2.2.2.2.1 procPushPop 0 65535 18 52 "B" "B" "C"
    (Or.inl ⟨rfl, rfl, rfl⟩) rfl rfl (by decide) (by decide) (by decide)
    (by decide) (by decide) (by decide) (by decide) (by decide) (by decide)
    (by decide) (by decide) (by decide)

/-! ## Byte-range preservation of `step()` (claim C10) -/

/-- A bitwise combination whose function clears bits absent from the first
argument never exceeds it. -/
theorem natBitwise_le (f : Bool → Bool → Bool) (hf : ∀ y, f false y = false) :
    ∀ (fuel a b : Nat), natBitwise f fuel a b ≤ a := by
  intro fuel
  induction fuel with
  | zero =>
    intro a b
    simp [natBitwise]
  | succ n ih =>
    intro a b
    unfold natBitwise
    split
    · exact Nat.zero_le a
    · have h := ih (a / 2) (b / 2)
      cases hfb : f (decide (a % 2 = 1)) (decide (b % 2 = 1)) with
      | false =>
        simp only [hfb, Bool.false_eq_true, if_false]
        omega
      | true =>
        have hp : a % 2 = 1 := by
          by_contra hne
          have hd : decide (a % 2 = 1) = false := by simp [hne]
          rw [hd, hf] at hfb
          cases hfb
        simp only [hfb, if_true]
        omega

/-- Any bitwise combination of two values below `2 ^ k` stays below `2 ^ k`. -/
theorem natBitwise_lt_pow (f : Bool → Bool → Bool) :
    ∀ (fuel : Nat), ∀ (k a b : Nat), a < 2 ^ k → b < 2 ^ k →
      natBitwise f fuel a b < 2 ^ k := by
  intro fuel
  induction fuel with
  | zero =>
    intro k a b ha hb
    simp only [natBitwise]
    exact Nat.pos_pow_of_pos k (by norm_num)
  | succ n ih =>
    intro k a b ha hb
    unfold natBitwise
    split
    · exact Nat.pos_pow_of_pos k (by norm_num)
    · rename_i hne
      cases k with
      | zero => exact absurd ⟨by omega, by omega⟩ hne
      | succ m =>
        have h2 : (2:Nat) ^ (m + 1) = 2 * 2 ^ m := by rw [pow_succ]; ring
        have iha := ih m (a / 2) (b / 2) (by omega) (by omega)
        have hb1 : (if f (decide (a % 2 = 1)) (decide (b % 2 = 1)) then 1 else 0) ≤ 1 := by
          split <;> omega
        omega

/-- Python `a & b` of a byte-valued `a` with an arbitrary integer is a byte. -/
theorem pyAnd_byte (a b : Int) (h0 : 0 ≤ a) (h1 : a < 256) :
    0 ≤ pyAnd a b ∧ pyAnd a b < 256 := by
  cases a with
  | ofNat a' =>
    cases b with
    | ofNat b' =>
      show 0 ≤ Int.ofNat (natAnd a' b') ∧ Int.ofNat (natAnd a' b') < 256
      have hle : natAnd a' b' ≤ a' := natBitwise_le (· && ·) (fun y => rfl) (a' + b' + 1) a' b'
      exact ⟨Int.ofNat_nonneg _, lt_of_le_of_lt (Int.ofNat_le.mpr hle) h1⟩
    | negSucc b' =>
      show 0 ≤ Int.ofNat (natDiff a' b') ∧ Int.ofNat (natDiff a' b') < 256
      have hle : natDiff a' b' ≤ a' :=
        natBitwise_le (fun x y => x && !y) (fun y => rfl) (a' + b' + 1) a' b'
      exact ⟨Int.ofNat_nonneg _, lt_of_le_of_lt (Int.ofNat_le.mpr hle) h1⟩
  | negSucc a' => exact absurd h0 (by exact (Int.negSucc_lt_zero a').not_le)

/-- Python `a | b` of two bytes is a byte. -/
theorem pyOr_byte (a b : Int) (ha0 : 0 ≤ a) (ha1 : a < 256) (hb0 : 0 ≤ b) (hb1 : b < 256) :
    0 ≤ pyOr a b ∧ pyOr a b < 256 := by
  have h28 : (2:Nat) ^ 8 = 256 := by norm_num
  cases a with
  | ofNat a' =>
    cases b with
    | ofNat b' =>
      show 0 ≤ Int.ofNat (natOr a' b') ∧ Int.ofNat (natOr a' b') < 256
      have ha' : a' < 2 ^ 8 := by rw [h28]; exact Int.ofNat_lt.mp ha1
      have hb' : b' < 2 ^ 8 := by rw [h28]; exact Int.ofNat_lt.mp hb1
      have hlt : natOr a' b' < 2 ^ 8 :=
        natBitwise_lt_pow (· || ·) (a' + b' + 1) 8 a' b' ha' hb'
      rw [h28] at hlt
      exact ⟨Int.ofNat_nonneg _, Int.ofNat_lt.mpr hlt⟩
    | negSucc b' => exact absurd hb0 (by exact (Int.negSucc_lt_zero b').not_le)
  | negSucc a' => exact absurd ha0 (by exact (Int.negSucc_lt_zero a').not_le)

/-- Python `a ^ b` of two bytes is a byte. -/
theorem pyXor_byte (a b : Int) (ha0 : 0 ≤ a) (ha1 : a < 256) (hb0 : 0 ≤ b) (hb1 : b < 256) :
    0 ≤ pyXor a b ∧ pyXor a b < 256 := by
  have h28 : (2:Nat) ^ 8 = 256 := by norm_num
  cases a with
  | ofNat a' =>
    cases b with
    | ofNat b' =>
      show 0 ≤ Int.ofNat (natXor' a' b') ∧ Int.ofNat (natXor' a' b') < 256
      have ha' : a' < 2 ^ 8 := by rw [h28]; exact Int.ofNat_lt.mp ha1
      have hb' : b' < 2 ^ 8 := by rw [h28]; exact Int.ofNat_lt.mp hb1
      have hlt : natXor' a' b' < 2 ^ 8 :=
        natBitwise_lt_pow (· != ·) (a' + b' + 1) 8 a' b' ha' hb'
      rw [h28] at hlt
      exact ⟨Int.ofNat_nonneg _, Int.ofNat_lt.mpr hlt⟩
    | negSucc b' => exact absurd hb0 (by exact (Int.negSucc_lt_zero b').not_le)
  | negSucc a' => exact absurd ha0 (by exact (Int.negSucc_lt_zero a').not_le)

theorem emod256_byte (x : Int) : 0 ≤ x.emod 256 ∧ x.emod 256 < 256 :=
  ⟨Int.emod_nonneg _ (by norm_num), Int.emod_lt_of_pos _ (by norm_num)⟩

theorem presV_bind {α β : Type} {m : PM α} {f : α → PM β} {Q : α → Prop} {R : β → Prop}
    (hm : PresV m Q) (hf : ∀ a, Q a → PresV (f a) R) : PresV (m >>= f) R := by
  intro s hs
  have hb : (m >>= f) s = match m s with
    | (s1, Except.ok a) => f a s1
    | (s1, Except.error e) => (s1, Except.error e) := rfl
  rcases hx : m s with ⟨s1, r⟩
  have h1 := hm s hs
  rw [hx] at h1 hb
  cases r with
  | ok a =>
    rw [hb]
    exact hf a (h1.2 a rfl) s1 h1.1
  | error e =>
    rw [hb]
    exact ⟨h1.1, fun a ha => by cases ha⟩

theorem presV_pure {α : Type} {Q : α → Prop} (a : α) (h : Q a) : PresV (pure a) Q :=
  fun s hs => ⟨hs, fun b hb => by cases hb; exact h⟩

theorem pres_pure {α : Type} (a : α) : Pres (pure a) :=
  presV_pure a trivial

theorem presV_get : PresV PM.get (fun st => ProcInv st) :=
  fun s hs => ⟨hs, fun a ha => by cases ha; exact hs⟩

theorem presV_throw {α : Type} {Q : α → Prop} (e : PyExn) : PresV (PM.throw e) Q :=
  fun s hs => ⟨hs, fun a ha => by cases ha⟩

theorem pres_modifyS_frame (f : Proc → Proc)
    (hr : ∀ s, (f s).regs = s.regs) (hm : ∀ s, (f s).memory = s.memory)
    (hio : ∀ s, (f s).io_ports = s.io_ports) : Pres (PM.modifyS f) := by
  intro s hs
  refine ⟨?_, fun a _ => trivial⟩
  have : ProcInv (f s) := by
    unfold ProcInv at hs ⊢
    rw [hr, hm, hio]
    exact hs
  exact this

theorem pres_regSet_byte (r : String) (v : Int) (h0 : 0 ≤ v) (h1 : v < 256) :
    Pres (regSet r v) := by
  intro s hs
  have hro : RegsOk (dictSet s.regs r v) := by
    intro k w hk hsp hpc
    rw [lookup_dictSet] at hk
    by_cases hkr : k = r
    · rw [if_pos hkr] at hk
      cases hk
      exact ⟨h0, h1⟩
    · rw [if_neg hkr] at hk
      exact hs.1 k w hk hsp hpc
  exact ⟨⟨hro, hs.2.1, hs.2.2⟩, fun a _ => trivial⟩

theorem pres_regSet_exempt (r : String) (v : Int) (h : r = "SP" ∨ r = "PC") :
    Pres (regSet r v) := by
  intro s hs
  have hro : RegsOk (dictSet s.regs r v) := by
    intro k w hk hsp hpc
    rw [lookup_dictSet] at hk
    by_cases hkr : k = r
    · rcases h with h | h
      · exact absurd (hkr.trans h) hsp
      · exact absurd (hkr.trans h) hpc
    · rw [if_neg hkr] at hk
      exact hs.1 k w hk hsp hpc
  exact ⟨⟨hro, hs.2.1, hs.2.2⟩, fun a _ => trivial⟩

theorem presV_regGet_byte (r : String) (hrs : r ≠ "SP") (hrp : r ≠ "PC") :
    PresV (regGet r) (fun v => 0 ≤ v ∧ v < 256) := by
  unfold regGet
  refine presV_bind presV_get (fun st hst => ?_)
  cases h : st.regs.lookup r with
  | some v => exact presV_pure v (hst.1 r v h hrs hrp)
  | none => exact presV_throw _

theorem pres_regGet (r : String) : Pres (regGet r) := by
  unfold regGet
  refine presV_bind presV_get (fun st hst => ?_)
  cases h : st.regs.lookup r with
  | some v => exact presV_pure v trivial
  | none => exact presV_throw _

theorem presV_tokAt (toks : List String) (i : Nat) :
    PresV (tokAt toks i) (fun t => toks.get? i = some t) := by
  unfold tokAt
  cases h : toks.get? i with
  | some t => exact presV_pure t rfl
  | none => exact presV_throw _

theorem pres_tokAt (toks : List String) (i : Nat) : Pres (tokAt toks i) := by
  unfold tokAt
  cases h : toks.get? i with
  | some t => exact presV_pure t trivial
  | none => exact presV_throw _

theorem pres_parseNum (t : String) : Pres (parseNum t) := by
  unfold parseNum
  refine presV_bind presV_get (fun st _ => ?_)
  cases h : parse_number st.symbols st.labels t with
  | ok v => exact presV_pure v trivial
  | error e => exact presV_throw _

theorem pres_regHas (r : String) : Pres (regHas r) := by
  unfold regHas
  exact presV_bind presV_get (fun st _ => pres_pure _)

theorem presV_memGet (addr : Int) : PresV (memGet addr) (fun v => 0 ≤ v ∧ v < 256) := by
  unfold memGet
  refine presV_bind presV_get (fun st hst => ?_)
  split
  · exact presV_pure _ (hst.2.1 _)
  · exact presV_throw _

theorem pres_memGet (addr : Int) : Pres (memGet addr) := by
  unfold memGet
  refine presV_bind presV_get (fun st hst => ?_)
  split
  · exact pres_pure _
  · exact presV_throw _

theorem pres_memSet (addr v : Int) : Pres (memSet addr v) := by
  unfold memSet
  split
  · split
    · rename_i hv
      intro s hs
      have hbo : BufOk (fun j => if j = (addr.emod 65536).toNat then v else s.memory j) := by
        intro j
        by_cases hj : j = (addr.emod 65536).toNat
        · simp only [hj, if_pos rfl]
          exact hv
        · simp only [if_neg hj]
          exact hs.2.1 j
      exact ⟨⟨hs.1, hbo, hs.2.2⟩, fun a _ => trivial⟩
    · exact presV_throw _
  · exact presV_throw _

theorem presV_ioGet (p : Int) : PresV (ioGet p) (fun v => 0 ≤ v ∧ v < 256) := by
  unfold ioGet
  refine presV_bind presV_get (fun st hst => ?_)
  split
  · exact presV_pure _ (hst.2.2 _)
  · exact presV_throw _

theorem pres_ioSet (p v : Int) : Pres (ioSet p v) := by
  unfold ioSet
  split
  · split
    · rename_i hv
      intro s hs
      have hbo : BufOk (fun j => if j = (p.emod 256).toNat then v else s.io_ports j) := by
        intro j
        by_cases hj : j = (p.emod 256).toNat
        · simp only [hj, if_pos rfl]
          exact hv
        · simp only [if_neg hj]
          exact hs.2.2 j
      exact ⟨⟨hs.1, hs.2.1, hbo⟩, fun a _ => trivial⟩
    · exact presV_throw _
  · exact presV_throw _

theorem pres_errorReturn (msg : String) : Pres (errorReturn msg) := by
  unfold errorReturn
  exact presV_bind (pres_modifyS_frame _ (fun s => rfl) (fun s => rfl) (fun s => rfl))
    (fun _ _ => pres_pure Status.ERROR)

theorem pres_update_flags (r : Int) (cc : Bool) (cv : Int) (ca : Bool) (av : Int) :
    Pres (update_flags r cc cv ca av) :=
  pres_modifyS_frame _ (fun s => rfl) (fun s => rfl) (fun s => rfl)

theorem pres_pcAdd (n : Int) : Pres (pcAdd n) := by
  unfold pcAdd
  exact presV_bind (pres_regGet "PC") (fun pc _ => pres_regSet_exempt "PC" _ (Or.inr rfl))

theorem pres_get_hl_addr : Pres get_hl_addr := by
  unfold get_hl_addr
  exact presV_bind (pres_regGet "H") (fun h _ =>
    presV_bind (pres_regGet "L") (fun l _ => pres_pure _))

theorem pres_get_bc_addr : Pres get_bc_addr := by
  unfold get_bc_addr
  exact presV_bind (pres_regGet "B") (fun b _ =>
    presV_bind (pres_regGet "C") (fun c _ => pres_pure _))

theorem pres_get_de_addr : Pres get_de_addr := by
  unfold get_de_addr
  exact presV_bind (pres_regGet "D") (fun d _ =>
    presV_bind (pres_regGet "E") (fun e _ => pres_pure _))

theorem pres_get_flags_byte : Pres get_flags_byte := by
  unfold get_flags_byte
  exact presV_bind presV_get (fun st _ => pres_pure _)

theorem pres_get_psw : Pres get_psw := by
  unfold get_psw
  exact presV_bind (pres_regGet "A") (fun a _ =>
    presV_bind pres_get_flags_byte (fun fb _ => pres_pure _))

theorem presV_popByte : PresV popByte (fun v => 0 ≤ v ∧ v < 256) := by
  unfold popByte
  refine presV_bind (pres_regGet "SP") (fun sp _ => ?_)
  refine presV_bind (presV_memGet sp) (fun v hv => ?_)
  exact presV_bind (pres_regSet_exempt "SP" _ (Or.inl rfl)) (fun _ _ => presV_pure _ hv)

theorem presV_ite {α : Type} {Q : α → Prop} (c : Prop) [Decidable c] {m1 m2 : PM α}
    (h1 : PresV m1 Q) (h2 : PresV m2 Q) : PresV (if c then m1 else m2) Q := by
  split
  · exact h1
  · exact h2

theorem pres_pushBytes (hi lo : Int) : Pres (pushBytes hi lo) := by
  unfold pushBytes
  refine presV_bind (pres_regGet "SP") (fun sp _ => ?_)
  refine presV_bind (pres_memSet _ _) (fun _ _ => ?_)
  exact presV_bind (pres_memSet _ _) (fun _ _ => pres_regSet_exempt "SP" _ (Or.inl rfl))

theorem pres_execJump (opcode : String) (toks : List String) : Pres (execJump opcode toks) := by
  unfold execJump
  refine presV_bind (pres_tokAt toks 1) (fun t1 _ => ?_)
  refine presV_bind presV_get (fun st _ => ?_)
  dsimp only
  cases h : st.labels.lookup (pyStripChars [','] t1) with
  | some v =>
    refine presV_bind (pres_pure v) (fun ta _ => ?_)
    dsimp only
    exact presV_ite _
      (presV_bind (pres_regSet_exempt "PC" _ (Or.inr rfl)) (fun _ _ => pres_pure Status.OK))
      (presV_bind (pres_pcAdd 3) (fun _ _ => pres_pure Status.OK))
  | none =>
    refine presV_bind (pres_parseNum _) (fun ta _ => ?_)
    dsimp only
    exact presV_ite _
      (presV_bind (pres_regSet_exempt "PC" _ (Or.inr rfl)) (fun _ _ => pres_pure Status.OK))
      (presV_bind (pres_pcAdd 3) (fun _ _ => pres_pure Status.OK))

theorem pres_execMVI (toks : List String) : Pres (execMVI toks) := by
  unfold execMVI
  refine presV_bind (pres_tokAt toks 1) (fun t1 _ => ?_)
  refine presV_bind (pres_tokAt toks 2) (fun t2 _ => ?_)
  refine presV_bind (pres_parseNum t2) (fun v _ => ?_)
  dsimp only
  split
  · refine presV_bind pres_get_hl_addr (fun addr _ => ?_)
    refine presV_bind (pres_memSet _ _) (fun _ _ => ?_)
    exact presV_bind (pres_pcAdd 2) (fun _ _ => pres_pure Status.OK)
  · refine presV_bind (pres_regSet_byte _ _ (emod256_byte v).1 (emod256_byte v).2) (fun _ _ => ?_)
    exact presV_bind (pres_pcAdd 2) (fun _ _ => pres_pure Status.OK)

theorem pres_execMOV (toks : List String)
    (hsp : toks.getD 2 "" ≠ "SP") (hpc : toks.getD 2 "" ≠ "PC") :
    Pres (execMOV toks) := by
  unfold execMOV
  refine presV_bind (pres_tokAt toks 1) (fun t1 _ => ?_)
  refine presV_bind (presV_tokAt toks 2) (fun src hsrc => ?_)
  have hgd : toks.getD 2 "" = src := by
    rw [List.getD_eq_getD_get?, hsrc]
    rfl
  rw [hgd] at hsp hpc
  refine presV_bind (pres_regHas _) (fun destIn _ => ?_)
  refine presV_bind (pres_regHas _) (fun srcIn _ => ?_)
  dsimp only
  split
  · refine presV_bind pres_get_hl_addr (fun addr _ => ?_)
    refine presV_bind (pres_regGet src) (fun v _ => ?_)
    refine presV_bind (pres_memSet _ _) (fun _ _ => ?_)
    exact presV_bind (pres_pcAdd 1) (fun _ _ => pres_pure Status.OK)
  · split
    · refine presV_bind pres_get_hl_addr (fun addr _ => ?_)
      refine presV_bind (presV_memGet addr) (fun v hv => ?_)
      refine presV_bind (pres_regSet_byte _ _ hv.1 hv.2) (fun _ _ => ?_)
      exact presV_bind (pres_pcAdd 1) (fun _ _ => pres_pure Status.OK)
    · split
      · refine presV_bind (presV_regGet_byte src hsp hpc) (fun v hv => ?_)
        refine presV_bind (pres_regSet_byte _ _ hv.1 hv.2) (fun _ _ => ?_)
        exact presV_bind (pres_pcAdd 1) (fun _ _ => pres_pure Status.OK)
      · exact pres_errorReturn _

theorem pres_execLXI (toks : List String) : Pres (execLXI toks) := by
  unfold execLXI
  refine presV_bind (pres_tokAt toks 1) (fun t1 _ => ?_)
  refine presV_bind (pres_tokAt toks 2) (fun t2 _ => ?_)
  refine presV_bind (pres_parseNum t2) (fun v _ => ?_)
  dsimp only
  split
  · refine presV_bind (pres_regSet_byte _ _ (emod256_byte _).1 (emod256_byte _).2) (fun _ _ => ?_)
    refine presV_bind (pres_regSet_byte _ _ (emod256_byte _).1 (emod256_byte _).2) (fun _ _ => ?_)
    exact presV_bind (pres_pcAdd 3) (fun _ _ => pres_pure Status.OK)
  · split
    · refine presV_bind (pres_regSet_byte _ _ (emod256_byte _).1 (emod256_byte _).2) (fun _ _ => ?_)
      refine presV_bind (pres_regSet_byte _ _ (emod256_byte _).1 (emod256_byte _).2) (fun _ _ => ?_)
      exact presV_bind (pres_pcAdd 3) (fun _ _ => pres_pure Status.OK)
    · split
      · refine presV_bind (pres_regSet_byte _ _ (emod256_byte _).1 (emod256_byte _).2) (fun _ _ => ?_)
        refine presV_bind (pres_regSet_byte _ _ (emod256_byte _).1 (emod256_byte _).2) (fun _ _ => ?_)
        exact presV_bind (pres_pcAdd 3) (fun _ _ => pres_pure Status.OK)
      · split
        · refine presV_bind (pres_regSet_exempt "SP" _ (Or.inl rfl)) (fun _ _ => ?_)
          exact presV_bind (pres_pcAdd 3) (fun _ _ => pres_pure Status.OK)
        · exact pres_errorReturn _

theorem pres_execLDA (toks : List String) : Pres (execLDA toks) := by
  unfold execLDA
  refine presV_bind (pres_tokAt toks 1) (fun t1 _ => ?_)
  refine presV_bind (pres_parseNum t1) (fun addr _ => ?_)
  refine presV_bind (presV_memGet addr) (fun v hv => ?_)
  refine presV_bind (pres_regSet_byte _ _ hv.1 hv.2) (fun _ _ => ?_)
  exact presV_bind (pres_pcAdd 3) (fun _ _ => pres_pure Status.OK)

theorem pres_execSTA (toks : List String) : Pres (execSTA toks) := by
  unfold execSTA
  refine presV_bind (pres_tokAt toks 1) (fun t1 _ => ?_)
  refine presV_bind (pres_parseNum t1) (fun addr _ => ?_)
  refine presV_bind (pres_regGet "A") (fun a _ => ?_)
  refine presV_bind (pres_memSet _ _) (fun _ _ => ?_)
  exact presV_bind (pres_pcAdd 3) (fun _ _ => pres_pure Status.OK)

theorem pres_execADD (toks : List String) : Pres (execADD toks) := by
  unfold execADD
  refine presV_bind (pres_tokAt toks 1) (fun t1 _ => ?_)
  refine presV_bind (pres_regGet "A") (fun a _ => ?_)
  dsimp only
  refine presV_ite _ ?_ ?_
  · refine presV_bind pres_get_hl_addr (fun addr _ => ?_)
    refine presV_bind (pres_memGet addr) (fun v _ => ?_)
    refine presV_bind (pres_regSet_byte _ _ (emod256_byte _).1 (emod256_byte _).2) (fun _ _ => ?_)
    refine presV_bind (pres_regGet "A") (fun a2 _ => ?_)
    refine presV_bind (pres_update_flags _ _ _ _ _) (fun _ _ => ?_)
    exact presV_bind (pres_pcAdd 1) (fun _ _ => pres_pure Status.OK)
  · refine presV_bind (pres_regGet _) (fun v _ => ?_)
    refine presV_bind (pres_regSet_byte _ _ (emod256_byte _).1 (emod256_byte _).2) (fun _ _ => ?_)
    refine presV_bind (pres_regGet "A") (fun a2 _ => ?_)
    refine presV_bind (pres_update_flags _ _ _ _ _) (fun _ _ => ?_)
    exact presV_bind (pres_pcAdd 1) (fun _ _ => pres_pure Status.OK)

theorem pres_execADI (toks : List String) : Pres (execADI toks) := by
  unfold execADI
  refine presV_bind (pres_tokAt toks 1) (fun t1 _ => ?_)
  refine presV_bind (pres_parseNum _) (fun v _ => ?_)
  refine presV_bind (pres_regGet "A") (fun a _ => ?_)
  dsimp only
  refine presV_bind (pres_regSet_byte _ _ (emod256_byte _).1 (emod256_byte _).2) (fun _ _ => ?_)
  refine presV_bind (pres_regGet "A") (fun a2 _ => ?_)
  refine presV_bind (pres_update_flags _ _ _ _ _) (fun _ _ => ?_)
  exact presV_bind (pres_pcAdd 2) (fun _ _ => pres_pure Status.OK)

theorem pres_execSUB (toks : List String) : Pres (execSUB toks) := by
  unfold execSUB
  refine presV_bind (pres_tokAt toks 1) (fun t1 _ => ?_)
  refine presV_bind (pres_regGet "A") (fun a _ => ?_)
  dsimp only
  refine presV_ite _ ?_ ?_
  · refine presV_bind pres_get_hl_addr (fun addr _ => ?_)
    refine presV_bind (pres_memGet addr) (fun v _ => ?_)
    refine presV_bind (pres_regSet_byte _ _ (emod256_byte _).1 (emod256_byte _).2) (fun _ _ => ?_)
    refine presV_bind (pres_regGet "A") (fun a2 _ => ?_)
    refine presV_bind (pres_update_flags _ _ _ _ _) (fun _ _ => ?_)
    exact presV_bind (pres_pcAdd 1) (fun _ _ => pres_pure Status.OK)
  · refine presV_bind (pres_regGet _) (fun v _ => ?_)
    refine presV_bind (pres_regSet_byte _ _ (emod256_byte _).1 (emod256_byte _).2) (fun _ _ => ?_)
    refine presV_bind (pres_regGet "A") (fun a2 _ => ?_)
    refine presV_bind (pres_update_flags _ _ _ _ _) (fun _ _ => ?_)
    exact presV_bind (pres_pcAdd 1) (fun _ _ => pres_pure Status.OK)

theorem pres_execINR (toks : List String) : Pres (execINR toks) := by
  unfold execINR
  refine presV_bind (pres_tokAt toks 1) (fun reg _ => ?_)
  dsimp only
  split
  · refine presV_bind pres_get_hl_addr (fun addr _ => ?_)
    refine presV_bind (pres_memGet addr) (fun v _ => ?_)
    refine presV_bind (pres_memSet _ _) (fun _ _ => ?_)
    refine presV_bind (pres_memGet _) (fun m2 _ => ?_)
    refine presV_bind (pres_update_flags _ _ _ _ _) (fun _ _ => ?_)
    exact presV_bind (pres_pcAdd 1) (fun _ _ => pres_pure Status.OK)
  · refine presV_bind (pres_regGet _) (fun v _ => ?_)
    refine presV_bind (pres_regSet_byte _ _ (emod256_byte _).1 (emod256_byte _).2) (fun _ _ => ?_)
    refine presV_bind (pres_regGet _) (fun r2 _ => ?_)
    refine presV_bind (pres_update_flags _ _ _ _ _) (fun _ _ => ?_)
    exact presV_bind (pres_pcAdd 1) (fun _ _ => pres_pure Status.OK)

theorem pres_execDCR (toks : List String) : Pres (execDCR toks) := by
  unfold execDCR
  refine presV_bind (pres_tokAt toks 1) (fun reg _ => ?_)
  dsimp only
  split
  · refine presV_bind pres_get_hl_addr (fun addr _ => ?_)
    refine presV_bind (pres_memGet addr) (fun v _ => ?_)
    refine presV_bind (pres_memSet _ _) (fun _ _ => ?_)
    refine presV_bind (pres_memGet _) (fun m2 _ => ?_)
    refine presV_bind (pres_update_flags _ _ _ _ _) (fun _ _ => ?_)
    exact presV_bind (pres_pcAdd 1) (fun _ _ => pres_pure Status.OK)
  · refine presV_bind (pres_regGet _) (fun v _ => ?_)
    refine presV_bind (pres_regSet_byte _ _ (emod256_byte _).1 (emod256_byte _).2) (fun _ _ => ?_)
    refine presV_bind (pres_regGet _) (fun r2 _ => ?_)
    refine presV_bind (pres_update_flags _ _ _ _ _) (fun _ _ => ?_)
    exact presV_bind (pres_pcAdd 1) (fun _ _ => pres_pure Status.OK)

theorem pres_execHLT : Pres execHLT := by
  unfold execHLT
  exact presV_bind (pres_modifyS_frame _ (fun s => rfl) (fun s => rfl) (fun s => rfl))
    (fun _ _ => pres_pure Status.HALT)

theorem pres_execINX (toks : List String) : Pres (execINX toks) := by
  unfold execINX
  refine presV_bind (pres_tokAt toks 1) (fun rp _ => ?_)
  dsimp only
  split
  · refine presV_bind pres_get_bc_addr (fun bc _ => ?_)
    refine presV_bind (pres_regSet_byte _ _ (emod256_byte _).1 (emod256_byte _).2) (fun _ _ => ?_)
    refine presV_bind (pres_regSet_byte _ _ (emod256_byte _).1 (emod256_byte _).2) (fun _ _ => ?_)
    exact presV_bind (pres_pcAdd 1) (fun _ _ => pres_pure Status.OK)
  · split
    · refine presV_bind pres_get_de_addr (fun de _ => ?_)
      refine presV_bind (pres_regSet_byte _ _ (emod256_byte _).1 (emod256_byte _).2) (fun _ _ => ?_)
      refine presV_bind (pres_regSet_byte _ _ (emod256_byte _).1 (emod256_byte _).2) (fun _ _ => ?_)
      exact presV_bind (pres_pcAdd 1) (fun _ _ => pres_pure Status.OK)
    · split
      · refine presV_bind pres_get_hl_addr (fun hl _ => ?_)
        refine presV_bind (pres_regSet_byte _ _ (emod256_byte _).1 (emod256_byte _).2) (fun _ _ => ?_)
        refine presV_bind (pres_regSet_byte _ _ (emod256_byte _).1 (emod256_byte _).2) (fun _ _ => ?_)
        exact presV_bind (pres_pcAdd 1) (fun _ _ => pres_pure Status.OK)
      · split
        · refine presV_bind (pres_regGet "SP") (fun sp _ => ?_)
          refine presV_bind (pres_regSet_exempt "SP" _ (Or.inl rfl)) (fun _ _ => ?_)
          exact presV_bind (pres_pcAdd 1) (fun _ _ => pres_pure Status.OK)
        · exact pres_errorReturn _

theorem pres_execDCX (toks : List String) : Pres (execDCX toks) := by
  unfold execDCX
  refine presV_bind (pres_tokAt toks 1) (fun rp _ => ?_)
  dsimp only
  split
  · refine presV_bind pres_get_bc_addr (fun bc _ => ?_)
    refine presV_bind (pres_regSet_byte _ _ (emod256_byte _).1 (emod256_byte _).2) (fun _ _ => ?_)
    refine presV_bind (pres_regSet_byte _ _ (emod256_byte _).1 (emod256_byte _).2) (fun _ _ => ?_)
    exact presV_bind (pres_pcAdd 1) (fun _ _ => pres_pure Status.OK)
  · split
    · refine presV_bind pres_get_de_addr (fun de _ => ?_)
      refine presV_bind (pres_regSet_byte _ _ (emod256_byte _).1 (emod256_byte _).2) (fun _ _ => ?_)
      refine presV_bind (pres_regSet_byte _ _ (emod256_byte _).1 (emod256_byte _).2) (fun _ _ => ?_)
      exact presV_bind (pres_pcAdd 1) (fun _ _ => pres_pure Status.OK)
    · split
      · refine presV_bind pres_get_hl_addr (fun hl _ => ?_)
        refine presV_bind (pres_regSet_byte _ _ (emod256_byte _).1 (emod256_byte _).2) (fun _ _ => ?_)
        refine presV_bind (pres_regSet_byte _ _ (emod256_byte _).1 (emod256_byte _).2) (fun _ _ => ?_)
        exact presV_bind (pres_pcAdd 1) (fun _ _ => pres_pure Status.OK)
      · split
        · refine presV_bind (pres_regGet "SP") (fun sp _ => ?_)
          refine presV_bind (pres_regSet_exempt "SP" _ (Or.inl rfl)) (fun _ _ => ?_)
          exact presV_bind (pres_pcAdd 1) (fun _ _ => pres_pure Status.OK)
        · exact pres_errorReturn _

theorem pres_execPUSH (toks : List String) : Pres (execPUSH toks) := by
  unfold execPUSH
  refine presV_bind (pres_tokAt toks 1) (fun t1 _ => ?_)
  dsimp only
  split
  · refine presV_bind pres_get_psw (fun psw _ => ?_)
    refine presV_bind (pres_pushBytes _ _) (fun _ _ => ?_)
    exact presV_bind (pres_pcAdd 1) (fun _ _ => pres_pure Status.OK)
  · split
    · refine presV_bind (pres_regGet "B") (fun b _ => ?_)
      refine presV_bind (pres_regGet "C") (fun c _ => ?_)
      refine presV_bind (pres_pushBytes _ _) (fun _ _ => ?_)
      exact presV_bind (pres_pcAdd 1) (fun _ _ => pres_pure Status.OK)
    · split
      · refine presV_bind (pres_regGet "D") (fun d _ => ?_)
        refine presV_bind (pres_regGet "E") (fun e _ => ?_)
        refine presV_bind (pres_pushBytes _ _) (fun _ _ => ?_)
        exact presV_bind (pres_pcAdd 1) (fun _ _ => pres_pure Status.OK)
      · split
        · refine presV_bind (pres_regGet "H") (fun h _ => ?_)
          refine presV_bind (pres_regGet "L") (fun l _ => ?_)
          refine presV_bind (pres_pushBytes _ _) (fun _ _ => ?_)
          exact presV_bind (pres_pcAdd 1) (fun _ _ => pres_pure Status.OK)
        · exact pres_errorReturn _

theorem pres_execPOP (toks : List String) : Pres (execPOP toks) := by
  unfold execPOP
  refine presV_bind (pres_tokAt toks 1) (fun t1 _ => ?_)
  dsimp only
  split
  · refine presV_bind presV_popByte (fun fb _ => ?_)
    refine presV_bind presV_popByte (fun a ha => ?_)
    refine presV_bind (pres_regSet_byte _ _ ha.1 ha.2) (fun _ _ => ?_)
    refine presV_bind (pres_modifyS_frame _ (fun s => rfl) (fun s => rfl) (fun s => rfl))
      (fun _ _ => ?_)
    exact presV_bind (pres_pcAdd 1) (fun _ _ => pres_pure Status.OK)
  · split
    · refine presV_bind presV_popByte (fun c hc => ?_)
      refine presV_bind (pres_regSet_byte _ _ hc.1 hc.2) (fun _ _ => ?_)
      refine presV_bind presV_popByte (fun b hb => ?_)
      refine presV_bind (pres_regSet_byte _ _ hb.1 hb.2) (fun _ _ => ?_)
      exact presV_bind (pres_pcAdd 1) (fun _ _ => pres_pure Status.OK)
    · split
      · refine presV_bind presV_popByte (fun e he => ?_)
        refine presV_bind (pres_regSet_byte _ _ he.1 he.2) (fun _ _ => ?_)
        refine presV_bind presV_popByte (fun d hd => ?_)
        refine presV_bind (pres_regSet_byte _ _ hd.1 hd.2) (fun _ _ => ?_)
        exact presV_bind (pres_pcAdd 1) (fun _ _ => pres_pure Status.OK)
      · split
        · refine presV_bind presV_popByte (fun l hl => ?_)
          refine presV_bind (pres_regSet_byte _ _ hl.1 hl.2) (fun _ _ => ?_)
          refine presV_bind presV_popByte (fun h hh => ?_)
          refine presV_bind (pres_regSet_byte _ _ hh.1 hh.2) (fun _ _ => ?_)
          exact presV_bind (pres_pcAdd 1) (fun _ _ => pres_pure Status.OK)
        · exact pres_errorReturn _

theorem pres_execCALL (toks : List String) : Pres (execCALL toks) := by
  unfold execCALL
  refine presV_bind (pres_tokAt toks 1) (fun t1 _ => ?_)
  refine presV_bind presV_get (fun st _ => ?_)
  dsimp only
  cases h : st.labels.lookup (pyStripChars [',', ';'] t1) with
  | some v =>
    refine presV_bind (pres_pure v) (fun ta _ => ?_)
    refine presV_bind (pres_regGet "PC") (fun pc _ => ?_)
    refine presV_bind (pres_pushBytes _ _) (fun _ _ => ?_)
    exact presV_bind (pres_regSet_exempt "PC" _ (Or.inr rfl)) (fun _ _ => pres_pure Status.OK)
  | none =>
    refine presV_bind (pres_parseNum _) (fun ta _ => ?_)
    refine presV_bind (pres_regGet "PC") (fun pc _ => ?_)
    refine presV_bind (pres_pushBytes _ _) (fun _ _ => ?_)
    exact presV_bind (pres_regSet_exempt "PC" _ (Or.inr rfl)) (fun _ _ => pres_pure Status.OK)

theorem pres_execRET : Pres execRET := by
  unfold execRET
  refine presV_bind presV_popByte (fun lo _ => ?_)
  refine presV_bind presV_popByte (fun hi _ => ?_)
  dsimp only
  exact presV_bind (pres_regSet_exempt "PC" _ (Or.inr rfl)) (fun _ _ => pres_pure Status.OK)

theorem pres_execCPI (toks : List String) : Pres (execCPI toks) := by
  unfold execCPI
  refine presV_bind (pres_tokAt toks 1) (fun t1 _ => ?_)
  refine presV_bind (pres_parseNum _) (fun v _ => ?_)
  refine presV_bind (pres_regGet "A") (fun a _ => ?_)
  dsimp only
  refine presV_bind (pres_update_flags _ _ _ _ _) (fun _ _ => ?_)
  exact presV_bind (pres_pcAdd 2) (fun _ _ => pres_pure Status.OK)

theorem pres_execDAD (toks : List String) : Pres (execDAD toks) := by
  unfold execDAD
  refine presV_bind (pres_tokAt toks 1) (fun t1 _ => ?_)
  refine presV_bind pres_get_hl_addr (fun hl _ => ?_)
  dsimp only
  refine @presV_bind _ _ _ _ (fun _ => True) _ ?_ (fun op _ => ?_)
  · refine presV_ite _ ?_ (presV_ite _ ?_ (presV_ite _ ?_ (presV_ite _ ?_ ?_)))
    · exact presV_bind pres_get_bc_addr (fun v _ => pres_pure _)
    · exact presV_bind pres_get_de_addr (fun v _ => pres_pure _)
    · exact pres_pure _
    · exact presV_bind (pres_regGet "SP") (fun v _ => pres_pure _)
    · exact pres_pure _
  · cases op with
    | none => exact pres_errorReturn _
    | some operand =>
      dsimp only
      refine presV_bind (pres_regSet_byte _ _ (emod256_byte _).1 (emod256_byte _).2) (fun _ _ => ?_)
      refine presV_bind (pres_regSet_byte _ _ (emod256_byte _).1 (emod256_byte _).2) (fun _ _ => ?_)
      refine presV_bind (pres_modifyS_frame _ (fun s => rfl) (fun s => rfl) (fun s => rfl))
        (fun _ _ => ?_)
      exact presV_bind (pres_pcAdd 1) (fun _ _ => pres_pure Status.OK)

theorem pres_execXCHG : Pres execXCHG := by
  unfold execXCHG
  refine presV_bind (presV_regGet_byte "D" (by decide) (by decide)) (fun d hd => ?_)
  refine presV_bind (presV_regGet_byte "E" (by decide) (by decide)) (fun e he => ?_)
  refine presV_bind (presV_regGet_byte "H" (by decide) (by decide)) (fun h hh => ?_)
  refine presV_bind (presV_regGet_byte "L" (by decide) (by decide)) (fun l hl => ?_)
  refine presV_bind (pres_regSet_byte _ _ hh.1 hh.2) (fun _ _ => ?_)
  refine presV_bind (pres_regSet_byte _ _ hl.1 hl.2) (fun _ _ => ?_)
  refine presV_bind (pres_regSet_byte _ _ hd.1 hd.2) (fun _ _ => ?_)
  refine presV_bind (pres_regSet_byte _ _ he.1 he.2) (fun _ _ => ?_)
  exact presV_bind (pres_pcAdd 1) (fun _ _ => pres_pure Status.OK)

theorem pres_execLDAX (toks : List String) : Pres (execLDAX toks) := by
  unfold execLDAX
  refine presV_bind (pres_tokAt toks 1) (fun t1 _ => ?_)
  dsimp only
  split
  · refine presV_bind pres_get_bc_addr (fun addr _ => ?_)
    refine presV_bind (presV_memGet addr) (fun v hv => ?_)
    refine presV_bind (pres_regSet_byte _ _ hv.1 hv.2) (fun _ _ => ?_)
    exact presV_bind (pres_pcAdd 1) (fun _ _ => pres_pure Status.OK)
  · split
    · refine presV_bind pres_get_de_addr (fun addr _ => ?_)
      refine presV_bind (presV_memGet addr) (fun v hv => ?_)
      refine presV_bind (pres_regSet_byte _ _ hv.1 hv.2) (fun _ _ => ?_)
      exact presV_bind (pres_pcAdd 1) (fun _ _ => pres_pure Status.OK)
    · exact pres_errorReturn _

theorem pres_execSTAX (toks : List String) : Pres (execSTAX toks) := by
  unfold execSTAX
  refine presV_bind (pres_tokAt toks 1) (fun t1 _ => ?_)
  dsimp only
  split
  · refine presV_bind pres_get_bc_addr (fun addr _ => ?_)
    refine presV_bind (pres_regGet "A") (fun a _ => ?_)
    refine presV_bind (pres_memSet _ _) (fun _ _ => ?_)
    exact presV_bind (pres_pcAdd 1) (fun _ _ => pres_pure Status.OK)
  · split
    · refine presV_bind pres_get_de_addr (fun addr _ => ?_)
      refine presV_bind (pres_regGet "A") (fun a _ => ?_)
      refine presV_bind (pres_memSet _ _) (fun _ _ => ?_)
      exact presV_bind (pres_pcAdd 1) (fun _ _ => pres_pure Status.OK)
    · exact pres_errorReturn _

theorem pres_execLHLD (toks : List String) : Pres (execLHLD toks) := by
  unfold execLHLD
  refine presV_bind (pres_tokAt toks 1) (fun t1 _ => ?_)
  refine presV_bind (pres_parseNum _) (fun v _ => ?_)
  dsimp only
  refine presV_bind (presV_memGet _) (fun lo hlo => ?_)
  refine presV_bind (pres_regSet_byte _ _ hlo.1 hlo.2) (fun _ _ => ?_)
  refine presV_bind (presV_memGet _) (fun hi hhi => ?_)
  refine presV_bind (pres_regSet_byte _ _ hhi.1 hhi.2) (fun _ _ => ?_)
  exact presV_bind (pres_pcAdd 3) (fun _ _ => pres_pure Status.OK)

theorem pres_execSHLD (toks : List String) : Pres (execSHLD toks) := by
  unfold execSHLD
  refine presV_bind (pres_tokAt toks 1) (fun t1 _ => ?_)
  refine presV_bind (pres_parseNum _) (fun v _ => ?_)
  dsimp only
  refine presV_bind (pres_regGet "L") (fun l _ => ?_)
  refine presV_bind (pres_memSet _ _) (fun _ _ => ?_)
  refine presV_bind (pres_regGet "H") (fun h _ => ?_)
  refine presV_bind (pres_memSet _ _) (fun _ _ => ?_)
  exact presV_bind (pres_pcAdd 3) (fun _ _ => pres_pure Status.OK)

theorem pres_execPCHL : Pres execPCHL := by
  unfold execPCHL
  refine presV_bind pres_get_hl_addr (fun hl _ => ?_)
  exact presV_bind (pres_regSet_exempt "PC" _ (Or.inr rfl)) (fun _ _ => pres_pure Status.OK)

theorem pres_execSPHL : Pres execSPHL := by
  unfold execSPHL
  refine presV_bind pres_get_hl_addr (fun hl _ => ?_)
  refine presV_bind (pres_regSet_exempt "SP" _ (Or.inl rfl)) (fun _ _ => ?_)
  exact presV_bind (pres_pcAdd 1) (fun _ _ => pres_pure Status.OK)

theorem pres_execXTHL : Pres execXTHL := by
  unfold execXTHL
  refine presV_bind (pres_regGet "SP") (fun sp _ => ?_)
  dsimp only
  refine presV_bind (pres_regGet "H") (fun h _ => ?_)
  refine presV_bind (pres_regGet "L") (fun l _ => ?_)
  refine presV_bind (presV_memGet _) (fun m0 hm0 => ?_)
  refine presV_bind (pres_regSet_byte _ _ hm0.1 hm0.2) (fun _ _ => ?_)
  refine presV_bind (presV_memGet _) (fun m1 hm1 => ?_)
  refine presV_bind (pres_regSet_byte _ _ hm1.1 hm1.2) (fun _ _ => ?_)
  refine presV_bind (pres_memSet _ _) (fun _ _ => ?_)
  refine presV_bind (pres_memSet _ _) (fun _ _ => ?_)
  exact presV_bind (pres_pcAdd 1) (fun _ _ => pres_pure Status.OK)

theorem pres_execANA (toks : List String) : Pres (execANA toks) := by
  unfold execANA
  refine presV_bind (pres_tokAt toks 1) (fun t1 _ => ?_)
  dsimp only
  refine presV_ite _ ?_ ?_
  · refine presV_bind pres_get_hl_addr (fun addr _ => ?_)
    refine presV_bind (pres_memGet addr) (fun v _ => ?_)
    refine presV_bind (presV_regGet_byte "A" (by decide) (by decide)) (fun a ha => ?_)
    refine presV_bind (pres_regSet_byte _ _ (pyAnd_byte a v ha.1 ha.2).1
      (pyAnd_byte a v ha.1 ha.2).2) (fun _ _ => ?_)
    refine presV_bind (pres_update_flags _ _ _ _ _) (fun _ _ => ?_)
    refine presV_bind (pres_modifyS_frame _ (fun s => rfl) (fun s => rfl) (fun s => rfl))
      (fun _ _ => ?_)
    refine presV_bind (pres_modifyS_frame _ (fun s => rfl) (fun s => rfl) (fun s => rfl))
      (fun _ _ => ?_)
    exact presV_bind (pres_pcAdd 1) (fun _ _ => pres_pure Status.OK)
  · refine presV_bind (pres_regGet _) (fun v _ => ?_)
    refine presV_bind (presV_regGet_byte "A" (by decide) (by decide)) (fun a ha => ?_)
    refine presV_bind (pres_regSet_byte _ _ (pyAnd_byte a v ha.1 ha.2).1
      (pyAnd_byte a v ha.1 ha.2).2) (fun _ _ => ?_)
    refine presV_bind (pres_update_flags _ _ _ _ _) (fun _ _ => ?_)
    refine presV_bind (pres_modifyS_frame _ (fun s => rfl) (fun s => rfl) (fun s => rfl))
      (fun _ _ => ?_)
    refine presV_bind (pres_modifyS_frame _ (fun s => rfl) (fun s => rfl) (fun s => rfl))
      (fun _ _ => ?_)
    exact presV_bind (pres_pcAdd 1) (fun _ _ => pres_pure Status.OK)

theorem pres_execANI (toks : List String) : Pres (execANI toks) := by
  unfold execANI
  refine presV_bind (pres_tokAt toks 1) (fun t1 _ => ?_)
  refine presV_bind (pres_parseNum _) (fun v _ => ?_)
  dsimp only
  refine presV_bind (presV_regGet_byte "A" (by decide) (by decide)) (fun a ha => ?_)
  refine presV_bind (pres_regSet_byte _ _ (pyAnd_byte a _ ha.1 ha.2).1
    (pyAnd_byte a _ ha.1 ha.2).2) (fun _ _ => ?_)
  refine presV_bind (pres_update_flags _ _ _ _ _) (fun _ _ => ?_)
  refine presV_bind (pres_modifyS_frame _ (fun s => rfl) (fun s => rfl) (fun s => rfl))
    (fun _ _ => ?_)
  refine presV_bind (pres_modifyS_frame _ (fun s => rfl) (fun s => rfl) (fun s => rfl))
    (fun _ _ => ?_)
  exact presV_bind (pres_pcAdd 2) (fun _ _ => pres_pure Status.OK)

theorem pres_execORA (toks : List String)
    (hsp : pyStripChars [',', ';'] (toks.getD 1 "") ≠ "SP")
    (hpc : pyStripChars [',', ';'] (toks.getD 1 "") ≠ "PC") :
    Pres (execORA toks) := by
  unfold execORA
  refine presV_bind (presV_tokAt toks 1) (fun t1 ht1 => ?_)
  have hgd : toks.getD 1 "" = t1 := by
    rw [List.getD_eq_getD_get?, ht1]
    rfl
  rw [hgd] at hsp hpc
  dsimp only
  refine presV_ite _ ?_ ?_
  · refine presV_bind pres_get_hl_addr (fun addr _ => ?_)
    refine presV_bind (presV_memGet addr) (fun v hv => ?_)
    refine presV_bind (presV_regGet_byte "A" (by decide) (by decide)) (fun a ha => ?_)
    refine presV_bind (pres_regSet_byte _ _ (pyOr_byte a v ha.1 ha.2 hv.1 hv.2).1
      (pyOr_byte a v ha.1 ha.2 hv.1 hv.2).2) (fun _ _ => ?_)
    refine presV_bind (pres_update_flags _ _ _ _ _) (fun _ _ => ?_)
    refine presV_bind (pres_modifyS_frame _ (fun s => rfl) (fun s => rfl) (fun s => rfl))
      (fun _ _ => ?_)
    refine presV_bind (pres_modifyS_frame _ (fun s => rfl) (fun s => rfl) (fun s => rfl))
      (fun _ _ => ?_)
    exact presV_bind (pres_pcAdd 1) (fun _ _ => pres_pure Status.OK)
  · refine presV_bind (presV_regGet_byte _ hsp hpc) (fun v hv => ?_)
    refine presV_bind (presV_regGet_byte "A" (by decide) (by decide)) (fun a ha => ?_)
    refine presV_bind (pres_regSet_byte _ _ (pyOr_byte a v ha.1 ha.2 hv.1 hv.2).1
      (pyOr_byte a v ha.1 ha.2 hv.1 hv.2).2) (fun _ _ => ?_)
    refine presV_bind (pres_update_flags _ _ _ _ _) (fun _ _ => ?_)
    refine presV_bind (pres_modifyS_frame _ (fun s => rfl) (fun s => rfl) (fun s => rfl))
      (fun _ _ => ?_)
    refine presV_bind (pres_modifyS_frame _ (fun s => rfl) (fun s => rfl) (fun s => rfl))
      (fun _ _ => ?_)
    exact presV_bind (pres_pcAdd 1) (fun _ _ => pres_pure Status.OK)

theorem pres_execORI (toks : List String) : Pres (execORI toks) := by
  unfold execORI
  refine presV_bind (pres_tokAt toks 1) (fun t1 _ => ?_)
  refine presV_bind (pres_parseNum _) (fun v _ => ?_)
  dsimp only
  refine presV_bind (presV_regGet_byte "A" (by decide) (by decide)) (fun a ha => ?_)
  refine presV_bind (pres_regSet_byte _ _
    (pyOr_byte a _ ha.1 ha.2 (emod256_byte v).1 (emod256_byte v).2).1
    (pyOr_byte a _ ha.1 ha.2 (emod256_byte v).1 (emod256_byte v).2).2) (fun _ _ => ?_)
  refine presV_bind (pres_update_flags _ _ _ _ _) (fun _ _ => ?_)
  refine presV_bind (pres_modifyS_frame _ (fun s => rfl) (fun s => rfl) (fun s => rfl))
    (fun _ _ => ?_)
  refine presV_bind (pres_modifyS_frame _ (fun s => rfl) (fun s => rfl) (fun s => rfl))
    (fun _ _ => ?_)
  exact presV_bind (pres_pcAdd 2) (fun _ _ => pres_pure Status.OK)

theorem pres_execXRA (toks : List String)
    (hsp : pyStripChars [',', ';'] (toks.getD 1 "") ≠ "SP")
    (hpc : pyStripChars [',', ';'] (toks.getD 1 "") ≠ "PC") :
    Pres (execXRA toks) := by
  unfold execXRA
  refine presV_bind (presV_tokAt toks 1) (fun t1 ht1 => ?_)
  have hgd : toks.getD 1 "" = t1 := by
    rw [List.getD_eq_getD_get?, ht1]
    rfl
  rw [hgd] at hsp hpc
  dsimp only
  refine presV_ite _ ?_ ?_
  · refine presV_bind pres_get_hl_addr (fun addr _ => ?_)
    refine presV_bind (presV_memGet addr) (fun v hv => ?_)
    refine presV_bind (presV_regGet_byte "A" (by decide) (by decide)) (fun a ha => ?_)
    refine presV_bind (pres_regSet_byte _ _ (pyXor_byte a v ha.1 ha.2 hv.1 hv.2).1
      (pyXor_byte a v ha.1 ha.2 hv.1 hv.2).2) (fun _ _ => ?_)
    refine presV_bind (pres_update_flags _ _ _ _ _) (fun _ _ => ?_)
    refine presV_bind (pres_modifyS_frame _ (fun s => rfl) (fun s => rfl) (fun s => rfl))
      (fun _ _ => ?_)
    refine presV_bind (pres_modifyS_frame _ (fun s => rfl) (fun s => rfl) (fun s => rfl))
      (fun _ _ => ?_)
    exact presV_bind (pres_pcAdd 1) (fun _ _ => pres_pure Status.OK)
  · refine presV_bind (presV_regGet_byte _ hsp hpc) (fun v hv => ?_)
    refine presV_bind (presV_regGet_byte "A" (by decide) (by decide)) (fun a ha => ?_)
    refine presV_bind (pres_regSet_byte _ _ (pyXor_byte a v ha.1 ha.2 hv.1 hv.2).1
      (pyXor_byte a v ha.1 ha.2 hv.1 hv.2).2) (fun _ _ => ?_)
    refine presV_bind (pres_update_flags _ _ _ _ _) (fun _ _ => ?_)
    refine presV_bind (pres_modifyS_frame _ (fun s => rfl) (fun s => rfl) (fun s => rfl))
      (fun _ _ => ?_)
    refine presV_bind (pres_modifyS_frame _ (fun s => rfl) (fun s => rfl) (fun s => rfl))
      (fun _ _ => ?_)
    exact presV_bind (pres_pcAdd 1) (fun _ _ => pres_pure Status.OK)

theorem pres_execXRI (toks : List String) : Pres (execXRI toks) := by
  unfold execXRI
  refine presV_bind (pres_tokAt toks 1) (fun t1 _ => ?_)
  refine presV_bind (pres_parseNum _) (fun v _ => ?_)
  dsimp only
  refine presV_bind (presV_regGet_byte "A" (by decide) (by decide)) (fun a ha => ?_)
  refine presV_bind (pres_regSet_byte _ _
    (pyXor_byte a _ ha.1 ha.2 (emod256_byte v).1 (emod256_byte v).2).1
    (pyXor_byte a _ ha.1 ha.2 (emod256_byte v).1 (emod256_byte v).2).2) (fun _ _ => ?_)
  refine presV_bind (pres_update_flags _ _ _ _ _) (fun _ _ => ?_)
  refine presV_bind (pres_modifyS_frame _ (fun s => rfl) (fun s => rfl) (fun s => rfl))
    (fun _ _ => ?_)
  refine presV_bind (pres_modifyS_frame _ (fun s => rfl) (fun s => rfl) (fun s => rfl))
    (fun _ _ => ?_)
  exact presV_bind (pres_pcAdd 2) (fun _ _ => pres_pure Status.OK)

theorem pres_execCMA : Pres execCMA := by
  unfold execCMA
  refine presV_bind (pres_regGet "A") (fun a _ => ?_)
  refine presV_bind (pres_regSet_byte _ _ (emod256_byte _).1 (emod256_byte _).2) (fun _ _ => ?_)
  exact presV_bind (pres_pcAdd 1) (fun _ _ => pres_pure Status.OK)

theorem pres_execCMC : Pres execCMC := by
  unfold execCMC
  refine presV_bind (pres_modifyS_frame _ (fun s => rfl) (fun s => rfl) (fun s => rfl))
    (fun _ _ => ?_)
  exact presV_bind (pres_pcAdd 1) (fun _ _ => pres_pure Status.OK)

theorem pres_execSTC : Pres execSTC := by
  unfold execSTC
  refine presV_bind (pres_modifyS_frame _ (fun s => rfl) (fun s => rfl) (fun s => rfl))
    (fun _ _ => ?_)
  exact presV_bind (pres_pcAdd 1) (fun _ _ => pres_pure Status.OK)

theorem pres_execRLC : Pres execRLC := by
  unfold execRLC
  refine presV_bind (pres_regGet "A") (fun v _ => ?_)
  refine presV_bind (pres_modifyS_frame _ (fun s => rfl) (fun s => rfl) (fun s => rfl))
    (fun _ _ => ?_)
  refine presV_bind (pres_regSet_byte _ _ (emod256_byte _).1 (emod256_byte _).2) (fun _ _ => ?_)
  exact presV_bind (pres_pcAdd 1) (fun _ _ => pres_pure Status.OK)

theorem pres_execRRC : Pres execRRC := by
  unfold execRRC
  refine presV_bind (pres_regGet "A") (fun v _ => ?_)
  refine presV_bind (pres_modifyS_frame _ (fun s => rfl) (fun s => rfl) (fun s => rfl))
    (fun _ _ => ?_)
  refine presV_bind (pres_regSet_byte _ _ (emod256_byte _).1 (emod256_byte _).2) (fun _ _ => ?_)
  exact presV_bind (pres_pcAdd 1) (fun _ _ => pres_pure Status.OK)

theorem pres_execRAL : Pres execRAL := by
  unfold execRAL
  refine presV_bind (pres_regGet "A") (fun v _ => ?_)
  refine presV_bind presV_get (fun st _ => ?_)
  dsimp only
  refine presV_bind (pres_modifyS_frame _ (fun s => rfl) (fun s => rfl) (fun s => rfl))
    (fun _ _ => ?_)
  refine presV_bind (pres_regSet_byte _ _ (emod256_byte _).1 (emod256_byte _).2) (fun _ _ => ?_)
  exact presV_bind (pres_pcAdd 1) (fun _ _ => pres_pure Status.OK)

theorem pres_execRAR : Pres execRAR := by
  unfold execRAR
  refine presV_bind (pres_regGet "A") (fun v _ => ?_)
  refine presV_bind presV_get (fun st _ => ?_)
  dsimp only
  refine presV_bind (pres_modifyS_frame _ (fun s => rfl) (fun s => rfl) (fun s => rfl))
    (fun _ _ => ?_)
  refine presV_bind (pres_regSet_byte _ _ (emod256_byte _).1 (emod256_byte _).2) (fun _ _ => ?_)
  exact presV_bind (pres_pcAdd 1) (fun _ _ => pres_pure Status.OK)

theorem pres_execADC (toks : List String) : Pres (execADC toks) := by
  unfold execADC
  refine presV_bind (pres_tokAt toks 1) (fun t1 _ => ?_)
  dsimp only
  refine presV_ite _ ?_ ?_
  · refine presV_bind pres_get_hl_addr (fun addr _ => ?_)
    refine presV_bind (pres_memGet addr) (fun v _ => ?_)
    refine presV_bind (pres_regGet "A") (fun a _ => ?_)
    refine presV_bind presV_get (fun st _ => ?_)
    dsimp only
    refine presV_bind (pres_regSet_byte _ _ (emod256_byte _).1 (emod256_byte _).2) (fun _ _ => ?_)
    refine presV_bind (pres_regGet "A") (fun a2 _ => ?_)
    refine presV_bind (pres_update_flags _ _ _ _ _) (fun _ _ => ?_)
    exact presV_bind (pres_pcAdd 1) (fun _ _ => pres_pure Status.OK)
  · refine presV_bind (pres_regGet _) (fun v _ => ?_)
    refine presV_bind (pres_regGet "A") (fun a _ => ?_)
    refine presV_bind presV_get (fun st _ => ?_)
    dsimp only
    refine presV_bind (pres_regSet_byte _ _ (emod256_byte _).1 (emod256_byte _).2) (fun _ _ => ?_)
    refine presV_bind (pres_regGet "A") (fun a2 _ => ?_)
    refine presV_bind (pres_update_flags _ _ _ _ _) (fun _ _ => ?_)
    exact presV_bind (pres_pcAdd 1) (fun _ _ => pres_pure Status.OK)

theorem pres_execACI (toks : List String) : Pres (execACI toks) := by
  unfold execACI
  refine presV_bind (pres_tokAt toks 1) (fun t1 _ => ?_)
  refine presV_bind (pres_parseNum _) (fun v _ => ?_)
  refine presV_bind (pres_regGet "A") (fun a _ => ?_)
  refine presV_bind presV_get (fun st _ => ?_)
  dsimp only
  refine presV_bind (pres_regSet_byte _ _ (emod256_byte _).1 (emod256_byte _).2) (fun _ _ => ?_)
  refine presV_bind (pres_regGet "A") (fun a2 _ => ?_)
  refine presV_bind (pres_update_flags _ _ _ _ _) (fun _ _ => ?_)
  exact presV_bind (pres_pcAdd 2) (fun _ _ => pres_pure Status.OK)

theorem pres_execSBB (toks : List String) : Pres (execSBB toks) := by
  unfold execSBB
  refine presV_bind (pres_tokAt toks 1) (fun t1 _ => ?_)
  dsimp only
  refine presV_ite _ ?_ ?_
  · refine presV_bind pres_get_hl_addr (fun addr _ => ?_)
    refine presV_bind (pres_memGet addr) (fun v _ => ?_)
    refine presV_bind (pres_regGet "A") (fun a _ => ?_)
    refine presV_bind presV_get (fun st _ => ?_)
    dsimp only
    refine presV_bind (pres_regSet_byte _ _ (emod256_byte _).1 (emod256_byte _).2) (fun _ _ => ?_)
    refine presV_bind (pres_regGet "A") (fun a2 _ => ?_)
    refine presV_bind (pres_update_flags _ _ _ _ _) (fun _ _ => ?_)
    exact presV_bind (pres_pcAdd 1) (fun _ _ => pres_pure Status.OK)
  · refine presV_bind (pres_regGet _) (fun v _ => ?_)
    refine presV_bind (pres_regGet "A") (fun a _ => ?_)
    refine presV_bind presV_get (fun st _ => ?_)
    dsimp only
    refine presV_bind (pres_regSet_byte _ _ (emod256_byte _).1 (emod256_byte _).2) (fun _ _ => ?_)
    refine presV_bind (pres_regGet "A") (fun a2 _ => ?_)
    refine presV_bind (pres_update_flags _ _ _ _ _) (fun _ _ => ?_)
    exact presV_bind (pres_pcAdd 1) (fun _ _ => pres_pure Status.OK)

theorem pres_execSBI (toks : List String) : Pres (execSBI toks) := by
  unfold execSBI
  refine presV_bind (pres_tokAt toks 1) (fun t1 _ => ?_)
  refine presV_bind (pres_parseNum _) (fun v _ => ?_)
  refine presV_bind (pres_regGet "A") (fun a _ => ?_)
  refine presV_bind presV_get (fun st _ => ?_)
  dsimp only
  refine presV_bind (pres_regSet_byte _ _ (emod256_byte _).1 (emod256_byte _).2) (fun _ _ => ?_)
  refine presV_bind (pres_regGet "A") (fun a2 _ => ?_)
  refine presV_bind (pres_update_flags _ _ _ _ _) (fun _ _ => ?_)
  exact presV_bind (pres_pcAdd 2) (fun _ _ => pres_pure Status.OK)

theorem pres_execDAA : Pres execDAA := by
  unfold execDAA
  refine presV_bind (pres_regGet "A") (fun a0 _ => ?_)
  refine presV_bind presV_get (fun st _ => ?_)
  dsimp only
  refine presV_bind (pres_regSet_byte _ _ (emod256_byte _).1 (emod256_byte _).2) (fun _ _ => ?_)
  refine presV_bind (pres_regGet "A") (fun a3 _ => ?_)
  refine presV_bind (pres_update_flags _ _ _ _ _) (fun _ _ => ?_)
  exact presV_bind (pres_pcAdd 1) (fun _ _ => pres_pure Status.OK)

theorem pres_execCondCall (opcode : String) (toks : List String) :
    Pres (execCondCall opcode toks) := by
  unfold execCondCall
  refine presV_bind (pres_tokAt toks 1) (fun t1 _ => ?_)
  refine presV_bind presV_get (fun st _ => ?_)
  dsimp only
  refine @presV_bind _ _ _ _ (fun _ => True) _ ?_ (fun topt _ => ?_)
  · cases h : st.labels.lookup (pyStripChars [',', ';'] t1) with
    | some v => exact pres_pure _
    | none =>
      refine presV_bind presV_get (fun st2 _ => ?_)
      cases h2 : parse_number st2.symbols st2.labels (pyStripChars [',', ';'] t1) with
      | ok v => exact pres_pure _
      | error e =>
        cases e with
        | syntaxError m => exact presV_throw _
        | valueError m => exact pres_pure _
        | zeroDivision m => exact presV_throw _
        | indexError m => exact presV_throw _
  · cases topt with
    | none => exact pres_errorReturn _
    | some ta =>
      dsimp only
      refine presV_ite _ ?_ ?_
      · refine presV_bind (pres_regGet "PC") (fun pc _ => ?_)
        refine presV_bind (pres_pushBytes _ _) (fun _ _ => ?_)
        exact presV_bind (pres_regSet_exempt "PC" _ (Or.inr rfl))
          (fun _ _ => pres_pure Status.OK)
      · exact presV_bind (pres_pcAdd 3) (fun _ _ => pres_pure Status.OK)

theorem pres_execCondRet (opcode : String) : Pres (execCondRet opcode) := by
  unfold execCondRet
  refine presV_bind presV_get (fun st _ => ?_)
  dsimp only
  refine presV_ite _ ?_ ?_
  · refine presV_bind presV_popByte (fun lo _ => ?_)
    refine presV_bind presV_popByte (fun hi _ => ?_)
    dsimp only
    exact presV_bind (pres_regSet_exempt "PC" _ (Or.inr rfl)) (fun _ _ => pres_pure Status.OK)
  · exact presV_bind (pres_pcAdd 1) (fun _ _ => pres_pure Status.OK)

theorem pres_execRST (toks : List String) : Pres (execRST toks) := by
  unfold execRST
  refine presV_bind (pres_tokAt toks 1) (fun t1 _ => ?_)
  dsimp only
  cases h : pyInt false t1 with
  | some v =>
    refine presV_bind (pres_pure v) (fun n _ => ?_)
    dsimp only
    refine presV_ite _ ?_ ?_
    · exact pres_errorReturn _
    · refine presV_bind (pres_regGet "PC") (fun pc _ => ?_)
      refine presV_bind (pres_pushBytes _ _) (fun _ _ => ?_)
      exact presV_bind (pres_regSet_exempt "PC" _ (Or.inr rfl)) (fun _ _ => pres_pure Status.OK)
  | none =>
    refine @presV_bind _ _ _ _ (fun _ => True) _ (presV_throw _) (fun n _ => ?_)
    dsimp only
    refine presV_ite _ ?_ ?_
    · exact pres_errorReturn _
    · refine presV_bind (pres_regGet "PC") (fun pc _ => ?_)
      refine presV_bind (pres_pushBytes _ _) (fun _ _ => ?_)
      exact presV_bind (pres_regSet_exempt "PC" _ (Or.inr rfl)) (fun _ _ => pres_pure Status.OK)

theorem pres_execCMP (toks : List String) : Pres (execCMP toks) := by
  unfold execCMP
  refine presV_bind (pres_tokAt toks 1) (fun t1 _ => ?_)
  dsimp only
  refine presV_ite _ ?_ ?_
  · refine presV_bind pres_get_hl_addr (fun addr _ => ?_)
    refine presV_bind (pres_memGet addr) (fun v _ => ?_)
    refine presV_bind (pres_regGet "A") (fun a _ => ?_)
    refine presV_bind (pres_update_flags _ _ _ _ _) (fun _ _ => ?_)
    exact presV_bind (pres_pcAdd 1) (fun _ _ => pres_pure Status.OK)
  · refine presV_bind (pres_regGet _) (fun v _ => ?_)
    refine presV_bind (pres_regGet "A") (fun a _ => ?_)
    refine presV_bind (pres_update_flags _ _ _ _ _) (fun _ _ => ?_)
    exact presV_bind (pres_pcAdd 1) (fun _ _ => pres_pure Status.OK)

theorem pres_execNOP : Pres execNOP := by
  unfold execNOP
  exact presV_bind (pres_pcAdd 1) (fun _ _ => pres_pure Status.OK)

theorem pres_execSUI (toks : List String) : Pres (execSUI toks) := by
  unfold execSUI
  refine presV_bind (pres_tokAt toks 1) (fun t1 _ => ?_)
  refine presV_bind (pres_parseNum _) (fun v _ => ?_)
  refine presV_bind (pres_regGet "A") (fun a _ => ?_)
  dsimp only
  refine presV_bind (pres_regSet_byte _ _ (emod256_byte _).1 (emod256_byte _).2) (fun _ _ => ?_)
  refine presV_bind (pres_regGet "A") (fun a2 _ => ?_)
  refine presV_bind (pres_update_flags _ _ _ _ _) (fun _ _ => ?_)
  exact presV_bind (pres_pcAdd 2) (fun _ _ => pres_pure Status.OK)

theorem pres_execIN (toks : List String) : Pres (execIN toks) := by
  unfold execIN
  refine presV_bind (pres_tokAt toks 1) (fun t1 _ => ?_)
  refine presV_bind (pres_parseNum _) (fun v _ => ?_)
  dsimp only
  refine presV_bind (presV_ioGet _) (fun x hx => ?_)
  refine presV_bind (pres_regSet_byte _ _ hx.1 hx.2) (fun _ _ => ?_)
  exact presV_bind (pres_pcAdd 2) (fun _ _ => pres_pure Status.OK)

theorem pres_execOUT (toks : List String) : Pres (execOUT toks) := by
  unfold execOUT
  refine presV_bind (pres_tokAt toks 1) (fun t1 _ => ?_)
  refine presV_bind (pres_parseNum _) (fun v _ => ?_)
  dsimp only
  refine presV_bind (pres_regGet "A") (fun a _ => ?_)
  refine presV_bind (pres_ioSet _ _) (fun _ _ => ?_)
  exact presV_bind (pres_pcAdd 2) (fun _ _ => pres_pure Status.OK)

theorem pres_execEI : Pres execEI := by
  unfold execEI
  exact presV_bind (pres_pcAdd 1) (fun _ _ => pres_pure Status.OK)

theorem pres_execDI : Pres execDI := by
  unfold execDI
  exact presV_bind (pres_pcAdd 1) (fun _ _ => pres_pure Status.OK)

theorem pres_execRIM : Pres execRIM := by
  unfold execRIM
  refine presV_bind (pres_regSet_byte _ _ (by norm_num) (by norm_num)) (fun _ _ => ?_)
  exact presV_bind (pres_pcAdd 1) (fun _ _ => pres_pure Status.OK)

theorem pres_execSIM : Pres execSIM := by
  unfold execSIM
  exact presV_bind (pres_pcAdd 1) (fun _ _ => pres_pure Status.OK)

/-- Every dispatched instruction preserves the three byte invariants, except
that MOV needs its source token, and ORA/XRA their stripped register
operand, to be neither SP nor PC. -/
theorem pres_dispatch (op : String) (toks : List String)
    (hmov : op = "MOV" → toks.getD 2 "" ≠ "SP" ∧ toks.getD 2 "" ≠ "PC")
    (hora : op = "ORA" → pyStripChars [',', ';'] (toks.getD 1 "") ≠ "SP" ∧
      pyStripChars [',', ';'] (toks.getD 1 "") ≠ "PC")
    (hxra : op = "XRA" → pyStripChars [',', ';'] (toks.getD 1 "") ≠ "SP" ∧
      pyStripChars [',', ';'] (toks.getD 1 "") ≠ "PC") :
    Pres (dispatch op toks) := by
  unfold dispatch
  by_cases h1 : (op = "JMP" ∨ op = "JZ" ∨ op = "JNZ" ∨ op = "JC" ∨ op = "JNC" ∨ op = "JP" ∨ op = "JM" ∨ op = "JPE" ∨ op = "JPO")
  · rw [if_pos h1]
    exact pres_execJump op toks
  rw [if_neg h1]
  by_cases h2 : op = "MVI"
  · rw [if_pos h2]
    exact pres_execMVI toks
  rw [if_neg h2]
  by_cases h3 : op = "MOV"
  · rw [if_pos h3]
    exact pres_execMOV toks (hmov h3).1 (hmov h3).2
  rw [if_neg h3]
  by_cases h4 : op = "LXI"
  · rw [if_pos h4]
    exact pres_execLXI toks
  rw [if_neg h4]
  by_cases h5 : op = "LDA"
  · rw [if_pos h5]
    exact pres_execLDA toks
  rw [if_neg h5]
  by_cases h6 : op = "STA"
  · rw [if_pos h6]
    exact pres_execSTA toks
  rw [if_neg h6]
  by_cases h7 : op = "ADD"
  · rw [if_pos h7]
    exact pres_execADD toks
  rw [if_neg h7]
  by_cases h8 : op = "ADI"
  · rw [if_pos h8]
    exact pres_execADI toks
  rw [if_neg h8]
  by_cases h9 : op = "SUB"
  · rw [if_pos h9]
    exact pres_execSUB toks
  rw [if_neg h9]
  by_cases h10 : op = "INR"
  · rw [if_pos h10]
    exact pres_execINR toks
  rw [if_neg h10]
  by_cases h11 : op = "DCR"
  · rw [if_pos h11]
    exact pres_execDCR toks
  rw [if_neg h11]
  by_cases h12 : op = "HLT"
  · rw [if_pos h12]
    exact pres_execHLT
  rw [if_neg h12]
  by_cases h13 : op = "INX"
  · rw [if_pos h13]
    exact pres_execINX toks
  rw [if_neg h13]
  by_cases h14 : op = "PUSH"
  · rw [if_pos h14]
    exact pres_execPUSH toks
  rw [if_neg h14]
  by_cases h15 : op = "POP"
  · rw [if_pos h15]
    exact pres_execPOP toks
  rw [if_neg h15]
  by_cases h16 : op = "CALL"
  · rw [if_pos h16]
    exact pres_execCALL toks
  rw [if_neg h16]
  by_cases h17 : op = "RET"
  · rw [if_pos h17]
    exact pres_execRET
  rw [if_neg h17]
  by_cases h18 : op = "CPI"
  · rw [if_pos h18]
    exact pres_execCPI toks
  rw [if_neg h18]
  by_cases h19 : op = "DAD"
  · rw [if_pos h19]
    exact pres_execDAD toks
  rw [if_neg h19]
  by_cases h20 : op = "XCHG"
  · rw [if_pos h20]
    exact pres_execXCHG
  rw [if_neg h20]
  by_cases h21 : op = "LDAX"
  · rw [if_pos h21]
    exact pres_execLDAX toks
  rw [if_neg h21]
  by_cases h22 : op = "STAX"
  · rw [if_pos h22]
    exact pres_execSTAX toks
  rw [if_neg h22]
  by_cases h23 : op = "LHLD"
  · rw [if_pos h23]
    exact pres_execLHLD toks
  rw [if_neg h23]
  by_cases h24 : op = "SHLD"
  · rw [if_pos h24]
    exact pres_execSHLD toks
  rw [if_neg h24]
  by_cases h25 : op = "PCHL"
  · rw [if_pos h25]
    exact pres_execPCHL
  rw [if_neg h25]
  by_cases h26 : op = "SPHL"
  · rw [if_pos h26]
    exact pres_execSPHL
  rw [if_neg h26]
  by_cases h27 : op = "XTHL"
  · rw [if_pos h27]
    exact pres_execXTHL
  rw [if_neg h27]
  by_cases h28 : op = "ANA"
  · rw [if_pos h28]
    exact pres_execANA toks
  rw [if_neg h28]
  by_cases h29 : op = "ANI"
  · rw [if_pos h29]
    exact pres_execANI toks
  rw [if_neg h29]
  by_cases h30 : op = "ORA"
  · rw [if_pos h30]
    exact pres_execORA toks (hora h30).1 (hora h30).2
  rw [if_neg h30]
  by_cases h31 : op = "ORI"
  · rw [if_pos h31]
    exact pres_execORI toks
  rw [if_neg h31]
  by_cases h32 : op = "XRA"
  · rw [if_pos h32]
    exact pres_execXRA toks (hxra h32).1 (hxra h32).2
  rw [if_neg h32]
  by_cases h33 : op = "XRI"
  · rw [if_pos h33]
    exact pres_execXRI toks
  rw [if_neg h33]
  by_cases h34 : op = "CMA"
  · rw [if_pos h34]
    exact pres_execCMA
  rw [if_neg h34]
  by_cases h35 : op = "CMC"
  · rw [if_pos h35]
    exact pres_execCMC
  rw [if_neg h35]
  by_cases h36 : op = "STC"
  · rw [if_pos h36]
    exact pres_execSTC
  rw [if_neg h36]
  by_cases h37 : op = "RLC"
  · rw [if_pos h37]
    exact pres_execRLC
  rw [if_neg h37]
  by_cases h38 : op = "RRC"
  · rw [if_pos h38]
    exact pres_execRRC
  rw [if_neg h38]
  by_cases h39 : op = "RAL"
  · rw [if_pos h39]
    exact pres_execRAL
  rw [if_neg h39]
  by_cases h40 : op = "RAR"
  · rw [if_pos h40]
    exact pres_execRAR
  rw [if_neg h40]
  by_cases h41 : op = "ADC"
  · rw [if_pos h41]
    exact pres_execADC toks
  rw [if_neg h41]
  by_cases h42 : op = "ACI"
  · rw [if_pos h42]
    exact pres_execACI toks
  rw [if_neg h42]
  by_cases h43 : op = "SBB"
  · rw [if_pos h43]
    exact pres_execSBB toks
  rw [if_neg h43]
  by_cases h44 : op = "SBI"
  · rw [if_pos h44]
    exact pres_execSBI toks
  rw [if_neg h44]
  by_cases h45 : op = "DAA"
  · rw [if_pos h45]
    exact pres_execDAA
  rw [if_neg h45]
  by_cases h46 : op = "DCX"
  · rw [if_pos h46]
    exact pres_execDCX toks
  rw [if_neg h46]
  by_cases h47 : (op = "CC" ∨ op = "CNC" ∨ op = "CZ" ∨ op = "CNZ" ∨ op = "CP" ∨ op = "CM" ∨ op = "CPE" ∨ op = "CPO")
  · rw [if_pos h47]
    exact pres_execCondCall op toks
  rw [if_neg h47]
  by_cases h48 : (op = "RC" ∨ op = "RNC" ∨ op = "RZ" ∨ op = "RNZ" ∨ op = "RP" ∨ op = "RM" ∨ op = "RPE" ∨ op = "RPO")
  · rw [if_pos h48]
    exact pres_execCondRet op
  rw [if_neg h48]
  by_cases h49 : op = "RST"
  · rw [if_pos h49]
    exact pres_execRST toks
  rw [if_neg h49]
  by_cases h50 : op = "CMP"
  · rw [if_pos h50]
    exact pres_execCMP toks
  rw [if_neg h50]
  by_cases h51 : op = "NOP"
  · rw [if_pos h51]
    exact pres_execNOP
  rw [if_neg h51]
  by_cases h52 : op = "SUI"
  · rw [if_pos h52]
    exact pres_execSUI toks
  rw [if_neg h52]
  by_cases h53 : op = "IN"
  · rw [if_pos h53]
    exact pres_execIN toks
  rw [if_neg h53]
  by_cases h54 : op = "OUT"
  · rw [if_pos h54]
    exact pres_execOUT toks
  rw [if_neg h54]
  by_cases h55 : op = "EI"
  · rw [if_pos h55]
    exact pres_execEI
  rw [if_neg h55]
  by_cases h56 : op = "DI"
  · rw [if_pos h56]
    exact pres_execDI
  rw [if_neg h56]
  by_cases h57 : op = "RIM"
  · rw [if_pos h57]
    exact pres_execRIM
  rw [if_neg h57]
  by_cases h58 : op = "SIM"
  · rw [if_pos h58]
    exact pres_execSIM
  rw [if_neg h58]
  exact pres_errorReturn _

/-- A successful association-list lookup yields a member pair. -/
theorem lookup_mem {l : List (String × Int)} {k : String} {v : Int}
    (h : l.lookup k = some v) : (k, v) ∈ l := by
  induction l with
  | nil => cases h
  | cons p t ih =>
    match p with
    | (a, b) =>
      rw [List.lookup] at h
      cases hb : k == a with
      | true =>
        rw [hb] at h
        cases h
        have : k = a := eq_of_beq hb
        rw [this]
        exact List.mem_cons_self _ _
      | false =>
        rw [hb] at h
        exact List.mem_cons_of_mem _ (ih h)

/-- A pointwise bound on the entries of a register map gives `RegsOk`. -/
theorem RegsOk_of_mem (l : List (String × Int))
    (h : ∀ p ∈ l, p.1 = "SP" ∨ p.1 = "PC" ∨ (0 ≤ p.2 ∧ p.2 < 256)) : RegsOk l := by
  intro k v hk hsp hpc
  rcases h (k, v) (lookup_mem hk) with h1 | h1 | h1
  · exact absurd h1 hsp
  · exact absurd h1 hpc
  · exact h1

/-- C10 counterexample: `MOV A, SP` on a fresh processor (whose registers,
memory and ports all satisfy the byte invariant) succeeds and loads the
16-bit value 0xFFFF into the 8-bit register A. -/
theorem c10_counterexample :
    ProcInv procMovASp ∧
    (step procMovASp).map (fun p => (p.2, p.1.regs.lookup "A")) =
      Except.ok (Status.OK, some 65535) := by
  refine ⟨⟨RegsOk_of_mem _ (by decide),
    fun i => ⟨le_refl 0, by show (0:Int) < 256; norm_num⟩,
    fun i => ⟨le_refl 0, by show (0:Int) < 256; norm_num⟩⟩, rfl⟩

/-- C10 (amended): if the registers, memory and io ports all hold byte
values and the instruction at PC is not one of the three unmasked 16-bit
register reads (MOV with source token SP or PC, or ORA/XRA of SP or PC),
then any `step()` that returns normally — with any status, including runs
whose dispatch raised and was recorded as an error — leaves every register
other than SP and PC holding a byte value. -/
theorem c10_regs_byte (s s' : Proc) (st : Status)
    (hinv : ProcInv s) (hsafe : StepSafe s)
    (hstep : step s = Except.ok (s', st)) :
    RegsOk s'.regs := by
  unfold step at hstep
  by_cases hh : s.halted
  · rw [if_pos hh] at hstep
    cases hstep
    exact hinv.1
  rw [if_neg hh] at hstep
  by_cases he : errTruthy s.error
  · rw [if_pos he] at hstep
    cases hstep
    exact hinv.1
  rw [if_neg he] at hstep
  cases hpc : s.regs.lookup "PC" with
  | none =>
    rw [hpc] at hstep
    cases hstep
  | some pc =>
    rw [hpc] at hstep
    dsimp only at hstep
    cases hfind : instrAt s pc with
    | none =>
      rw [hfind] at hstep
      cases hstep
      exact hinv.1
    | some toks =>
      rw [hfind] at hstep
      cases toks with
      | nil =>
        cases hstep
        exact hinv.1
      | cons t0 rest =>
        dsimp only at hstep
        have hsafe2 := hsafe pc (t0 :: rest) hpc hfind
        have hdis : Pres (dispatch (pyUpper t0) (t0 :: rest)) :=
          pres_dispatch (pyUpper t0) (t0 :: rest) hsafe2.1
            (fun h => hsafe2.2 (Or.inl h)) (fun h => hsafe2.2 (Or.inr h))
        have hinv1 : ProcInv
            { s with last_instruction := some (" ".intercalate (t0 :: rest)) } := hinv
        have h2 := (hdis _ hinv1).1
        rcases hd : dispatch (pyUpper t0) (t0 :: rest)
            { s with last_instruction := some (" ".intercalate (t0 :: rest)) } with ⟨s2, r⟩
        rw [hd] at hstep h2
        cases r with
        | ok st2 =>
          cases hstep
          exact h2.1
        | error e =>
          cases hstep
          exact h2.1

/-- Witness for c10_regs_byte: after `ADD B` on a concrete byte-valued
processor the register file still holds only bytes outside SP/PC. -/
theorem c10_regs_byte_witness :
    ∃ p, step procAddB = Except.ok p ∧ RegsOk p.1.regs := by
  have hinv : ProcInv procAddB :=
    ⟨RegsOk_of_mem _ (by decide),
      fun i => ⟨le_refl 0, by show (0:Int) < 256; norm_num⟩,
      fun i => ⟨le_refl 0, by show (0:Int) < 256; norm_num⟩⟩
  have hsafe : StepSafe procAddB := by
    intro pc toks h1 h2
    have hpc : procAddB.regs.lookup "PC" = some 0 := by decide
    rw [hpc] at h1
    cases h1
    have hia : instrAt procAddB 0 = some ["ADD", "B"] := by decide
    rw [hia] at h2
    cases h2
    constructor
    · intro hmv
      exact absurd hmv (by decide)
    · intro hor
      rcases hor with h | h <;> exact absurd h (by decide)
  obtain ⟨p, hp⟩ : ∃ p, step procAddB = Except.ok p := ⟨_, rfl⟩
  exact ⟨p, hp, c10_regs_byte procAddB p.1 p.2 hinv hsafe (by rw [hp])⟩
